import Mathlib

/-!
# DIAL REST server core (`server/gdial-rest.c`): a shallow embedding

C strings are modelled as lists of characters (without the terminating NUL), a
possibly-NULL `const gchar *` as `Option CStr`.  `gboolean`/`gint` results that the
source returns as integers are kept as `Int` where the source does so.
-/

namespace GDial

/-- C string: the characters before the terminating NUL. -/
abbrev CStr := List Char

/-! ## glib / libc string helpers -/

/-- `strcmp`: negative, zero or positive; zero exactly for equal strings. -/
def strcmp : CStr → CStr → Int
  | [], [] => 0
  | [], _ :: _ => -1
  | _ :: _, [] => 1
  | a :: as, b :: bs => if a = b then strcmp as bs else if a.toNat < b.toNat then -1 else 1

/-- `g_strcmp0`: NULL-tolerant `strcmp`; NULL sorts before every string. -/
def g_strcmp0 : Option CStr → Option CStr → Int
  | none, none => 0
  | none, some _ => -1
  | some _, none => 1
  | some a, some b => strcmp a b

/-- `g_strlcpy(dst, src, size)` seen from `dst`: at most `size - 1` characters are copied. -/
def g_strlcpy (src : CStr) (size : Nat) : CStr := src.take (size - 1)

/-- Inner loop of `g_strsplit` for the one-character delimiter: `budget` further cuts are
still allowed, `cur` is the token being read (reversed). -/
def g_strsplit_go (delim : Char) : Nat → CStr → CStr → List CStr
  | _, cur, [] => [cur.reverse]
  | 0, cur, c :: rest => g_strsplit_go delim 0 (c :: cur) rest
  | budget + 1, cur, c :: rest =>
    if c = delim then cur.reverse :: g_strsplit_go delim budget [] rest
    else g_strsplit_go delim (budget + 1) (c :: cur) rest

/-- `g_strsplit(string, delim, max_tokens)` for a one-character delimiter: at most
`max_tokens` tokens, the last one holding the unsplit remainder; `max_tokens < 1`
means no limit; the empty string gives the empty vector. -/
def g_strsplit (string : CStr) (delim : Char) (max_tokens : Nat) : List CStr :=
  if string = [] then []
  else g_strsplit_go delim (if max_tokens < 1 then string.length else max_tokens - 1) [] string

/-- `g_ascii_isprint`: the printable ASCII range 0x20 .. 0x7e. -/
def g_ascii_isprint (c : Char) : Bool := 0x20 ≤ c.toNat && c.toNat ≤ 0x7e

/-- View of a byte buffer as a C string: the bytes before the first NUL. -/
def c_str (data : CStr) : CStr := data.takeWhile (fun c => c.toNat ≠ 0)

/-- `printf("%s", p)` for a possibly-NULL pointer (glibc prints `(null)`). -/
def fmt_s : Option CStr → CStr
  | some s => s
  | none => "(null)".toList

/-- `printf("%d", n)` for a non-negative value. -/
def fmt_d (n : Nat) : CStr := Nat.toDigits 10 n

/-- Modelled from the spec: `GDIAL_STR_STARTS_WITH` (gdial-util.h is not among the
sources); "starts with any of its prefixes". -/
def GDIAL_STR_STARTS_WITH (s1 s2 : CStr) : Bool := s2.isPrefixOf s1

/-- Modelled from the spec: `GDIAL_STR_ENDS_WITH` (gdial-util.h is not among the
sources); "is a suffix of the raw Origin string". -/
def GDIAL_STR_ENDS_WITH (s1 s2 : CStr) : Bool := s2.isSuffixOf s1

/-- Modelled from the spec: `gdial_util_is_ascii_printable` (gdial-util.c is not among
the sources); every one of the `length` bytes is ASCII-printable. -/
def gdial_util_is_ascii_printable (data : CStr) (length : Nat) : Bool :=
  (data.take length).all g_ascii_isprint

/-! ## Constants of `gdial-rest.h` -/

/-- Modelled from the spec: `GDIAL_REST_HTTP_APPS_URI`, the `/apps` base of the path
grammar. -/
def GDIAL_REST_HTTP_APPS_URI : CStr := "/apps".toList

/-- Modelled from the spec: `GDIAL_REST_HTTP_RUN_URI`, the `run` instance sentinel. -/
def GDIAL_REST_HTTP_RUN_URI : CStr := "/run".toList

/-- Modelled from the spec: `GDIAL_REST_HTTP_HIDE_URI`, the `hide` tail. -/
def GDIAL_REST_HTTP_HIDE_URI : CStr := "/hide".toList

/-- Modelled from the spec: `GDIAL_REST_HTTP_DIAL_DATA_URI`, the `dial_data` tail. -/
def GDIAL_REST_HTTP_DIAL_DATA_URI : CStr := "/dial_data".toList

/-- Size limits of `gdial-rest.h` / `gdial-app.h`; the header values are not among the
sources, so they are parameters of the model. -/
structure Limits where
  GDIAL_REST_HTTP_MAX_URI_LEN : Nat
  GDIAL_REST_HTTP_PATH_COMPONENT_MAX_LEN : Nat
  GDIAL_REST_HTTP_MAX_PAYLOAD : Nat
  GDIAL_APP_DIAL_DATA_MAX_LEN : Nat
  deriving DecidableEq, Repr

/-- `REST_API_THREAD_POOL_NOT_PROCESSED_LIMIT`. -/
def REST_API_THREAD_POOL_NOT_PROCESSED_LIMIT : Nat := 5

/-- `APPLICATION_STATE_CHANGE_START_TIMEOUT` in milliseconds. -/
def APPLICATION_STATE_CHANGE_START_TIMEOUT : Nat := 1000 * 35

/-- `APPLICATION_STATE_CHANGE_HIDE_TIMEOUT` in milliseconds. -/
def APPLICATION_STATE_CHANGE_HIDE_TIMEOUT : Nat := 1000 * 35

/-- `APPLICATION_STATE_CHANGE_STOP_TIMEOUT` in milliseconds. -/
def APPLICATION_STATE_CHANGE_STOP_TIMEOUT : Nat := 1000 * 35

/-! ## HTTP status codes (libsoup) -/

def SOUP_STATUS_OK : Nat := 200
def SOUP_STATUS_CREATED : Nat := 201
def SOUP_STATUS_NO_CONTENT : Nat := 204
def SOUP_STATUS_BAD_REQUEST : Nat := 400
def SOUP_STATUS_UNAUTHORIZED : Nat := 401
def SOUP_STATUS_FORBIDDEN : Nat := 403
def SOUP_STATUS_NOT_FOUND : Nat := 404
def SOUP_STATUS_METHOD_NOT_ALLOWED : Nat := 405
def SOUP_STATUS_REQUEST_ENTITY_TOO_LARGE : Nat := 413
def SOUP_STATUS_INTERNAL_SERVER_ERROR : Nat := 500
def SOUP_STATUS_NOT_IMPLEMENTED : Nat := 501
def SOUP_STATUS_SERVICE_UNAVAILABLE : Nat := 503

/-! ## Application registry -/

/-- `GDialAppRegistry`. -/
structure GDialAppRegistry where
  name : CStr
  use_additional_data : Bool
  is_singleton : Bool
  allowed_origins : List CStr
  app_prefixes : List CStr
  deriving DecidableEq, Repr

/-- `GCompareFunc_match_registry_app_name`: 0 when the registration matches the request
name (by prefix first, then by exact name), 1 otherwise. -/
def GCompareFunc_match_registry_app_name (a : GDialAppRegistry) (b : CStr) : Int :=
  let is_matched : Bool := a.app_prefixes.any (fun app_prefix => GDIAL_STR_STARTS_WITH b app_prefix)
  let is_matched : Bool := if !is_matched then g_strcmp0 (some a.name) (some b) == 0 else is_matched
  if is_matched then 0 else 1

/-- `g_list_find_custom`: the first element, from the head, on which `func` gives 0. -/
def g_list_find_custom {α β : Type} (list : List α) (data : β) (func : α → β → Int) : Option α :=
  list.find? (fun x => func x data == 0)

/-- `g_list_remove_link(list, found)` where `found` is the link returned by
`g_list_find_custom` with the same arguments. -/
def g_list_remove_found {α β : Type} (list : List α) (data : β) (func : α → β → Int) : List α :=
  list.eraseP (fun x => func x data == 0)

/-- `gdial_rest_server_find_app_registry` on the server's `registered_apps`. -/
def gdial_rest_server_find_app_registry (registered_apps : List GDialAppRegistry)
    (app_name : CStr) : Option GDialAppRegistry :=
  g_list_find_custom registered_apps app_name GCompareFunc_match_registry_app_name

/-- `gdial_rest_server_is_app_registered`. -/
def gdial_rest_server_is_app_registered (registered_apps : List GDialAppRegistry)
    (app_name : CStr) : Bool :=
  (gdial_rest_server_find_app_registry registered_apps app_name).isSome

/-- The two `while` loops of `gdial_rest_server_register_app` that fill the new record:
NULL and empty prefixes are dropped, and `g_list_prepend` reverses both lists. -/
def new_app_registry (app_name : CStr) (app_prefixes : List (Option CStr)) (is_singleton : Bool)
    (use_additional_data : Bool) (allowed_origins : List CStr) : GDialAppRegistry :=
  { name := app_name
    is_singleton := is_singleton
    use_additional_data := use_additional_data
    app_prefixes := app_prefixes.foldl
      (fun acc p => match p with
        | some s => if s.length > 0 then s :: acc else acc
        | none => acc) []
    allowed_origins := allowed_origins.foldl (fun acc o => o :: acc) [] }

/-- `gdial_rest_server_register_app` (server non-NULL): the returned flag and the new
`registered_apps`.  A NULL `app_name` fails the first `g_return_val_if_fail`. -/
def gdial_rest_server_register_app (registered_apps : List GDialAppRegistry)
    (app_name : Option CStr) (app_prefixes : List (Option CStr)) (is_singleton : Bool)
    (use_additional_data : Bool) (allowed_origins : List CStr) :
    Bool × List GDialAppRegistry :=
  match app_name with
  | none => (false, registered_apps)
  | some app_name =>
    if !is_singleton then (false, registered_apps)
    else if (g_list_find_custom registered_apps app_name
        GCompareFunc_match_registry_app_name).isSome then (false, registered_apps)
    else
      let app_registry :=
        new_app_registry app_name app_prefixes is_singleton use_additional_data allowed_origins
      let registered_apps := app_registry :: registered_apps
      if registered_apps.isEmpty then (false, registered_apps)
      else if !gdial_rest_server_is_app_registered registered_apps app_name then
        (false, registered_apps)
      else (true, registered_apps)

/-- `gdial_rest_server_unregister_app` (server non-NULL). -/
def gdial_rest_server_unregister_app (registered_apps : List GDialAppRegistry)
    (app_name : Option CStr) : Bool × List GDialAppRegistry :=
  match app_name with
  | none => (false, registered_apps)
  | some app_name =>
    match g_list_find_custom registered_apps app_name GCompareFunc_match_registry_app_name with
    | none => (false, registered_apps)
    | some _ =>
      (true, g_list_remove_found registered_apps app_name GCompareFunc_match_registry_app_name)


/-! ## libsoup messages -/

/-- `SoupURI`: the parts the server reads. -/
structure SoupURI where
  scheme : Option CStr
  host : Option CStr
  path : Option CStr
  query : Option CStr
  deriving DecidableEq, Repr

/-- `SOUP_URI_VALID_FOR_HTTP`. -/
def SOUP_URI_VALID_FOR_HTTP (uri : SoupURI) : Bool :=
  (uri.scheme == some "http".toList || uri.scheme == some "https".toList) &&
    uri.host.isSome && uri.path.isSome

/-- `SoupMessageBody`: `data` is the buffer (NULL when there is none), `length` its
declared length. -/
structure SoupMessageBody where
  data : Option CStr
  length : Nat
  deriving DecidableEq, Repr

/-- `SoupMessageHeaders`: name/value pairs in insertion order. -/
abbrev SoupMessageHeaders := List (CStr × CStr)

/-- Header names compare case-insensitively. -/
def header_name_eq (a b : CStr) : Bool := a.map Char.toLower == b.map Char.toLower

/-- `soup_message_headers_get_one`: the value of the last header of that name. -/
def soup_message_headers_get_one (hdrs : SoupMessageHeaders) (name : CStr) : Option CStr :=
  (hdrs.reverse.find? (fun h => header_name_eq h.1 name)).map (fun h => h.2)

/-- `soup_message_headers_remove`. -/
def soup_message_headers_remove (hdrs : SoupMessageHeaders) (name : CStr) : SoupMessageHeaders :=
  hdrs.filter (fun h => !header_name_eq h.1 name)

/-- `soup_message_headers_replace`: remove, then append. -/
def soup_message_headers_replace (hdrs : SoupMessageHeaders) (name value : CStr) :
    SoupMessageHeaders :=
  soup_message_headers_remove hdrs name ++ [(name, value)]

/-- `SoupMessage`, with `address_port` standing for
`soup_address_get_port(soup_message_get_address(msg))`. -/
structure SoupMessage where
  method : CStr
  uri : SoupURI
  request_headers : SoupMessageHeaders
  request_body : SoupMessageBody
  address_port : Nat
  status_code : Nat
  response_headers : SoupMessageHeaders
  response_body : Option CStr
  deriving DecidableEq, Repr

/-- `soup_message_set_status`. -/
def soup_message_set_status (msg : SoupMessage) (status_code : Nat) : SoupMessage :=
  { msg with status_code := status_code }

/-- `soup_message_set_response`: content type and body of the response. -/
def soup_message_set_response (msg : SoupMessage) (content_type : CStr) (resp_body : CStr) :
    SoupMessage :=
  { msg with
    response_headers := soup_message_headers_replace msg.response_headers
      "Content-Type".toList content_type
    response_body := some resp_body }

/-- `gdial_soup_message_security_check`. -/
def gdial_soup_message_security_check (msg : SoupMessage) : Bool :=
  SOUP_URI_VALID_FOR_HTTP msg.uri

/-- `gdial_soup_message_set_http_error` on a non-NULL message. -/
def gdial_soup_message_set_http_error (msg : SoupMessage) (state_code : Nat) : SoupMessage :=
  soup_message_set_status
    { msg with response_headers :=
        soup_message_headers_replace msg.response_headers "Connection".toList "close".toList }
    state_code

/-- `gdial_soup_message_headers_set_Allow_Origin`. -/
def gdial_soup_message_headers_set_Allow_Origin (msg : SoupMessage) (allowed : Bool) :
    SoupMessage :=
  match soup_message_headers_get_one msg.request_headers "Origin".toList with
  | some header_origin =>
    if allowed && decide (header_origin.length ≠ 0) then
      { msg with
        response_headers :=
          soup_message_headers_replace msg.response_headers
            "Access-Control-Allow-Origin".toList header_origin }
    else
      { msg with
        response_headers :=
          soup_message_headers_remove msg.response_headers "Access-Control-Allow-Origin".toList }
  | none =>
    { msg with
      response_headers :=
        soup_message_headers_remove msg.response_headers "Access-Control-Allow-Origin".toList }

/-- `gdial_rest_server_handle_OPTIONS`. -/
def gdial_rest_server_handle_OPTIONS (msg : SoupMessage) (allow_methods : CStr) : SoupMessage :=
  let msg := { msg with
    response_headers :=
      soup_message_headers_replace msg.response_headers
        "Access-Control-Allow-Methods".toList allow_methods }
  let msg := { msg with
    response_headers :=
      soup_message_headers_replace msg.response_headers
        "Access-Control-Max-Age".toList "86400".toList }
  let msg := gdial_soup_message_headers_set_Allow_Origin msg true
  soup_message_set_status msg SOUP_STATUS_NO_CONTENT

/-- `gdial_rest_server_is_bad_payload`. -/
def gdial_rest_server_is_bad_payload (data : CStr) (length : Nat) : Bool :=
  gdial_util_is_ascii_printable data length == false

/-! ## Application instances and the platform (gdial-app.c, gdial-plat-app.h) -/

/-- `GDialAppError`: the results of the platform launcher interface. -/
inductive GDialAppError
  | GDIAL_APP_ERROR_NONE
  | GDIAL_APP_ERROR_NOT_IMPLEMENTED
  | GDIAL_APP_ERROR_FORBIDDEN
  | GDIAL_APP_ERROR_UNAUTH
  | GDIAL_APP_ERROR_INTERNAL
  deriving DecidableEq, Repr

/-- `GDialAppState`; `GDIAL_APP_STATE_MAX` is the "not yet known" value the source
initialises with. -/
inductive GDialAppState
  | GDIAL_APP_STATE_STARTING
  | GDIAL_APP_STATE_RUNNING
  | GDIAL_APP_STATE_HIDE
  | GDIAL_APP_STATE_STOPPED
  | GDIAL_APP_STATE_ERROR
  | GDIAL_APP_STATE_MAX
  deriving DecidableEq, Repr

export GDialAppError (GDIAL_APP_ERROR_NONE GDIAL_APP_ERROR_NOT_IMPLEMENTED
  GDIAL_APP_ERROR_FORBIDDEN GDIAL_APP_ERROR_UNAUTH GDIAL_APP_ERROR_INTERNAL)
export GDialAppState (GDIAL_APP_STATE_STARTING GDIAL_APP_STATE_RUNNING GDIAL_APP_STATE_HIDE
  GDIAL_APP_STATE_STOPPED GDIAL_APP_STATE_ERROR GDIAL_APP_STATE_MAX)

/-- `GDialApp`: an application instance; `payload` is the cached launch payload. -/
structure GDialApp where
  name : CStr
  state : GDialAppState
  payload : Option CStr
  instance_id : Int
  dial_data : List (CStr × CStr)
  deriving DecidableEq, Repr

/-- Library functions of libsoup and of the response builder that the handlers call and
whose code is not part of the sources. -/
structure Lib where
  /-- `soup_uri_new`: NULL when the string does not parse as a URI. -/
  soup_uri_new : CStr → Option SoupURI
  /-- `soup_uri_encode(part, escape_extra)` on a non-NULL part. -/
  soup_uri_encode : CStr → Option CStr → CStr
  /-- `gdial_app_state_response_new(app, dialVer, xmlns, &len)`: the XML document. -/
  gdial_app_state_response_new : GDialApp → CStr
  /-- `soup_form_decode`: the table decoded from an `application/x-www-form-urlencoded`
  string (the source checks the result against NULL). -/
  soup_form_decode : CStr → Option (List (CStr × CStr))

/-! ## Origin policy -/

/-- `gdial_rest_server_is_allowed_origin` (server non-NULL). -/
def gdial_rest_server_is_allowed_origin (lib : Lib) (registered_apps : List GDialAppRegistry)
    (header_origin : Option CStr) (app_name : CStr) : Bool :=
  match header_origin with
  | none => true
  | some header_origin =>
    if g_strcmp0 (some header_origin) (some []) == 0 then true
    else
      let origin_uri := lib.soup_uri_new header_origin
      let uri_scheme : Option CStr := match origin_uri with
        | some u => u.scheme
        | none => none
      if origin_uri.isSome && uri_scheme.isSome &&
          (uri_scheme == some "http".toList || uri_scheme == some "https".toList ||
            uri_scheme == some "file".toList) then
        match gdial_rest_server_find_app_registry registered_apps app_name with
        | some app_registry =>
          app_registry.allowed_origins.any (fun origin => GDIAL_STR_ENDS_WITH header_origin origin)
        | none => false
      else true

/-! ## Server state -/

/-- Platform operations invoked by the handlers, in the order of invocation, and the
writes of the auxiliary data of an instance. -/
inductive PlatCall
  | app_state (name : CStr)
  | app_start (name : CStr) (payload query_str additional_data_url : Option CStr)
  | app_hide (name : CStr)
  | app_stop (name : CStr)
  | app_force_shutdown (name : CStr)
  | state_wait (name : CStr) (desired_state : GDialAppState) (timeout_ms : Nat)
  | app_set_additional_dial_data (name : CStr) (data : List (CStr × CStr))
  | system_app (query : Option (List (CStr × CStr)))
  deriving DecidableEq, Repr

/-- `MethodType`. -/
inductive MethodType
  | POST
  | POST_HIDE
  | DELETE
  deriving DecidableEq, Repr

/-- `AppsHandlerThreadPoolData`; pointers are `Option`s, an application is referred to by
its name. -/
structure AppsHandlerThreadPoolData where
  method : MethodType
  server : Option Nat
  message : Option Nat
  wait_timeout : Nat
  g_server : Bool
  app_name : Option CStr
  app : Option CStr
  deriving DecidableEq, Repr

/-- `g_new0(AppsHandlerThreadPoolData, 1)`: every field zero. -/
def AppsHandlerThreadPoolData.g_new0 : AppsHandlerThreadPoolData :=
  { method := MethodType.POST, server := none, message := none, wait_timeout := 0,
    g_server := false, app_name := none, app := none }

/-- `GThreadPool`: the tasks pushed and not yet taken by the worker. -/
structure GThreadPool where
  unprocessed : List AppsHandlerThreadPoolData
  deriving DecidableEq, Repr

/-- `g_thread_pool_unprocessed`. -/
def g_thread_pool_unprocessed (pool : GThreadPool) : Nat := pool.unprocessed.length

/-- Signals of the server object. -/
inductive Signal
  | SIGNAL_INVALID_URI
  | SIGNAL_GMAINLOOP_QUIT
  | SIGNAL_REST_ENABLE
  deriving DecidableEq, Repr

/-- Everything the handlers read and write: the registry of the server object, the
application instances, the live `SoupMessage` objects by address, the worker pool
(`_poolInstance`), the paused messages, the emitted signals and the platform calls made. -/
structure World where
  registered_apps : List GDialAppRegistry
  application_instances : List GDialApp
  messages : List (Nat × SoupMessage)
  poolInstance : Option GThreadPool
  paused : List Nat
  signals : List (Signal × CStr)
  plat_calls : List PlatCall
  deriving DecidableEq, Repr

/-- Dereference a message pointer. -/
def World.msg (w : World) (p : Nat) : Option SoupMessage := w.messages.lookup p

/-- Store through a message pointer. -/
def World.set_msg (w : World) (p : Nat) (m : SoupMessage) : World :=
  { w with messages := (p, m) :: w.messages.filter (fun e => e.1 != p) }

/-- Record a platform call. -/
def World.call (w : World) (c : PlatCall) : World :=
  { w with plat_calls := w.plat_calls ++ [c] }

/-- `g_signal_emit`. -/
def g_signal_emit (w : World) (s : Signal) (arg : CStr) : World :=
  { w with signals := w.signals ++ [(s, arg)] }

/-- `soup_server_pause_message`. -/
def soup_server_pause_message (w : World) (message : Nat) : World :=
  { w with paused := message :: w.paused }

/-- `soup_server_unpause_message`. -/
def soup_server_unpause_message (w : World) (message : Nat) : World :=
  { w with paused := w.paused.filter (fun p => p != message) }

/-- Modelled from the spec: `gdial_app_find_instance_by_name` (gdial-app.c is not among
the sources); the instance of that name, if any. -/
def gdial_app_find_instance_by_name (w : World) (name : CStr) : Option GDialApp :=
  w.application_instances.find? (fun a => a.name == name)

/-- Modelled from the spec: `gdial_app_find_instance_by_instance_id` (gdial-app.c is not
among the sources). -/
def gdial_app_find_instance_by_instance_id (w : World) (instance_id : Int) : Option GDialApp :=
  w.application_instances.find? (fun a => a.instance_id == instance_id)

/-- Modelled from the spec: `gdial_app_new` (gdial-app.c is not among the sources); a
fresh instance of that name, without cached payload, enters the instance list. -/
def gdial_app_new (w : World) (name : CStr) : World × GDialApp :=
  let app : GDialApp :=
    { name := name, state := GDIAL_APP_STATE_STOPPED, payload := none, instance_id := 0,
      dial_data := [] }
  ({ w with application_instances := app :: w.application_instances }, app)

/-- Modelled from the spec: `g_object_unref(app)` releasing the instance (gdial-app.c is
not among the sources); the instance leaves the instance list. -/
def gdial_app_unref (w : World) (app : GDialApp) : World :=
  { w with application_instances := w.application_instances.eraseP (fun a => a.name == app.name) }

/-- Overwrite the first instance of the list that has the name of `app`. -/
def put_first (app : GDialApp) : List GDialApp → List GDialApp
  | [] => []
  | a :: rest => if a.name == app.name then app :: rest else a :: put_first app rest

/-- Write through an instance pointer: the instance, found by its name, is overwritten. -/
def World.put_app (w : World) (app : GDialApp) : World :=
  { w with application_instances := put_first app w.application_instances }

/-- Modelled from the spec: `gdial_app_state` (gdial-app.c is not among the sources); the
platform state query `res` refreshes `app->state` when it succeeds. -/
def gdial_app_state (res : GDialAppError × GDialAppState) (app : GDialApp) :
    GDialAppError × GDialApp :=
  if res.1 = GDIAL_APP_ERROR_NONE then (res.1, { app with state := res.2 }) else (res.1, app)

/-- Modelled from the spec: `gdial_app_get_launch_payload` (gdial-app.c is not among the
sources); the cached payload. -/
def gdial_app_get_launch_payload (app : GDialApp) : Option CStr := app.payload

/-- Modelled from the spec: `gdial_app_set_launch_payload` (gdial-app.c is not among the
sources); "cache the body as cachedPayload". -/
def gdial_app_set_launch_payload (app : GDialApp) (payload : CStr) : GDialApp :=
  { app with payload := some payload }

/-! ## Relaunch policy -/

/-- `gdial_rest_server_should_relaunch_app`: the returned `gboolean` (an `int`: the
`g_strcmp0` result when both payloads are present) and the instance after the state
query.  `state_res` is what the platform state query answers. -/
def gdial_rest_server_should_relaunch_app (state_res : GDialAppError × GDialAppState)
    (app : Option GDialApp) (payload : Option CStr) : Int × Option GDialApp :=
  match app with
  | none => (1, none)
  | some app =>
    let r := gdial_app_state state_res app
    let app := r.2
    if r.1 ≠ GDIAL_APP_ERROR_NONE ∨ app.state = GDIAL_APP_STATE_STOPPED then (1, some app)
    else
      let cached_payload := gdial_app_get_launch_payload app
      if cached_payload = none ∧ payload = none then (0, some app)
      else if cached_payload ≠ none ∧ payload ≠ none then
        (g_strcmp0 cached_payload payload, some app)
      else (1, some app)

/-- `gdial_rest_server_new_additional_data_url`. -/
def gdial_rest_server_new_additional_data_url (lib : Lib) (listening_port : Nat)
    (app_name : CStr) (encode : Bool) : CStr :=
  let unencoded := "http://".toList ++ "localhost".toList ++ ":".toList ++ fmt_d listening_port ++
    GDIAL_REST_HTTP_APPS_URI ++ "/".toList ++ app_name ++ GDIAL_REST_HTTP_DIAL_DATA_URI
  if encode then lib.soup_uri_encode unencoded none else unencoded

/-! ## LAUNCH -/

/-- What the platform answers during one LAUNCH: the state query made by the relaunch
policy, `gdial_app_start`, and `gdial_plat_application_state_wait`. -/
structure LaunchPlat where
  app_state : GDialAppError × GDialAppState
  app_start : GDialAppError
  state_wait : GDialAppError

/-- `gdial_rest_server_wait_for_app_state`; `wait_res` is the result of
`gdial_plat_application_state_wait`. -/
def gdial_rest_server_wait_for_app_state (w : World) (wait_res : GDialAppError) (app_name : CStr)
    (desired_state : GDialAppState) (timeout_ms : Nat) : World × Bool :=
  (w.call (PlatCall.state_wait app_name desired_state timeout_ms),
    wait_res == GDIAL_APP_ERROR_NONE)

/-- Lines 585-608 of `gdial_rest_server_handle_POST`: choose the instance to start.
Gives the state, the instance `app` and `new_app_instance`. -/
def handle_POST_instance (plat : LaunchPlat) (w : World) (app_registry : GDialAppRegistry)
    (payload : Option CStr) : World × GDialApp × Bool :=
  match gdial_app_find_instance_by_name w app_registry.name with
  | some app =>
    if app_registry.is_singleton then
      let r := gdial_rest_server_should_relaunch_app plat.app_state (some app) payload
      let app1 := r.2.getD app
      let w := (w.call (PlatCall.app_state app.name)).put_app app1
      if r.1 ≠ 0 then
        let w := gdial_app_unref w app1
        let n := gdial_app_new w app_registry.name
        (n.1, n.2, true)
      else (w, app1, false)
    else
      let n := gdial_app_new w app_registry.name
      (n.1, n.2, true)
  | none =>
    let n := gdial_app_new w app_registry.name
    (n.1, n.2, true)

/-- Lines 610-671 of `gdial_rest_server_handle_POST`: invoke the platform start and wait
for RUNNING.  Gives the state and `start_error`. -/
def handle_POST_start (lib : Lib) (plat : LaunchPlat) (w : World) (msg : SoupMessage)
    (app_registry : GDialAppRegistry) (listening_port : Nat) (app : GDialApp)
    (new_app_instance : Bool) (wait_timeout : Nat) : World × GDialAppError :=
  if new_app_instance then
    let additional_data_url : Option CStr :=
      if app_registry.use_additional_data then
        some (gdial_rest_server_new_additional_data_url lib listening_port app_registry.name false)
      else none
    let additional_data_url_safe : Option CStr :=
      additional_data_url.map (fun u => lib.soup_uri_encode u none)
    let query_str := msg.uri.query
    let query_str_safe : Option CStr :=
      match query_str with
      | some q => if q.length ≠ 0 then some q else none
      | none => none
    let payload : Option CStr := msg.request_body.data.map c_str
    let payload_safe : Option CStr :=
      match payload with
      | some p =>
        if p.length ≠ 0 then
          if g_strcmp0 (some app.name) (some "YouTube".toList) == 0 then some p
          else some (lib.soup_uri_encode p (some "=&".toList))
        else none
      | none => none
    let w := w.call (PlatCall.app_start app.name payload_safe query_str_safe additional_data_url_safe)
    let start_error := plat.app_start
    if start_error = GDIAL_APP_ERROR_NONE then
      let r := gdial_rest_server_wait_for_app_state w plat.state_wait app.name
        GDIAL_APP_STATE_RUNNING wait_timeout
      if r.2 then (r.1, start_error) else (r.1, GDIAL_APP_ERROR_INTERNAL)
    else (w, start_error)
  else
    let w := w.call (PlatCall.app_start app.name none none none)
    let start_error := plat.app_start
    if start_error = GDIAL_APP_ERROR_NONE then
      let r := gdial_rest_server_wait_for_app_state w plat.state_wait app.name
        GDIAL_APP_STATE_RUNNING wait_timeout
      if r.2 then (r.1, start_error) else (r.1, GDIAL_APP_ERROR_INTERNAL)
    else (w, start_error)

/-- Lines 679-707 of `gdial_rest_server_handle_POST`: write the response. -/
def handle_POST_respond (w : World) (msg : SoupMessage) (listening_port : Nat) (app : GDialApp)
    (new_app_instance : Bool) (start_error : GDialAppError) : World × SoupMessage :=
  if start_error = GDIAL_APP_ERROR_NONE then
    let msg := { msg with
      response_headers :=
        soup_message_headers_replace msg.response_headers
          "Content-Type".toList "text/plain; charset=utf-8".toList }
    let msg := { msg with
      response_headers :=
        soup_message_headers_replace msg.response_headers "Location".toList
          ("http://".toList ++ fmt_s msg.uri.host ++ ":".toList ++ fmt_d listening_port ++
            GDIAL_REST_HTTP_APPS_URI ++ "/".toList ++ app.name ++ "/run".toList) }
    let msg := gdial_soup_message_headers_set_Allow_Origin msg true
    if new_app_instance then
      let msg := soup_message_set_status msg SOUP_STATUS_CREATED
      match msg.request_body.data with
      | some data => (w.put_app (gdial_app_set_launch_payload app (c_str data)), msg)
      | none => (w, msg)
    else (w, soup_message_set_status msg SOUP_STATUS_CREATED)
  else
    let w := gdial_app_unref w app
    if start_error = GDIAL_APP_ERROR_FORBIDDEN then
      (w, gdial_soup_message_set_http_error msg SOUP_STATUS_FORBIDDEN)
    else if start_error = GDIAL_APP_ERROR_UNAUTH then
      (w, gdial_soup_message_set_http_error msg SOUP_STATUS_UNAUTHORIZED)
    else (w, gdial_soup_message_set_http_error msg SOUP_STATUS_SERVICE_UNAVAILABLE)

/-- `gdial_rest_server_handle_POST`: the state and the message after the LAUNCH. -/
def gdial_rest_server_handle_POST (lim : Limits) (lib : Lib) (plat : LaunchPlat) (w : World)
    (msg : SoupMessage) (app_name : CStr) (wait_timeout : Nat) : World × SoupMessage :=
  match gdial_rest_server_find_app_registry w.registered_apps app_name with
  | none => (w, gdial_soup_message_set_http_error msg SOUP_STATUS_NOT_FOUND)
  | some app_registry =>
    let has_body : Bool := msg.request_body.data.isSome && msg.request_body.length != 0
    if has_body && !decide (msg.request_body.length ≤ lim.GDIAL_REST_HTTP_MAX_PAYLOAD) then
      (w, gdial_soup_message_set_http_error msg SOUP_STATUS_REQUEST_ENTITY_TOO_LARGE)
    else if has_body &&
        gdial_rest_server_is_bad_payload (msg.request_body.data.getD []) msg.request_body.length then
      (w, gdial_soup_message_set_http_error msg SOUP_STATUS_BAD_REQUEST)
    else
      let listening_port := msg.address_port
      if listening_port = 0 then
        (w, gdial_soup_message_set_http_error msg SOUP_STATUS_INTERNAL_SERVER_ERROR)
      else
        let sel := handle_POST_instance plat w app_registry (msg.request_body.data.map c_str)
        let st := handle_POST_start lib plat sel.1 msg app_registry listening_port sel.2.1
          sel.2.2 wait_timeout
        handle_POST_respond st.1 msg listening_port sel.2.1 sel.2.2 st.2

/-! ## Worker pool -/

/-- Ways in which the C code leaves defined behaviour. -/
inductive Fault
  | null_deref
  deriving DecidableEq, Repr

/-- `gdial_rest_server_send`: `message` and `server` are the pointers passed by the HTTP
callback, `data` the task record, `push_ok` the result of `g_thread_pool_push`.  Gives
the returned flag and the state, or the fault when a NULL message is dereferenced by
`gdial_soup_message_set_http_error`. -/
def gdial_rest_server_send (method : MethodType) (server : Nat) (message : Nat)
    (thread_pool : GThreadPool) (data : AppsHandlerThreadPoolData) (push_ok : Bool) (w : World) :
    Except Fault (Bool × World) :=
  let not_processed := g_thread_pool_unprocessed thread_pool
  if not_processed < REST_API_THREAD_POOL_NOT_PROCESSED_LIMIT then
    let data := { data with method := method, server := some server, message := some message }
    let w := soup_server_pause_message w message
    if push_ok then
      .ok (true, { w with poolInstance := some { unprocessed := thread_pool.unprocessed ++ [data] } })
    else
      match w.msg message with
      | none => .error Fault.null_deref
      | some m =>
        let w := w.set_msg message
          (gdial_soup_message_set_http_error m SOUP_STATUS_INTERNAL_SERVER_ERROR)
        .ok (false, soup_server_unpause_message w message)
  else
    match data.message with
    | none => .error Fault.null_deref
    | some p =>
      match w.msg p with
      | none => .error Fault.null_deref
      | some m =>
        let w := w.set_msg p (gdial_soup_message_set_http_error m SOUP_STATUS_FORBIDDEN)
        match data.server with
        | some _ => .ok (false, soup_server_unpause_message w p)
        | none => .ok (false, w)

/-- `gdial_rest_server_handle_POST_and_wait`. -/
def gdial_rest_server_handle_POST_and_wait (soup_server : Nat) (msg : Nat) (app_name : CStr)
    (push_ok : Bool) (w : World) : Except Fault World :=
  match w.poolInstance with
  | none => .ok w
  | some pool =>
    let tpData := { AppsHandlerThreadPoolData.g_new0 with
      wait_timeout := APPLICATION_STATE_CHANGE_START_TIMEOUT
      g_server := true
      app_name := some app_name }
    (gdial_rest_server_send MethodType.POST soup_server msg pool tpData push_ok w).map
      (fun r => r.2)

/-- `gdial_rest_server_handle_POST_hide_and_wait`. -/
def gdial_rest_server_handle_POST_hide_and_wait (soup_server : Nat) (msg : Nat) (app : GDialApp)
    (push_ok : Bool) (w : World) : Except Fault World :=
  match w.poolInstance with
  | none => .ok w
  | some pool =>
    let tpData := { AppsHandlerThreadPoolData.g_new0 with
      wait_timeout := APPLICATION_STATE_CHANGE_HIDE_TIMEOUT
      app := some app.name }
    (gdial_rest_server_send MethodType.POST_HIDE soup_server msg pool tpData push_ok w).map
      (fun r => r.2)

/-- `gdial_rest_server_handle_DELETE_and_wait`. -/
def gdial_rest_server_handle_DELETE_and_wait (soup_server : Nat) (msg : Nat) (app : GDialApp)
    (push_ok : Bool) (w : World) : Except Fault World :=
  match w.poolInstance with
  | none => .ok w
  | some pool =>
    let tpData := { AppsHandlerThreadPoolData.g_new0 with
      wait_timeout := APPLICATION_STATE_CHANGE_STOP_TIMEOUT
      app := some app.name }
    (gdial_rest_server_send MethodType.DELETE soup_server msg pool tpData push_ok w).map
      (fun r => r.2)

/-! ## Instance check and state query -/

/-- `g_ascii_isspace`. -/
def g_ascii_isspace (c : Char) : Bool :=
  c == ' ' || c.toNat == 9 || c.toNat == 10 || c.toNat == 11 || c.toNat == 12 || c.toNat == 13

/-- `g_ascii_strtoll(nptr, &endptr, 10)` followed by the cast to `gint`: the value and
what `endptr` points to.  Leading white space and one sign are skipped; without a digit
nothing is consumed. -/
def g_ascii_strtoll (nptr : CStr) : Int × CStr :=
  let s := nptr.dropWhile g_ascii_isspace
  let neg : Bool := s.head? == some '-'
  let s := if s.head? == some '-' || s.head? == some '+' then s.drop 1 else s
  let digits := s.takeWhile Char.isDigit
  if digits = [] then (0, nptr)
  else
    let mag : Int := (digits.foldl (fun acc d => 10 * acc + (d.toNat - '0'.toNat)) 0 : Nat)
    let v : Int := if neg then max (-mag) (-(2 ^ 63)) else min mag (2 ^ 63 - 1)
    ((v + 2 ^ 31) % 2 ^ 32 - 2 ^ 31, s.dropWhile Char.isDigit)

/-- `gdial_rest_server_check_instance`. -/
def gdial_rest_server_check_instance (w : World) (app : Option GDialApp) (instance_ : CStr) :
    Option GDialApp :=
  match app with
  | none => none
  | some app =>
    if g_strcmp0 (some instance_) (some (GDIAL_REST_HTTP_RUN_URI.drop 1)) ≠ 0 then
      let r := g_ascii_strtoll instance_
      if r.2.length = 0 then
        let app_by_instance := gdial_app_find_instance_by_instance_id w r.1
        if app_by_instance ≠ some app then some app else app_by_instance
      else none
    else some app

/-- `gdial_rest_server_handle_GET_app`; `state_res` is what the platform state query
answers.  (The `clientDialVer` query parameter is only printed.) -/
def gdial_rest_server_handle_GET_app (lib : Lib) (state_res : GDialAppError × GDialAppState)
    (w : World) (msg : SoupMessage) (app_name : CStr) : World × SoupMessage :=
  match gdial_rest_server_find_app_registry w.registered_apps app_name with
  | none => (w, gdial_soup_message_set_http_error msg SOUP_STATUS_NOT_FOUND)
  | some _ =>
    let found : World × GDialApp :=
      match gdial_app_find_instance_by_name w app_name with
      | some app =>
        let app := (gdial_app_state state_res app).2
        ((w.call (PlatCall.app_state app.name)).put_app app, app)
      | none =>
        let n := gdial_app_new w app_name
        let app := (gdial_app_state state_res n.2).2
        ((n.1.call (PlatCall.app_state app.name)).put_app app, app)
    let w := found.1
    let app := found.2
    let app_state := app.state
    let msg := gdial_soup_message_headers_set_Allow_Origin msg true
    let msg := soup_message_set_status msg SOUP_STATUS_OK
    let response_str := lib.gdial_app_state_response_new app
    let msg := soup_message_set_response msg "text/xml; charset=utf-8".toList response_str
    if app_state = GDIAL_APP_STATE_STOPPED then (gdial_app_unref w app, msg) else (w, msg)

/-! ## Public HTTP callback -/

/-- `GSocketFamily`. -/
inductive GSocketFamily
  | G_SOCKET_FAMILY_INVALID
  | G_SOCKET_FAMILY_UNIX
  | G_SOCKET_FAMILY_IPV4
  | G_SOCKET_FAMILY_IPV6
  deriving DecidableEq, Repr

/-- `SoupClientContext`: the family of the remote address, whether
`g_socket_address_to_native` succeeds, and the IPv4 address in host byte order. -/
structure SoupClientContext where
  family : GSocketFamily
  to_native_ok : Bool
  s_addr : Nat
  deriving DecidableEq, Repr

/-- `INADDR_LOOPBACK`, 127.0.0.1. -/
def INADDR_LOOPBACK : Nat := 0x7f000001

/-- The four bounded copies and the element count taken from the path. -/
structure PathElements where
  base : CStr
  app_name : CStr
  instance_ : CStr
  last_elem : CStr
  element_num : Nat
  deriving DecidableEq, Repr

/-- Lines 964-977 of the callback: copy the non-empty elements, skipping empty ones;
`size` is `sizeof` of each destination buffer and `acc.element_num` the running `j`. -/
def copy_elements (size : Nat) : List CStr → PathElements → PathElements
  | [], acc => acc
  | e :: rest, acc =>
    if e.length = 0 then copy_elements size rest acc
    else
      let j := acc.element_num
      let acc :=
        if j = 0 then { acc with base := g_strlcpy e size }
        else if j = 1 then { acc with app_name := g_strlcpy e size }
        else if j = 2 then { acc with instance_ := g_strlcpy e size }
        else acc
      copy_elements size rest { acc with last_elem := g_strlcpy e size, element_num := j + 1 }

/-- Lines 984-994 of the callback ("make sure path remains same as given"): `els` is
what is left of `elements` from index `j`; gives `none` when a copy differs from its
element (the request is answered 501), the final `i` otherwise.  The loop never runs
past the end of `elements`, since `element_num` counts its non-empty entries. -/
def check_elements (copied_str : List CStr) (element_num : Nat) : List CStr → Nat → Option Nat
  | [], i => some i
  | e :: rest, i =>
    if i < element_num ∧ i < 4 then
      if e.length = 0 then check_elements copied_str element_num rest i
      else if g_strcmp0 (copied_str.get? i) (some e) ≠ 0 then none
      else check_elements copied_str element_num rest (i + 1)
    else some i

/-- Lines 936-1002 of the callback: the checks made before the origin is looked at.
Gives the status of the error response, or the Host header and the captured elements.
`GDIAL_STR_SIZEOF(s)` (gdial-util.h, not among the sources) is taken as the length of
the literal, in line with the comment "Minimum URI must be larger than /apps/". -/
def apps_callback_validate (lim : Limits) (msg : SoupMessage) (path : CStr)
    (client : SoupClientContext) : Except Nat (CStr × PathElements) :=
  if client.family ≠ GSocketFamily.G_SOCKET_FAMILY_IPV4 then .error SOUP_STATUS_NOT_IMPLEMENTED
  else if !gdial_soup_message_security_check msg then .error SOUP_STATUS_INTERNAL_SERVER_ERROR
  else
    let path_len := path.length
    if ¬ path_len < lim.GDIAL_REST_HTTP_MAX_URI_LEN then .error SOUP_STATUS_INTERNAL_SERVER_ERROR
    else if ¬ path_len > GDIAL_REST_HTTP_APPS_URI.length + "/".length then
      .error SOUP_STATUS_NOT_IMPLEMENTED
    else if path.take GDIAL_REST_HTTP_APPS_URI.length ≠ GDIAL_REST_HTTP_APPS_URI then
      .error SOUP_STATUS_NOT_IMPLEMENTED
    else
      match soup_message_headers_get_one msg.request_headers "Host".toList with
      | none => .error SOUP_STATUS_FORBIDDEN
      | some header_host =>
        let elements := g_strsplit (path.drop 1) '/' 4
        let pe := copy_elements lim.GDIAL_REST_HTTP_PATH_COMPONENT_MAX_LEN elements
          { base := [], app_name := [], instance_ := [], last_elem := [], element_num := 0 }
        let copied_str := [pe.base, pe.app_name, pe.instance_, pe.last_elem]
        match check_elements copied_str pe.element_num elements 0 with
        | none => .error SOUP_STATUS_NOT_IMPLEMENTED
        | some i =>
          let invalid_uri : Bool := decide (i > 4 ∨ i < 2)
          let invalid_uri := invalid_uri ||
            (g_strcmp0 (some pe.base) (some (GDIAL_REST_HTTP_APPS_URI.drop 1)) != 0)
          let invalid_uri := invalid_uri || (pe.app_name.length == 0)
          if invalid_uri then .error SOUP_STATUS_NOT_IMPLEMENTED
          else .ok (header_host, pe)

/-- What the outside answers during one run of the callback: the platform state query of
GET_app and the result of `g_thread_pool_push`. -/
structure CallbackPlat where
  app_state : GDialAppError × GDialAppState
  push_ok : Bool

/-- Lines 1031-1132 of the callback: dispatch on the number of elements and the method.
`m` is the message `msg` points to.  `header_host` is not NULL here (line 947), so the
`!header_host ||` disjuncts are dropped; a branch that ends without `return` reaches the
final `invalid_uri` check, which only the four-element branch can fail. -/
def apps_callback_dispatch (lib : Lib) (plat : CallbackPlat) (w : World) (server : Nat)
    (msg : Nat) (m : SoupMessage) (client : SoupClientContext) (header_origin : Option CStr)
    (pe : PathElements) : Except Fault World :=
  let fail (code : Nat) : Except Fault World :=
    .ok (w.set_msg msg (gdial_soup_message_set_http_error m code))
  let allowed := gdial_rest_server_is_allowed_origin lib w.registered_apps header_origin pe.app_name
  if pe.element_num = 2 then
    if !allowed then fail SOUP_STATUS_FORBIDDEN
    else if m.method = "OPTIONS".toList then
      .ok (w.set_msg msg (gdial_rest_server_handle_OPTIONS m "GET, POST, OPTIONS".toList))
    else if m.method = "POST".toList then
      gdial_rest_server_handle_POST_and_wait server msg pe.app_name plat.push_ok w
    else if m.method = "GET".toList then
      let r := gdial_rest_server_handle_GET_app lib plat.app_state w m pe.app_name
      .ok (r.1.set_msg msg r.2)
    else fail SOUP_STATUS_NOT_IMPLEMENTED
  else if pe.element_num = 3 then
    if g_strcmp0 (some pe.last_elem) (some (GDIAL_REST_HTTP_DIAL_DATA_URI.drop 1)) == 0 then
      if !client.to_native_ok then fail SOUP_STATUS_INTERNAL_SERVER_ERROR
      else if client.s_addr ≠ INADDR_LOOPBACK then fail SOUP_STATUS_INTERNAL_SERVER_ERROR
      else if m.method = "OPTIONS".toList then
        .ok (w.set_msg msg (gdial_rest_server_handle_OPTIONS m "POST, OPTIONS".toList))
      else if m.method ≠ "POST".toList then fail SOUP_STATUS_NOT_IMPLEMENTED
      else .ok w
    else
      if !allowed then fail SOUP_STATUS_FORBIDDEN
      else if m.method = "OPTIONS".toList then
        .ok (w.set_msg msg (gdial_rest_server_handle_OPTIONS m "DELETE, OPTIONS".toList))
      else if m.method = "DELETE".toList then
        let app := gdial_app_find_instance_by_name w pe.app_name
        match gdial_rest_server_check_instance w app pe.instance_, app with
        | some _, some app =>
          gdial_rest_server_handle_DELETE_and_wait server msg app plat.push_ok w
        | _, _ => fail SOUP_STATUS_NOT_FOUND
      else if m.method = "POST".toList then fail SOUP_STATUS_NOT_FOUND
      else fail SOUP_STATUS_NOT_IMPLEMENTED
  else if pe.element_num = 4 then
    if g_strcmp0 (some pe.last_elem) (some (GDIAL_REST_HTTP_HIDE_URI.drop 1)) == 0 then
      if m.method = "OPTIONS".toList then
        .ok (w.set_msg msg (gdial_rest_server_handle_OPTIONS m "POST, OPTIONS".toList))
      else if m.method = "POST".toList then
        let app := gdial_app_find_instance_by_name w pe.app_name
        match gdial_rest_server_check_instance w app pe.instance_, app with
        | some _, some app =>
          gdial_rest_server_handle_POST_hide_and_wait server msg app plat.push_ok w
        | _, _ => fail SOUP_STATUS_NOT_FOUND
      else if m.method = "DELETE".toList then fail SOUP_STATUS_NOT_FOUND
      else fail SOUP_STATUS_NOT_IMPLEMENTED
    else fail SOUP_STATUS_NOT_IMPLEMENTED
  else .ok w

/-- `gdial_rest_http_server_apps_callback` with non-NULL `server`, `path`, `client` and
`user_data`; `msg` is the address of the message.  Gives the state after the callback
returned. -/
def gdial_rest_http_server_apps_callback (lim : Limits) (lib : Lib) (plat : CallbackPlat)
    (w : World) (server : Nat) (msg : Nat) (path : CStr) (client : SoupClientContext) :
    Except Fault World :=
  match w.msg msg with
  | none => .error Fault.null_deref
  | some m =>
    match apps_callback_validate lim m path client with
    | .error code => .ok (w.set_msg msg (gdial_soup_message_set_http_error m code))
    | .ok (_, pe) =>
      let header_origin := soup_message_headers_get_one m.request_headers "Origin".toList
      if !gdial_rest_server_is_allowed_origin lib w.registered_apps header_origin pe.app_name then
        .ok (w.set_msg msg (gdial_soup_message_set_http_error m SOUP_STATUS_FORBIDDEN))
      else if !gdial_rest_server_is_app_registered w.registered_apps pe.app_name then
        let w := g_signal_emit w Signal.SIGNAL_INVALID_URI
          "URI containes unregistered app name".toList
        .ok (w.set_msg msg (gdial_soup_message_set_http_error m SOUP_STATUS_NOT_FOUND))
      else apps_callback_dispatch lib plat w server msg m client header_origin pe

/-! ## HIDE and STOP -/

/-- What the platform answers during one HIDE or STOP: the state query at the start, the
same query evaluated once more by `g_warn_if_fail` inside
`gdial_rest_server_http_return_if_fail` when the first one failed, the command
(`gdial_app_hide` or `gdial_app_stop`), the state query made inside `g_warn_if_fail`
after a successful command, and `gdial_plat_application_state_wait`. -/
structure ControlPlat where
  app_state : GDialAppError × GDialAppState
  app_state_again : GDialAppError × GDialAppState
  command : GDialAppError
  app_state_after : GDialAppError × GDialAppState
  state_wait : GDialAppError

/-- `gdial_rest_server_handle_POST_hide`; `app` is the instance the task points to.  When
the first state query fails, the `return_if_fail` macro evaluates it a second time for
its warning. -/
def gdial_rest_server_handle_POST_hide (plat : ControlPlat) (w : World) (msg : SoupMessage)
    (app : GDialApp) (wait_timeout : Nat) : World × SoupMessage :=
  let r := gdial_app_state plat.app_state app
  let w := (w.call (PlatCall.app_state app.name)).put_app r.2
  let app := r.2
  if r.1 ≠ GDIAL_APP_ERROR_NONE then
    ((w.call (PlatCall.app_state app.name)).put_app (gdial_app_state plat.app_state_again app).2,
      gdial_soup_message_set_http_error msg SOUP_STATUS_NOT_FOUND)
  else if ¬ (app.state = GDIAL_APP_STATE_RUNNING ∨ app.state = GDIAL_APP_STATE_HIDE) then
    (w, gdial_soup_message_set_http_error msg SOUP_STATUS_NOT_FOUND)
  else
    let w := w.call (PlatCall.app_hide app.name)
    let app_error := plat.command
    if app_error = GDIAL_APP_ERROR_NONE then
      let r2 := gdial_app_state plat.app_state_after app
      let w := (w.call (PlatCall.app_state app.name)).put_app r2.2
      let wt := gdial_rest_server_wait_for_app_state w plat.state_wait app.name
        GDIAL_APP_STATE_HIDE wait_timeout
      if wt.2 then
        let msg := soup_message_set_status msg SOUP_STATUS_OK
        let msg := { msg with
          response_headers :=
            soup_message_headers_replace msg.response_headers
              "Content-Type".toList "text/plain; charset=utf-8".toList }
        (wt.1, gdial_soup_message_headers_set_Allow_Origin msg true)
      else (wt.1, gdial_soup_message_set_http_error msg SOUP_STATUS_INTERNAL_SERVER_ERROR)
    else if app_error = GDIAL_APP_ERROR_NOT_IMPLEMENTED then
      (w, gdial_soup_message_set_http_error msg SOUP_STATUS_NOT_IMPLEMENTED)
    else (w, gdial_soup_message_set_http_error msg SOUP_STATUS_INTERNAL_SERVER_ERROR)

/-- `gdial_rest_server_handle_DELETE`; `app` is the instance the task points to.  When
the first state query fails, the `return_if_fail` macro evaluates it a second time for
its warning. -/
def gdial_rest_server_handle_DELETE (plat : ControlPlat) (w : World) (msg : SoupMessage)
    (app : GDialApp) (wait_timeout : Nat) : World × SoupMessage :=
  if ¬ g_strcmp0 (some app.name) (some "system".toList) ≠ 0 then
    (w, gdial_soup_message_set_http_error msg SOUP_STATUS_FORBIDDEN)
  else
    let r := gdial_app_state plat.app_state app
    let w := (w.call (PlatCall.app_state app.name)).put_app r.2
    let app := r.2
    if r.1 ≠ GDIAL_APP_ERROR_NONE then
      ((w.call (PlatCall.app_state app.name)).put_app
          (gdial_app_state plat.app_state_again app).2,
        gdial_soup_message_set_http_error msg SOUP_STATUS_NOT_FOUND)
    else if ¬ (app.state = GDIAL_APP_STATE_RUNNING ∨ app.state = GDIAL_APP_STATE_HIDE) then
      (w, gdial_soup_message_set_http_error msg SOUP_STATUS_NOT_FOUND)
    else
      let w := w.call (PlatCall.app_stop app.name)
      let stopped : World × GDialApp :=
        if plat.command = GDIAL_APP_ERROR_NONE then
          let r2 := gdial_app_state plat.app_state_after app
          ((w.call (PlatCall.app_state app.name)).put_app r2.2, r2.2)
        else (w.call (PlatCall.app_force_shutdown app.name), app)
      let wt := gdial_rest_server_wait_for_app_state stopped.1 plat.state_wait app.name
        GDIAL_APP_STATE_STOPPED wait_timeout
      if wt.2 then
        let msg := { msg with
          response_headers :=
            soup_message_headers_replace msg.response_headers
              "Content-Type".toList "text/plain; charset=utf-8".toList }
        let msg := gdial_soup_message_headers_set_Allow_Origin msg true
        let msg := soup_message_set_status msg SOUP_STATUS_OK
        (gdial_app_unref wt.1 stopped.2, msg)
      else (wt.1, gdial_soup_message_set_http_error msg SOUP_STATUS_INTERNAL_SERVER_ERROR)

/-! ## Auxiliary data and the local HTTP callback -/

/-- `data[i]` of a message body: the buffer is followed by the NUL libsoup appends. -/
def body_byte (data : CStr) (i : Nat) : Char := data.getD i (Char.ofNat 0)

/-- Modelled from the spec: `gdial_app_set_additional_dial_data` (gdial-app.c is not
among the sources); the table becomes the auxiliary data of the instance. -/
def gdial_app_set_additional_dial_data (w : World) (app : GDialApp)
    (data : List (CStr × CStr)) : World :=
  (w.call (PlatCall.app_set_additional_dial_data app.name data)).put_app
    { app with dial_data := data }

/-- `gdial_rest_server_handle_POST_dial_data` (`GDIAL_MERGE_URL_AND_BODY_QUERY` is 0, so
the URL query is not used). -/
def gdial_rest_server_handle_POST_dial_data (lim : Limits) (lib : Lib) (w : World)
    (msg : SoupMessage) (app_name : CStr) : World × SoupMessage :=
  let has_body : Bool := msg.request_body.data.isSome && msg.request_body.length != 0
  if has_body && !decide (msg.request_body.length < lim.GDIAL_APP_DIAL_DATA_MAX_LEN) then
    (w, gdial_soup_message_set_http_error msg SOUP_STATUS_REQUEST_ENTITY_TOO_LARGE)
  else if has_body &&
      gdial_rest_server_is_bad_payload (msg.request_body.data.getD []) msg.request_body.length then
    (w, gdial_soup_message_set_http_error msg SOUP_STATUS_BAD_REQUEST)
  else
    match gdial_app_find_instance_by_name w app_name with
    | none => (w, gdial_soup_message_set_http_error msg SOUP_STATUS_NOT_FOUND)
    | some app =>
      let done (w : World) : World × SoupMessage :=
        (w, soup_message_set_status (gdial_soup_message_headers_set_Allow_Origin msg true)
          SOUP_STATUS_OK)
      if has_body then
        let data := msg.request_body.data.getD []
        if body_byte data msg.request_body.length ≠ Char.ofNat 0 then
          (w, gdial_soup_message_set_http_error msg SOUP_STATUS_BAD_REQUEST)
        else
          match lib.soup_form_decode (c_str data) with
          | some body_query => done (gdial_app_set_additional_dial_data w app body_query)
          | none => done w
      else done (gdial_app_set_additional_dial_data w app [])

/-- `gdial_local_rest_http_server_callback`: the state and the message after the
callback. -/
def gdial_local_rest_http_server_callback (lim : Limits) (lib : Lib) (w : World)
    (msg : SoupMessage) (path : CStr) : World × SoupMessage :=
  let elements := g_strsplit (path.drop 1) '/' 4
  let pe := copy_elements lim.GDIAL_REST_HTTP_PATH_COMPONENT_MAX_LEN elements
    { base := [], app_name := [], instance_ := [], last_elem := [], element_num := 0 }
  if pe.element_num = 3 ∧ g_strcmp0 (some pe.instance_) (some "dial_data".toList) = 0 then
    match gdial_rest_server_find_app_registry w.registered_apps pe.app_name with
    | none => (w, gdial_soup_message_set_http_error msg SOUP_STATUS_NOT_FOUND)
    | some _ =>
      if msg.method = "POST".toList then
        gdial_rest_server_handle_POST_dial_data lim lib w msg pe.app_name
      else (w, gdial_soup_message_set_http_error msg SOUP_STATUS_NOT_IMPLEMENTED)
  else (w, gdial_soup_message_set_http_error msg SOUP_STATUS_NOT_IMPLEMENTED)

/-! ## The `/apps/system` callback -/

/-- `gdial_rest_http_server_system_callback` built without `GDIAL_BUILD_TEST`: `query` is
the decoded query table libsoup passes to the callback (NULL when the URI has none) and
`system_res` what the platform hook `gdial_system_app(query)` answers. -/
def gdial_rest_http_server_system_callback (system_res : GDialAppError) (w : World)
    (msg : SoupMessage) (query : Option (List (CStr × CStr))) : World × SoupMessage :=
  if msg.method = "POST".toList then
    let msg := gdial_soup_message_headers_set_Allow_Origin msg true
    let w := w.call (PlatCall.system_app query)
    if system_res = GDIAL_APP_ERROR_NONE then (w, soup_message_set_status msg SOUP_STATUS_OK)
    else (w, soup_message_set_status msg SOUP_STATUS_INTERNAL_SERVER_ERROR)
  else if msg.method = "DELETE".toList then (w, soup_message_set_status msg SOUP_STATUS_FORBIDDEN)
  else (w, soup_message_set_status msg SOUP_STATUS_METHOD_NOT_ALLOWED)

/-! ## The GET response builder -/

/-- What the builder takes from outside gdial-rest.c (gdial-config.h, gdial-util.c and
gdial-app.c are not among the sources): the two protocol constants, the helper that
renders the option table as attribute text (NULL when it renders nothing), the state
names, and the state a zeroed record holds. -/
structure BuilderEnv where
  GDIAL_PROTOCOL_XMLNS_SCHEMA : CStr
  GDIAL_PROTOCOL_VERSION_STR : CStr
  gdial_util_str_str_hashtable_to_xml_string : List (CStr × CStr) → Option CStr
  gdial_app_state_to_string : GDialAppState → Option CStr
  state_zero : GDialAppState

/-- `GString`: the text and its recorded length. -/
structure GString where
  str : CStr
  len : Nat
  deriving DecidableEq, Repr

/-- `g_string_new_len(NULL, len)`: an empty string with room for `len` bytes. -/
def g_string_new_len_null (_len : Nat) : GString := { str := [], len := 0 }

/-- Expansion of a `printf` format whose only directives are `%s`; a NULL argument prints
as `(null)`. -/
def format_expand : CStr → List (Option CStr) → CStr
  | [], _ => []
  | [c], _ => [c]
  | c :: d :: rest, args =>
    if c = '%' ∧ d = 's' then fmt_s (args.headD none) ++ format_expand rest args.tail
    else c :: format_expand (d :: rest) args

/-- `g_string_append_printf`. -/
def g_string_append_printf (string : GString) (format : CStr) (args : List (Option CStr)) :
    GString :=
  let text := format_expand format args
  { str := string.str ++ text, len := string.len + text.length }

/-- `GDialServerResponseBuilderGetApp`. -/
structure GDialServerResponseBuilderGetApp where
  app_name : Option CStr
  dialVer : Option CStr
  options : List (CStr × CStr)
  state : GDialAppState
  installable : Option CStr
  link_href : Option CStr
  additionalData : Option CStr
  deriving DecidableEq, Repr

/-- `GET_APP_response_builder_new`. -/
def GET_APP_response_builder_new (env : BuilderEnv) (app_name : Option CStr) :
    GDialServerResponseBuilderGetApp :=
  { app_name := app_name
    dialVer := some env.GDIAL_PROTOCOL_VERSION_STR
    options := []
    state := env.state_zero
    installable := none
    link_href := some "run".toList
    additionalData := none }

/-- `GET_APP_response_builder_set_option`: `g_hash_table_insert` replaces the value of a
key that is already there. -/
def GET_APP_response_builder_set_option (builder : GDialServerResponseBuilderGetApp)
    (option_name option_value : Option CStr) : GDialServerResponseBuilderGetApp :=
  match option_name, option_value with
  | some n, some v =>
    { builder with options := builder.options.filter (fun e => e.1 != n) ++ [(n, v)] }
  | _, _ => builder

/-- `GET_APP_response_builder_set_state`. -/
def GET_APP_response_builder_set_state (builder : GDialServerResponseBuilderGetApp)
    (state : GDialAppState) : GDialServerResponseBuilderGetApp :=
  { builder with state := state }

/-- `GET_APP_response_builder_set_link_href`. -/
def GET_APP_response_builder_set_link_href (lib : Lib)
    (builder : GDialServerResponseBuilderGetApp) (encoded_href : Option CStr) :
    GDialServerResponseBuilderGetApp :=
  match encoded_href with
  | some h => { builder with link_href := some (lib.soup_uri_encode h none) }
  | none => { builder with link_href := some "run".toList }

/-- `GET_APP_response_builder_set_additionalData`. -/
def GET_APP_response_builder_set_additionalData (builder : GDialServerResponseBuilderGetApp)
    (additionalData : Option CStr) : GDialServerResponseBuilderGetApp :=
  match additionalData with
  | some d => { builder with additionalData := some d }
  | none => builder

/-- `GET_APP_response_builder_build` with a non-NULL `length`: the returned string and the
value stored in `*length`. -/
def GET_APP_response_builder_build (env : BuilderEnv)
    (rbuilder : GDialServerResponseBuilderGetApp) : CStr × Nat :=
  let rbuf := g_string_new_len_null 128
  let options_str := env.gdial_util_str_str_hashtable_to_xml_string rbuilder.options
  let rbuf := g_string_append_printf rbuf
    "<?xml version=\"1.0\" encoding=\"UTF-8\"?>\r\n".toList []
  let rbuf := g_string_append_printf rbuf "<service xmlns=\"%s\" dialVer=\"%s\">\r\n".toList
    [some env.GDIAL_PROTOCOL_XMLNS_SCHEMA, rbuilder.dialVer]
  let rbuf := g_string_append_printf rbuf "  <name>%s</name>\r\n".toList [rbuilder.app_name]
  let rbuf :=
    match options_str with
    | some o => g_string_append_printf rbuf "  <options %s/>\r\n".toList [some o]
    | none => rbuf
  let rbuf := g_string_append_printf rbuf "  <state>%s</state>\r\n".toList
    [env.gdial_app_state_to_string rbuilder.state]
  let rbuf :=
    if rbuilder.state ≠ GDIAL_APP_STATE_STOPPED then
      g_string_append_printf rbuf "  <link rel=\"run\" href=\"%s\"/>\r\n".toList
        [rbuilder.link_href]
    else rbuf
  let rbuf :=
    match rbuilder.additionalData with
    | some _ =>
      g_string_append_printf rbuf "  <additionalData>%s</additionalData>\r\n".toList [some []]
    | none => rbuf
  let rbuf := g_string_append_printf rbuf "</service>\r\n".toList []
  (rbuf.str, rbuf.len)

/-! ## Application state cache (rtcache.cpp) -/

/-- The status object handed to the cache: the properties the cache reads. -/
structure AppStatus where
  applicationName : CStr
  applicationId : CStr
  state : CStr
  error : CStr
  deriving DecidableEq, Repr

/-- `rtAppStatusCache`: the object cache, keyed by application name, and `CacheModified`. -/
structure rtAppStatusCache where
  ObjectCache : List (CStr × AppStatus)
  CacheModified : Bool
  deriving DecidableEq, Repr

/-- `rtAppStatusCache::doIdExist`: `touch` succeeds exactly for a key that is present. -/
def doIdExist (c : rtAppStatusCache) (id : CStr) : Bool := (c.ObjectCache.lookup id).isSome

/-- `rtAppStatusCache::UpdateAppStatusCache`: replace the entry of that name, set
`CacheModified` (the waiters are notified). -/
def UpdateAppStatusCache (c : rtAppStatusCache) (app_status : AppStatus) : rtAppStatusCache :=
  let cache_name_id := app_status.applicationName
  let cache :=
    if doIdExist c cache_name_id then c.ObjectCache.filter (fun e => e.1 != cache_name_id)
    else c.ObjectCache
  { ObjectCache := cache ++ [(cache_name_id, app_status)], CacheModified := true }

/-- `rtAppStatusCache::SearchAppStatusInCacheLocked`. -/
def SearchAppStatusInCacheLocked (c : rtAppStatusCache) (app_name : CStr) : CStr :=
  if doIdExist c app_name then
    match c.ObjectCache.lookup app_name with
    | some state_param => state_param.state
    | none => []
  else "NOT_FOUND".toList

/-- What the waiting thread finds when `CacheCondVar.wait_for` returns: the cache as the
updates left it, and the steady-clock time since `start_time` in milliseconds. -/
structure WakeUp where
  cache : rtAppStatusCache
  elapsed_ms : Nat
  deriving DecidableEq, Repr

/-- What one run of `WaitForAppState` does, in order: a state check (with the value of
`time_elapsed` at that moment and the state found) or a wait on the condition variable
(with the `time_left` passed to it). -/
inductive WaitEvent
  | state_check (time_elapsed : Nat) (state : CStr)
  | wait_for (time_left : Nat)
  deriving DecidableEq, Repr

/-- Outcome of a run: the returned flag (none when the thread is still inside `wait_for`
after the wake-ups listed), the events so far and the cache. -/
structure WaitRun where
  result : Option Bool
  events : List WaitEvent
  cache : rtAppStatusCache
  deriving DecidableEq, Repr

/-- The `while` loop of `rtAppStatusCache::WaitForAppState`.  `time_elapsed` is an
`unsigned long` (64 bits), `time_left` an `unsigned int` (32 bits). -/
def WaitForAppState_loop (app_name desired_state : CStr) (timeout_ms : Nat)
    (wait_for_stopped : Bool) :
    List WakeUp → rtAppStatusCache → Nat → Nat → List WaitEvent → WaitRun
  | wakeups, c, time_left, time_elapsed, events =>
    if time_elapsed < timeout_ms then
      let state := SearchAppStatusInCacheLocked c app_name
      let events := events ++ [WaitEvent.state_check time_elapsed state]
      if strcmp state "NOT_FOUND".toList = 0 ∧ wait_for_stopped = true then
        { result := some true, events := events, cache := c }
      else if strcmp state desired_state = 0 then
        { result := some true, events := events, cache := c }
      else
        let events := events ++ [WaitEvent.wait_for time_left]
        match wakeups with
        | [] => { result := none, events := events, cache := c }
        | wk :: rest =>
          let c := { wk.cache with CacheModified := false }
          let time_elapsed := wk.elapsed_ms % 2 ^ 64
          let time_left :=
            if time_elapsed < timeout_ms then (timeout_ms + 2 ^ 64 - time_elapsed) % 2 ^ 64 % 2 ^ 32
            else time_left
          WaitForAppState_loop app_name desired_state timeout_ms wait_for_stopped rest c
            time_left time_elapsed events
    else { result := some false, events := events, cache := c }

/-- `rtAppStatusCache::WaitForAppState`; `timeout_ms` is an `unsigned int`, `wakeups` what
the thread finds each time its wait ends. -/
def WaitForAppState (c : rtAppStatusCache) (app_name desired_state : CStr) (timeout_ms : Nat)
    (wakeups : List WakeUp) : WaitRun :=
  let wait_for_stopped : Bool := strcmp desired_state "stopped".toList == 0
  let time_left := timeout_ms
  let time_elapsed := 0
  let c := { c with CacheModified := false }
  WaitForAppState_loop app_name desired_state timeout_ms wait_for_stopped wakeups c time_left
    time_elapsed []

/-! ## Notions used to state the properties -/

/-- A registration matches a request name: the name starts with one of its prefixes, or
equals its name. -/
def registry_matches (r : GDialAppRegistry) (app_name : CStr) : Bool :=
  r.app_prefixes.any (fun p => p.isPrefixOf app_name) || r.name == app_name

/-- The arguments of one `gdial_rest_server_register_app` call. -/
structure RegisterCall where
  app_name : CStr
  app_prefixes : List (Option CStr)
  is_singleton : Bool
  use_additional_data : Bool
  allowed_origins : List CStr
  deriving DecidableEq, Repr

/-- Run one register call on a registry, keeping the registry only. -/
def register_step (regs : List GDialAppRegistry) (c : RegisterCall) : List GDialAppRegistry :=
  (gdial_rest_server_register_app regs (some c.app_name) c.app_prefixes c.is_singleton
    c.use_additional_data c.allowed_origins).2

/-- The registry built from the empty one by a sequence of register calls. -/
def register_calls (calls : List RegisterCall) : List GDialAppRegistry :=
  calls.foldl register_step []

/-- Insertion log after one more register call: a successful call appends its record. -/
def insertion_step (log : List GDialAppRegistry) (c : RegisterCall) : List GDialAppRegistry :=
  if (gdial_rest_server_register_app log.reverse (some c.app_name) c.app_prefixes c.is_singleton
      c.use_additional_data c.allowed_origins).1 then
    log ++ [new_app_registry c.app_name c.app_prefixes c.is_singleton c.use_additional_data
      c.allowed_origins]
  else log

/-- The registrations made by the successful calls of a sequence, in insertion order
(earliest first). -/
def insertion_order (calls : List RegisterCall) : List GDialAppRegistry :=
  calls.foldl insertion_step []

/-- Registry states reachable from the empty registry by register and unregister calls. -/
inductive Reachable : List GDialAppRegistry → Prop
  | empty : Reachable []
  | register {regs : List GDialAppRegistry} (h : Reachable regs) (app_name : Option CStr)
      (app_prefixes : List (Option CStr)) (is_singleton use_additional_data : Bool)
      (allowed_origins : List CStr) :
      Reachable (gdial_rest_server_register_app regs app_name app_prefixes is_singleton
        use_additional_data allowed_origins).2
  | unregister {regs : List GDialAppRegistry} (h : Reachable regs) (app_name : Option CStr) :
      Reachable (gdial_rest_server_unregister_app regs app_name).2

/-- The Origin value parses as a URI whose scheme is http, https or file. -/
def is_web_origin (lib : Lib) (header_origin : CStr) : Bool :=
  match lib.soup_uri_new header_origin with
  | some u =>
    u.scheme == some "http".toList || u.scheme == some "https".toList ||
      u.scheme == some "file".toList
  | none => false

/-- `'/'` followed by the segments joined by single `'/'` characters. -/
def join_segments : List CStr → CStr
  | [] => []
  | t :: rest => '/' :: t ++ join_segments rest

/-- The captured segments: the first `element_num` of base, appName, instance, tail. -/
def PathElements.segments (pe : PathElements) : List CStr :=
  [pe.base, pe.app_name, pe.instance_, pe.last_elem].take pe.element_num

/-- Status of the message at address `msg` after a callback run (none after a fault). -/
def response_status (r : Except Fault World) (msg : Nat) : Option Nat :=
  match r with
  | .ok w => (w.msg msg).map (fun m => m.status_code)
  | .error _ => none

/-- Signals emitted at the end of a callback run (none after a fault). -/
def emitted_signals (r : Except Fault World) : Option (List (Signal × CStr)) :=
  match r with
  | .ok w => some w.signals
  | .error _ => none

/-- The Origin header is present, not empty, and parses as a URI whose scheme is http,
https or file. -/
def origin_is_web (lib : Lib) (header_origin : Option CStr) : Bool :=
  match header_origin with
  | some o => decide (o ≠ []) && is_web_origin lib o
  | none => false

/-- The cells of the method × path-shape matrix that name no handler, for the shapes
`/apps/<name>` (2 segments), `/apps/<name>/<inst>` (3) and `/apps/<name>/<inst>/hide`
(4): the status the cell answers, and none for a cell with a handler (GET_app, LAUNCH,
STOP, HIDE, OPTIONS). -/
def matrix_error_cell (segments : Nat) (method : CStr) : Option Nat :=
  if method = "OPTIONS".toList then none
  else if segments = 2 then
    if method = "GET".toList ∨ method = "POST".toList then none else some 501
  else if segments = 3 then
    if method = "DELETE".toList then none
    else if method = "POST".toList then some 404 else some 501
  else
    if method = "POST".toList then none
    else if method = "DELETE".toList then some 404 else some 501

/-- The string is optional white space, an optional sign, one or more decimal digits,
and nothing else. -/
def is_decimal_integer (s : CStr) : Bool :=
  let t := s.dropWhile g_ascii_isspace
  let u := if t.head? == some '-' || t.head? == some '+' then t.drop 1 else t
  decide (u ≠ []) && u.all Char.isDigit

/-- An error response (status 400 or above) carries the header `Connection: close`. -/
def closes_on_error (m : SoupMessage) : Prop :=
  400 ≤ m.status_code →
    soup_message_headers_get_one m.response_headers "Connection".toList = some "close".toList

/-- Bounds on one event of a `WaitForAppState` run with timeout `timeout_ms`: a wait gets
a duration `time_left` with `0 < time_left ≤ timeout_ms`, and a state check happens only
while `time_elapsed < timeout_ms`. -/
def wait_event_in_bounds (timeout_ms : Nat) : WaitEvent → Prop
  | WaitEvent.wait_for time_left => 0 < time_left ∧ time_left ≤ timeout_ms
  | WaitEvent.state_check time_elapsed _ => time_elapsed < timeout_ms

/-- After a callback run that returned, the message at `msg` is still there and, when it
has an error status, carries `Connection: close`. -/
def error_response_closes (r : Except Fault World) (msg : Nat) : Prop :=
  ∀ w2, r = .ok w2 → ∃ m2, w2.msg msg = some m2 ∧ closes_on_error m2

/-- Split at every `'/'`; `cur` is the piece being read (reversed). -/
def split_segments : CStr → CStr → List CStr
  | cur, [] => [cur.reverse]
  | cur, c :: rest =>
    if c = '/' then cur.reverse :: split_segments [] rest else split_segments (c :: cur) rest

/-- The non-empty segments of a path: the pieces between `'/'` characters, empty pieces
dropped. -/
def path_segments (path : CStr) : List CStr :=
  (split_segments [] path).filter (fun t => t ≠ [])

/-- The elements of the service document, in order: the XML declaration, the opening
`<service>` with schema and `dialVer`, `<name>`, `<options>` when the option text is
there, `<state>`, `<link rel="run">` unless the state is STOPPED, an empty
`<additionalData>` when additional data is set, and the closing `</service>`; every
element ends its line with CR LF. -/
def service_elements (env : BuilderEnv) (b : GDialServerResponseBuilderGetApp) : List CStr :=
  ["<?xml version=\"1.0\" encoding=\"UTF-8\"?>\r\n".toList,
   "<service xmlns=\"".toList ++ env.GDIAL_PROTOCOL_XMLNS_SCHEMA ++ "\" dialVer=\"".toList ++
     fmt_s b.dialVer ++ "\">\r\n".toList,
   "  <name>".toList ++ fmt_s b.app_name ++ "</name>\r\n".toList] ++
  (match env.gdial_util_str_str_hashtable_to_xml_string b.options with
    | some o => ["  <options ".toList ++ o ++ "/>\r\n".toList]
    | none => []) ++
  ["  <state>".toList ++ fmt_s (env.gdial_app_state_to_string b.state) ++
    "</state>\r\n".toList] ++
  (if b.state = GDIAL_APP_STATE_STOPPED then []
    else ["  <link rel=\"run\" href=\"".toList ++ fmt_s b.link_href ++ "\"/>\r\n".toList]) ++
  (if b.additionalData.isSome then ["  <additionalData></additionalData>\r\n".toList] else []) ++
  ["</service>\r\n".toList]

/-! ## Concrete inputs -/

/-- Registry after registering `Netflix` (no prefixes). -/
def registry_netflix : List GDialAppRegistry :=
  (gdial_rest_server_register_app [] (some "Netflix".toList) [] true false
    ["netflix.com".toList]).2

/-- Registry after registering `Netflix` and then `YouTube` with the prefix `Net`. -/
def registry_netflix_youtube : List GDialAppRegistry :=
  (gdial_rest_server_register_app registry_netflix (some "YouTube".toList)
    [some "Net".toList] true false []).2

/-- Value of a hexadecimal digit. -/
def hex_value (c : Char) : Option Nat :=
  if c.isDigit then some (c.toNat - '0'.toNat)
  else if 'a'.toNat ≤ c.toNat ∧ c.toNat ≤ 'f'.toNat then some (c.toNat - 'a'.toNat + 10)
  else if 'A'.toNat ≤ c.toNat ∧ c.toNat ≤ 'F'.toNat then some (c.toNat - 'A'.toNat + 10)
  else none

/-- Decoding of one form component: `+` is a blank, `%XX` the byte XX; none on a broken
escape. -/
def form_component_decode : CStr → Option CStr
  | [] => some []
  | [c] => if c = '%' then none else some [if c = '+' then ' ' else c]
  | c :: d :: rest =>
    if c = '%' then
      match rest with
      | [] => none
      | e :: rest2 =>
        match hex_value d, hex_value e, form_component_decode rest2 with
        | some x, some y, some r => some (Char.ofNat (16 * x + y) :: r)
        | _, _, _ => none
    else (form_component_decode (d :: rest)).map (fun r => (if c = '+' then ' ' else c) :: r)

/-- A form decoder used at concrete inputs: the pairs are separated by `&`, name and
value by the first `=`; a pair without `=` or with a broken escape is skipped, a later
pair replaces an earlier one of the same name. -/
def form_decode_example (s : CStr) : List (CStr × CStr) :=
  (g_strsplit s '&' 0).foldl
    (fun table pair =>
      let name := pair.takeWhile (fun c => c != '=')
      let rest := pair.dropWhile (fun c => c != '=')
      match rest, form_component_decode name, form_component_decode (rest.drop 1) with
      | _ :: _, some n, some v => table.filter (fun e => e.1 != n) ++ [(n, v)]
      | _, _, _ => table) []

/-- A stand-in for libsoup used at concrete inputs: `soup_uri_new` keeps the scheme only
(the leading run of letters, digits, `+`, `-`, `.` before the first `:`, lower-cased;
NULL without one), `soup_uri_encode` and the response builder are the identity on the
string and the application name, `soup_form_decode` is `form_decode_example`. -/
def lib_example : Lib :=
  { soup_uri_new := fun s =>
      let sch := s.takeWhile (fun c => c.isAlphanum || c == '+' || c == '-' || c == '.')
      if sch.length ≠ 0 ∧ (s.drop sch.length).head? = some ':' ∧ (s.head?.map Char.isAlpha) = some true
      then some { scheme := some (sch.map Char.toLower), host := none, path := none, query := none }
      else none
    soup_uri_encode := fun s _ => s
    gdial_app_state_response_new := fun app => app.name
    soup_form_decode := fun s => some (form_decode_example s) }

/-- Limits used at concrete inputs. -/
def limits_example : Limits :=
  { GDIAL_REST_HTTP_MAX_URI_LEN := 256
    GDIAL_REST_HTTP_PATH_COMPONENT_MAX_LEN := 64
    GDIAL_REST_HTTP_MAX_PAYLOAD := 4096
    GDIAL_APP_DIAL_DATA_MAX_LEN := 4096 }

/-- A request message with the given method, path, extra request headers and body, as
received on port 56889 with a Host header. -/
def request_example (method path : String) (headers : List (String × String))
    (body : Option String) : SoupMessage :=
  { method := method.toList
    uri := { scheme := some "http".toList, host := some "192.168.1.10".toList,
             path := some path.toList, query := none }
    request_headers := ("Host".toList, "192.168.1.10:56889".toList) ::
      headers.map (fun h => (h.1.toList, h.2.toList))
    request_body := { data := body.map String.toList, length := (body.map String.length).getD 0 }
    address_port := 56889
    status_code := 0
    response_headers := []
    response_body := none }

/-- An IPv4 client that is not the loopback address (192.168.1.20). -/
def client_example : SoupClientContext :=
  { family := GSocketFamily.G_SOCKET_FAMILY_IPV4, to_native_ok := true, s_addr := 0xc0a80114 }

/-- A LAUNCH task as queued by `gdial_rest_server_handle_POST_and_wait` for message 7. -/
def task_example : AppsHandlerThreadPoolData :=
  { method := MethodType.POST, server := some 1, message := some 7,
    wait_timeout := APPLICATION_STATE_CHANGE_START_TIMEOUT, g_server := true,
    app_name := some "Netflix".toList, app := none }

/-- A server with `registered_apps`, the instances `apps`, the message `m` at address 9
and a worker pool holding `queued` unprocessed tasks. -/
def world_example (registered_apps : List GDialAppRegistry) (apps : List GDialApp)
    (m : SoupMessage) (queued : Nat) : World :=
  { registered_apps := registered_apps
    application_instances := apps
    messages := [(9, m)]
    poolInstance := some { unprocessed := List.replicate queued task_example }
    paused := []
    signals := []
    plat_calls := [] }

/-- The outside answering "state RUNNING" and "push succeeded". -/
def callback_plat_example : CallbackPlat :=
  { app_state := (GDIAL_APP_ERROR_NONE, GDIAL_APP_STATE_RUNNING), push_ok := true }

/-- POST /apps/Netflix with body `v=abc`. -/
def launch_request : SoupMessage := request_example "POST" "/apps/Netflix" [] (some "v=abc")

/-- A running Netflix instance launched with payload `v=abc`. -/
def netflix_running : GDialApp :=
  { name := "Netflix".toList, state := GDIAL_APP_STATE_RUNNING, payload := some "v=abc".toList,
    instance_id := 0, dial_data := [] }

/-- The platform reports RUNNING, starts the application and confirms RUNNING in time. -/
def launch_plat_ok : LaunchPlat :=
  { app_state := (GDIAL_APP_ERROR_NONE, GDIAL_APP_STATE_RUNNING)
    app_start := GDIAL_APP_ERROR_NONE
    state_wait := GDIAL_APP_ERROR_NONE }

/-- The platform reports RUNNING and refuses the start with FORBIDDEN. -/
def launch_plat_forbidden : LaunchPlat :=
  { app_state := (GDIAL_APP_ERROR_NONE, GDIAL_APP_STATE_RUNNING)
    app_start := GDIAL_APP_ERROR_FORBIDDEN
    state_wait := GDIAL_APP_ERROR_NONE }

/-- The platform starts the application but RUNNING is not confirmed in time. -/
def launch_plat_timeout : LaunchPlat :=
  { app_state := (GDIAL_APP_ERROR_NONE, GDIAL_APP_STATE_RUNNING)
    app_start := GDIAL_APP_ERROR_NONE
    state_wait := GDIAL_APP_ERROR_INTERNAL }

/-- The platform reports RUNNING, accepts the command, and the target state is not
confirmed in time. -/
def control_plat_timeout : ControlPlat :=
  { app_state := (GDIAL_APP_ERROR_NONE, GDIAL_APP_STATE_RUNNING)
    app_state_again := (GDIAL_APP_ERROR_NONE, GDIAL_APP_STATE_RUNNING)
    command := GDIAL_APP_ERROR_NONE
    app_state_after := (GDIAL_APP_ERROR_NONE, GDIAL_APP_STATE_RUNNING)
    state_wait := GDIAL_APP_ERROR_INTERNAL }

/-- A running YouTube instance with auxiliary data `a=b`. -/
def youtube_running : GDialApp :=
  { name := "YouTube".toList, state := GDIAL_APP_STATE_RUNNING, payload := none,
    instance_id := 0, dial_data := [("a".toList, "b".toList)] }

/-- The IPv4 loopback client 127.0.0.1. -/
def client_loopback : SoupClientContext :=
  { family := GSocketFamily.G_SOCKET_FAMILY_IPV4, to_native_ok := true, s_addr := INADDR_LOOPBACK }

/-- POST /apps/YouTube/dial_data with body `k=v`. -/
def dial_data_request : SoupMessage :=
  request_example "POST" "/apps/YouTube/dial_data" [] (some "k=v")

/-- OPTIONS /apps/Netflix with `Origin: https://www.netflix.com`. -/
def options_request : SoupMessage :=
  request_example "OPTIONS" "/apps/Netflix" [("Origin", "https://www.netflix.com")] none

/-- A cache in which `Netflix` is reported `running`. -/
def cache_netflix_running : rtAppStatusCache :=
  UpdateAppStatusCache { ObjectCache := [], CacheModified := false }
    { applicationName := "Netflix".toList, applicationId := "1".toList,
      state := "running".toList, error := [] }

/-- A wake-up 40 ms after the start that finds `Netflix` reported `suspended`. -/
def wakeup_example : WakeUp :=
  { cache := UpdateAppStatusCache cache_netflix_running
      { applicationName := "Netflix".toList, applicationId := "1".toList,
        state := "suspended".toList, error := [] }
    elapsed_ms := 40 }

/-- A path whose application name is 64 characters long (the bound of `limits_example`). -/
def long_name_path : String := "/apps/aaaaaaaaaaaaaaaaaaaaaaaaaaaaaaaaaaaaaaaaaaaaaaaaaaaaaaaaaaaaaaaa"

/-- Protocol constants and helpers used at concrete inputs: DIAL 2.1, the DIAL schema
URI, options rendered as `key="value"` pairs (NULL for an empty table), lower-case state
names, and STOPPED as the state of a zeroed record. -/
def builder_env_example : BuilderEnv :=
  { GDIAL_PROTOCOL_XMLNS_SCHEMA := "urn:dial-multiscreen-org:schemas:dial".toList
    GDIAL_PROTOCOL_VERSION_STR := "2.1".toList
    gdial_util_str_str_hashtable_to_xml_string := fun t =>
      if t.isEmpty then none
      else some (" ".toList.intercalate
        (t.map (fun e => e.1 ++ "=\"".toList ++ e.2 ++ "\"".toList)))
    gdial_app_state_to_string := fun s =>
      match s with
      | GDIAL_APP_STATE_RUNNING => some "running".toList
      | GDIAL_APP_STATE_HIDE => some "hidden".toList
      | GDIAL_APP_STATE_STOPPED => some "stopped".toList
      | _ => some "unknown".toList
    state_zero := GDIAL_APP_STATE_STOPPED }

theorem strcmp_eq_zero_iff (a b : CStr) : strcmp a b = 0 ↔ a = b := by
  induction a generalizing b with
  | nil => cases b <;> simp [strcmp]
  | cons x xs ih =>
    cases b with
    | nil => simp [strcmp]
    | cons y ys =>
      simp only [strcmp]
      by_cases h : x = y
      · simp [h, ih]
      · simp only [h, if_false, List.cons.injEq, false_and, iff_false]
        split <;> decide

theorem g_strcmp0_some_eq_zero_iff (a b : CStr) : g_strcmp0 (some a) (some b) = 0 ↔ a = b := by
  simp [g_strcmp0, strcmp_eq_zero_iff]

theorem match_registry_app_name_iff (r : GDialAppRegistry) (n : CStr) :
    GCompareFunc_match_registry_app_name r n = 0 ↔ registry_matches r n = true := by
  unfold GCompareFunc_match_registry_app_name registry_matches GDIAL_STR_STARTS_WITH
  by_cases h : (r.app_prefixes.any fun p => p.isPrefixOf n) = true
  · simp [h]
  · have h2 : (r.app_prefixes.any fun p => p.isPrefixOf n) = false := by simpa using h
    by_cases hn : r.name = n
    · simp [h2, hn, g_strcmp0_some_eq_zero_iff]
    · simp [h2, hn, g_strcmp0_some_eq_zero_iff]

theorem match_pred_eq (n : CStr) :
    (fun x : GDialAppRegistry => GCompareFunc_match_registry_app_name x n == 0) =
      fun x => registry_matches x n := by
  funext x
  have h := match_registry_app_name_iff x n
  by_cases h2 : registry_matches x n = true
  · simp [h2, h.mpr h2]
  · have h3 : GCompareFunc_match_registry_app_name x n ≠ 0 := fun h4 => h2 (h.mp h4)
    simp [h2, h3]

theorem find_app_registry_eq (regs : List GDialAppRegistry) (n : CStr) :
    gdial_rest_server_find_app_registry regs n = regs.find? (fun x => registry_matches x n) := by
  unfold gdial_rest_server_find_app_registry g_list_find_custom
  rw [match_pred_eq]

theorem new_app_registry_name (n : CStr) (ps : List (Option CStr)) (s u : Bool)
    (os : List CStr) : (new_app_registry n ps s u os).name = n := rfl

theorem register_app_eq (regs : List GDialAppRegistry) (n : CStr) (ps : List (Option CStr))
    (s u : Bool) (os : List CStr) :
    gdial_rest_server_register_app regs (some n) ps s u os =
      if s = true ∧ gdial_rest_server_find_app_registry regs n = none then
        (true, new_app_registry n ps s u os :: regs)
      else (false, regs) := by
  unfold gdial_rest_server_register_app
  cases s with
  | false => simp
  | true =>
    cases hf : gdial_rest_server_find_app_registry regs n with
    | some r =>
      have : g_list_find_custom regs n GCompareFunc_match_registry_app_name = some r := hf
      simp [this]
    | none =>
      have h1 : g_list_find_custom regs n GCompareFunc_match_registry_app_name = none := hf
      have h2 : gdial_rest_server_is_app_registered
          (new_app_registry n ps true u os :: regs) n = true := by
        unfold gdial_rest_server_is_app_registered
        rw [find_app_registry_eq]
        simp [List.find?_cons, registry_matches, new_app_registry_name]
      simp [h1, h2]

theorem register_step_eq (regs : List GDialAppRegistry) (c : RegisterCall) :
    register_step regs c =
      if (gdial_rest_server_register_app regs (some c.app_name) c.app_prefixes c.is_singleton
          c.use_additional_data c.allowed_origins).1 then
        new_app_registry c.app_name c.app_prefixes c.is_singleton c.use_additional_data
          c.allowed_origins :: regs
      else regs := by
  unfold register_step
  rw [register_app_eq]
  split <;> simp

theorem foldl_register_step_eq (calls : List RegisterCall) :
    ∀ log : List GDialAppRegistry,
      calls.foldl register_step log.reverse = (calls.foldl insertion_step log).reverse := by
  induction calls with
  | nil => intro log; rfl
  | cons c calls ih =>
    intro log
    simp only [List.foldl_cons]
    have h : register_step log.reverse c = (insertion_step log c).reverse := by
      rw [register_step_eq]
      unfold insertion_step
      split <;> simp
    rw [h, ih]

theorem find?_reverse_eq_getLast?_filter {α : Type} (q : α → Bool) (l : List α) :
    l.reverse.find? q = (l.filter q).getLast? := by
  induction l using List.reverseRecOn with
  | nil => rfl
  | append_singleton l a ih =>
    rw [List.reverse_append, List.filter_append]
    by_cases h : q a = true
    · simp [List.find?_cons, h]
    · have h2 : q a = false := by simpa using h
      simp only [List.reverse_singleton, List.singleton_append, List.find?_cons, h2,
        List.filter_cons, List.filter_nil, Bool.false_eq_true, if_false, List.append_nil]
      exact ih

/-- C4 (counterexample): after the successful calls register(Netflix) and then
register(YouTube, prefix "Net"), the lookup of "Netflix" returns the YouTube
registration, although the earlier Netflix registration matches the name too. -/
theorem C4_lookup_returns_later_registration :
    (gdial_rest_server_register_app [] (some "Netflix".toList) [] true false
        ["netflix.com".toList]).1 = true ∧
    (gdial_rest_server_register_app registry_netflix (some "YouTube".toList)
        [some "Net".toList] true false []).1 = true ∧
    registry_netflix_youtube.map (fun r => r.name) = ["YouTube".toList, "Netflix".toList] ∧
    (registry_netflix.map (fun r => registry_matches r "Netflix".toList)) = [true] ∧
    (gdial_rest_server_find_app_registry registry_netflix_youtube "Netflix".toList).map
      (fun r => r.name) = some "YouTube".toList := by
  decide

/-- C4 (amended): the registry built by a sequence of register calls is the insertion
log reversed, `gdial_rest_server_find_app_registry` returns the most recently
registered registration that matches the name, and returns none iff no registration
matches. -/
theorem C4_lookup_returns_most_recent_match (calls : List RegisterCall) (n : CStr) :
    register_calls calls = (insertion_order calls).reverse ∧
    gdial_rest_server_find_app_registry (register_calls calls) n =
      ((insertion_order calls).filter (fun r => registry_matches r n)).getLast? ∧
    (gdial_rest_server_find_app_registry (register_calls calls) n = none ↔
      ∀ r ∈ register_calls calls, registry_matches r n = false) := by
  have h : register_calls calls = (insertion_order calls).reverse :=
    foldl_register_step_eq calls []
  refine ⟨h, ?_, ?_⟩
  · rw [find_app_registry_eq, h, find?_reverse_eq_getLast?_filter]
  · rw [find_app_registry_eq]
    simp

/-- C5: `gdial_rest_server_register_app` returns TRUE iff `is_singleton` holds and no
existing registration matches `app_name` under the lookup comparison; on FALSE the
registry is unchanged; on TRUE exactly one registration carrying that name is added and
the name is registered afterwards. -/
theorem C5_register_app_result (regs : List GDialAppRegistry) (n : CStr)
    (ps : List (Option CStr)) (s u : Bool) (os : List CStr) :
    ((gdial_rest_server_register_app regs (some n) ps s u os).1 = true ↔
      s = true ∧ ∀ r ∈ regs, GCompareFunc_match_registry_app_name r n ≠ 0) ∧
    ((gdial_rest_server_register_app regs (some n) ps s u os).1 = false →
      (gdial_rest_server_register_app regs (some n) ps s u os).2 = regs) ∧
    ((gdial_rest_server_register_app regs (some n) ps s u os).1 = true →
      (∃ reg : GDialAppRegistry, reg.name = n ∧
        (gdial_rest_server_register_app regs (some n) ps s u os).2 = reg :: regs) ∧
      gdial_rest_server_is_app_registered
        (gdial_rest_server_register_app regs (some n) ps s u os).2 n = true) := by
  have hnone : gdial_rest_server_find_app_registry regs n = none ↔
      ∀ r ∈ regs, GCompareFunc_match_registry_app_name r n ≠ 0 := by
    unfold gdial_rest_server_find_app_registry g_list_find_custom
    simp
  rw [register_app_eq]
  by_cases h : s = true ∧ gdial_rest_server_find_app_registry regs n = none
  · rw [if_pos h]
    refine ⟨?_, ?_, ?_⟩
    · simpa using ⟨h.1, hnone.mp h.2⟩
    · simp
    · intro _
      refine ⟨⟨_, new_app_registry_name n ps s u os, rfl⟩, ?_⟩
      unfold gdial_rest_server_is_app_registered
      rw [find_app_registry_eq]
      simp [List.find?_cons, registry_matches, new_app_registry_name]
  · rw [if_neg h]
    refine ⟨?_, ?_, ?_⟩
    · simp only [Bool.false_eq_true, false_iff]
      intro h2
      exact h ⟨h2.1, hnone.mpr h2.2⟩
    · simp
    · simp

theorem reachable_nodup (regs : List GDialAppRegistry) (h : Reachable regs) :
    (regs.map (fun r => r.name)).Nodup := by
  induction h with
  | empty => simp
  | @register regs _ app_name ps s u os ih =>
    cases app_name with
    | none => simpa [gdial_rest_server_register_app] using ih
    | some n =>
      rw [register_app_eq]
      by_cases hc : s = true ∧ gdial_rest_server_find_app_registry regs n = none
      · rw [if_pos hc]
        simp only [List.map_cons, List.nodup_cons, new_app_registry_name]
        refine ⟨?_, ih⟩
        intro hmem
        obtain ⟨r, hr, hrn⟩ := List.mem_map.mp hmem
        have hf := hc.2
        rw [find_app_registry_eq, List.find?_eq_none] at hf
        have := hf r hr
        simp [registry_matches, hrn] at this
      · rw [if_neg hc]
        exact ih
  | @unregister regs _ app_name ih =>
    cases app_name with
    | none => simpa [gdial_rest_server_unregister_app] using ih
    | some n =>
      simp only [gdial_rest_server_unregister_app]
      split
      · exact ih
      · simp only [g_list_remove_found]
        exact List.Nodup.sublist ((List.eraseP_sublist regs).map _) ih

/-- C6: in every registry state reachable from the empty registry by register and
unregister calls no two registrations have the same name, and a register call whose
name equals the name of an existing registration returns FALSE and changes nothing. -/
theorem C6_registration_names_unique (regs : List GDialAppRegistry) (h : Reachable regs) :
    (regs.map (fun r => r.name)).Nodup ∧
    ∀ r ∈ regs, ∀ (ps : List (Option CStr)) (s u : Bool) (os : List CStr),
      gdial_rest_server_register_app regs (some r.name) ps s u os = (false, regs) := by
  refine ⟨reachable_nodup regs h, ?_⟩
  intro r hr ps s u os
  rw [register_app_eq]
  have hf : gdial_rest_server_find_app_registry regs r.name ≠ none := by
    rw [find_app_registry_eq]
    intro hnone
    rw [List.find?_eq_none] at hnone
    have := hnone r hr
    simp [registry_matches] at this
  simp [hf]

/-- C6 (witness): the statement at the registry reached by registering Netflix and
YouTube. -/
theorem C6_registration_names_unique_witness :
    Reachable registry_netflix_youtube ∧
    (registry_netflix_youtube.map (fun r => r.name)).Nodup ∧
    ∀ r ∈ registry_netflix_youtube, ∀ (ps : List (Option CStr)) (s u : Bool) (os : List CStr),
      gdial_rest_server_register_app registry_netflix_youtube (some r.name) ps s u os =
        (false, registry_netflix_youtube) :=
  ⟨Reachable.register (Reachable.register Reachable.empty _ _ _ _ _) _ _ _ _ _,
    C6_registration_names_unique registry_netflix_youtube
      (Reachable.register (Reachable.register Reachable.empty _ _ _ _ _) _ _ _ _ _)⟩

/-- C7: for an app name that matches a registration, the origin is admitted iff the
Origin header is missing or empty, or it does not parse as a URI with scheme http,
https or file, or some entry of that registration's allowed origins is a suffix of the
raw Origin string. -/
theorem C7_is_allowed_origin_iff (lib : Lib) (regs : List GDialAppRegistry)
    (header_origin : Option CStr) (app_name : CStr) (reg : GDialAppRegistry)
    (hreg : gdial_rest_server_find_app_registry regs app_name = some reg) :
    gdial_rest_server_is_allowed_origin lib regs header_origin app_name = true ↔
      (header_origin = none ∨ header_origin = some [] ∨
        ∃ o, header_origin = some o ∧
          (is_web_origin lib o = false ∨ ∃ e ∈ reg.allowed_origins, e <:+ o)) := by
  cases header_origin with
  | none => simp [gdial_rest_server_is_allowed_origin]
  | some o =>
    by_cases ho : o = []
    · simp [gdial_rest_server_is_allowed_origin, ho, g_strcmp0, strcmp]
    · have h0 : ¬ g_strcmp0 (some o) (some []) = 0 := by
        rw [g_strcmp0_some_eq_zero_iff]; exact ho
      simp only [gdial_rest_server_is_allowed_origin, hreg, beq_iff_eq, h0, if_false,
        reduceCtorEq, Option.some.injEq, ho, false_or, exists_eq_left']
      cases hu : lib.soup_uri_new o with
      | none => simp [is_web_origin, hu]
      | some u =>
        by_cases hw : (u.scheme == some "http".toList || u.scheme == some "https".toList ||
            u.scheme == some "file".toList) = true
        · have hs : u.scheme.isSome = true := by
            cases hsch : u.scheme with
            | none => simp [hsch] at hw
            | some _ => rfl
          simp [is_web_origin, hu, hw, hs, GDIAL_STR_ENDS_WITH]
        · have hw2 : (u.scheme == some "http".toList || u.scheme == some "https".toList ||
              u.scheme == some "file".toList) = false := by simpa using hw
          simp only [is_web_origin, hu, hw2, Bool.and_false, Bool.false_eq_true, if_false,
            true_or, true_iff]

/-- C7 (witness): the statement for the Netflix registration (allowed origin
`netflix.com`) and the origin `https://www.netflix.com`. -/
theorem C7_is_allowed_origin_iff_witness :
    gdial_rest_server_find_app_registry registry_netflix "Netflix".toList =
      some (new_app_registry "Netflix".toList [] true false ["netflix.com".toList]) ∧
    (gdial_rest_server_is_allowed_origin lib_example registry_netflix
        (some "https://www.netflix.com".toList) "Netflix".toList = true ↔
      ((some "https://www.netflix.com".toList : Option CStr) = none ∨
        (some "https://www.netflix.com".toList : Option CStr) = some [] ∨
        ∃ o, (some "https://www.netflix.com".toList : Option CStr) = some o ∧
          (is_web_origin lib_example o = false ∨
            ∃ e ∈ (new_app_registry "Netflix".toList [] true false
              ["netflix.com".toList]).allowed_origins, e <:+ o))) :=
  ⟨by decide,
    C7_is_allowed_origin_iff lib_example registry_netflix (some "https://www.netflix.com".toList)
      "Netflix".toList (new_app_registry "Netflix".toList [] true false ["netflix.com".toList])
      (by decide)⟩

/-- C8: when the platform state query succeeds (reporting state `st`), the relaunch
policy answers true (non-zero) iff the state is STOPPED or the cached payload differs
from the request payload; two absent payloads are equal, an absent and a present one
differ. -/
theorem C8_should_relaunch_iff (st : GDialAppState) (app : GDialApp) (payload : Option CStr) :
    (gdial_rest_server_should_relaunch_app (GDIAL_APP_ERROR_NONE, st) (some app) payload).1 ≠ 0 ↔
      (st = GDIAL_APP_STATE_STOPPED ∨ app.payload ≠ payload) := by
  simp only [gdial_rest_server_should_relaunch_app, gdial_app_state, if_true, ne_eq,
    not_true_eq_false, false_or, gdial_app_get_launch_payload]
  by_cases hst : st = GDIAL_APP_STATE_STOPPED
  · simp [hst]
  · simp only [hst, if_false, false_or]
    cases hc : app.payload with
    | none =>
      cases payload with
      | none => simp
      | some q => simp
    | some c =>
      cases payload with
      | none => simp
      | some q => simp [g_strcmp0_some_eq_zero_iff]

/-- With five or more unprocessed tasks and a task record whose `message` field is still
NULL, `gdial_rest_server_send` dereferences that NULL field. -/
theorem send_overloaded_null_message (method : MethodType) (server message : Nat)
    (t1 t2 t3 t4 t5 : AppsHandlerThreadPoolData) (rest : List AppsHandlerThreadPoolData)
    (data : AppsHandlerThreadPoolData) (push_ok : Bool) (w : World) :
    gdial_rest_server_send method server message
        { unprocessed := t1 :: t2 :: t3 :: t4 :: t5 :: rest } { data with message := none }
        push_ok w = .error Fault.null_deref := by
  simp [gdial_rest_server_send, g_thread_pool_unprocessed,
    REST_API_THREAD_POOL_NOT_PROCESSED_LIMIT]

/-- C1 (the code at the failing input): POST /apps/Netflix arrives while five tasks are
unprocessed.  `gdial_rest_server_send`, called with the zeroed task record built by
`gdial_rest_server_handle_POST_and_wait`, answers through `data->message`, which is
NULL on this branch: the call faults, it does not return FALSE, and the status of the
message passed to the call is never set to 403. -/
theorem C1_send_on_full_queue_faults :
    gdial_rest_server_send MethodType.POST 1 9
        { unprocessed := List.replicate 5 task_example }
        { AppsHandlerThreadPoolData.g_new0 with
          wait_timeout := APPLICATION_STATE_CHANGE_START_TIMEOUT
          g_server := true
          app_name := some "Netflix".toList }
        true
        (world_example registry_netflix [] (request_example "POST" "/apps/Netflix" []
          (some "v=abc")) 5) = .error Fault.null_deref ∧
    gdial_rest_server_handle_POST_and_wait 1 9 "Netflix".toList true
        (world_example registry_netflix [] (request_example "POST" "/apps/Netflix" []
          (some "v=abc")) 5) = .error Fault.null_deref ∧
    response_status
        (gdial_rest_http_server_apps_callback limits_example lib_example callback_plat_example
          (world_example registry_netflix [] (request_example "POST" "/apps/Netflix" []
            (some "v=abc")) 5) 1 9 "/apps/Netflix".toList client_example) 9 = none := by
  refine ⟨rfl, rfl, ?_⟩
  decide

theorem g_strsplit_go_join (budget : Nat) (cur s : CStr) :
    join_segments (g_strsplit_go '/' budget cur s) = '/' :: (cur.reverse ++ s) := by
  induction s generalizing budget cur with
  | nil => simp [g_strsplit_go, join_segments]
  | cons c rest ih =>
    cases budget with
    | zero =>
      rw [g_strsplit_go, ih]
      simp
    | succ b =>
      rw [g_strsplit_go]
      by_cases hc : c = '/'
      · rw [if_pos hc, join_segments, ih, hc]
        simp
      · rw [if_neg hc, ih]
        simp

theorem g_strsplit_go_length (budget : Nat) (cur s : CStr) :
    (g_strsplit_go '/' budget cur s).length ≤ budget + 1 := by
  induction s generalizing budget cur with
  | nil => simp [g_strsplit_go]
  | cons c rest ih =>
    cases budget with
    | zero =>
      rw [g_strsplit_go]
      exact ih 0 _
    | succ b =>
      rw [g_strsplit_go]
      by_cases hc : c = '/'
      · rw [if_pos hc, List.length_cons]
        have := ih b []
        omega
      · rw [if_neg hc]
        exact ih (b + 1) _

theorem g_strsplit_four_join (s : CStr) (hs : s ≠ []) :
    join_segments (g_strsplit s '/' 4) = '/' :: s ∧ (g_strsplit s '/' 4).length ≤ 4 := by
  unfold g_strsplit
  rw [if_neg hs]
  refine ⟨?_, ?_⟩
  · rw [g_strsplit_go_join]; simp
  · exact g_strsplit_go_length _ _ _

theorem g_strlcpy_eq_of_cmp (e : CStr) (size : Nat)
    (h : ¬ g_strcmp0 (some (g_strlcpy e size)) (some e) ≠ 0) : g_strlcpy e size = e := by
  rw [ne_eq, not_not, g_strcmp0_some_eq_zero_iff] at h
  exact h

theorem copy_check_elements (size : Nat) (els : List CStr) (hlen : els.length ≤ 4)
    (h : (check_elements
      [(copy_elements size els ⟨[], [], [], [], 0⟩).base,
       (copy_elements size els ⟨[], [], [], [], 0⟩).app_name,
       (copy_elements size els ⟨[], [], [], [], 0⟩).instance_,
       (copy_elements size els ⟨[], [], [], [], 0⟩).last_elem]
      (copy_elements size els ⟨[], [], [], [], 0⟩).element_num els 0).isSome = true) :
    (copy_elements size els ⟨[], [], [], [], 0⟩).segments = els.filter (fun t => t ≠ []) ∧
    check_elements
      [(copy_elements size els ⟨[], [], [], [], 0⟩).base,
       (copy_elements size els ⟨[], [], [], [], 0⟩).app_name,
       (copy_elements size els ⟨[], [], [], [], 0⟩).instance_,
       (copy_elements size els ⟨[], [], [], [], 0⟩).last_elem]
      (copy_elements size els ⟨[], [], [], [], 0⟩).element_num els 0 =
        some (copy_elements size els ⟨[], [], [], [], 0⟩).element_num := by
  rcases els with _ | ⟨a, _ | ⟨b, _ | ⟨c, _ | ⟨d, _ | ⟨e, l⟩⟩⟩⟩⟩
  · simp [copy_elements, check_elements, PathElements.segments]
  · by_cases ha : a = [] <;>
      simp_all [copy_elements, check_elements, PathElements.segments,
        g_strcmp0_some_eq_zero_iff]
  · by_cases ha : a = [] <;> by_cases hb : b = [] <;>
      simp_all [copy_elements, check_elements, PathElements.segments,
        g_strcmp0_some_eq_zero_iff]
    all_goals (split_ifs at h <;> simp_all)
  · by_cases ha : a = [] <;> by_cases hb : b = [] <;> by_cases hc : c = [] <;>
      simp_all [copy_elements, check_elements, PathElements.segments,
        g_strcmp0_some_eq_zero_iff]
    all_goals (split_ifs at h <;> simp_all)
  · by_cases ha : a = [] <;> by_cases hb : b = [] <;> by_cases hc : c = [] <;>
      by_cases hd : d = [] <;>
      simp_all [copy_elements, check_elements, PathElements.segments,
        g_strcmp0_some_eq_zero_iff]
    all_goals (split_ifs at h <;> simp_all)
  · simp at hlen

/-- The checks of `apps_callback_validate`, read off an accepting run. -/
theorem validate_ok (lim : Limits) (m : SoupMessage) (path : CStr) (client : SoupClientContext)
    (host : CStr) (pe : PathElements)
    (h : apps_callback_validate lim m path client = .ok (host, pe)) :
    6 < path.length ∧ path.take 5 = "/apps".toList ∧
    soup_message_headers_get_one m.request_headers "Host".toList = some host ∧
    pe = copy_elements lim.GDIAL_REST_HTTP_PATH_COMPONENT_MAX_LEN (g_strsplit (path.drop 1) '/' 4)
      ⟨[], [], [], [], 0⟩ ∧
    (check_elements [pe.base, pe.app_name, pe.instance_, pe.last_elem] pe.element_num
      (g_strsplit (path.drop 1) '/' 4) 0).isSome = true ∧
    (∀ i, check_elements [pe.base, pe.app_name, pe.instance_, pe.last_elem] pe.element_num
      (g_strsplit (path.drop 1) '/' 4) 0 = some i → 2 ≤ i ∧ i ≤ 4) ∧
    pe.base = "apps".toList ∧ pe.app_name ≠ [] := by
  simp only [apps_callback_validate] at h
  split_ifs at h with h1 h2 h3 h4 h5
  split at h
  · exact absurd h (by simp)
  · rename_i header_host hhost
    split at h
    · exact absurd h (by simp)
    · rename_i i hi
      split_ifs at h with h6
      simp only [Except.ok.injEq, Prod.mk.injEq] at h
      obtain ⟨rfl, rfl⟩ := h
      simp only [Bool.or_eq_true, decide_eq_true_eq, bne_iff_ne, ne_eq, beq_iff_eq, not_or,
        not_not, not_lt, g_strcmp0_some_eq_zero_iff, List.length_eq_zero] at h6
      refine ⟨h4, ?_, hhost, rfl, ?_, ?_, h6.1.2, h6.2⟩
      · exact not_not.mp h5
      · rw [hi]; rfl
      · intro j hj
        rw [hi] at hj
        cases hj
        exact ⟨h6.1.1.2, h6.1.1.1⟩

/-- C2 (counterexample): OPTIONS on `/apps/Netflix/` (trailing slash) and on
`/apps//Netflix` (embedded empty segment), Netflix registered: the parser accepts both
paths with the captured segments `apps`, `Netflix`, which joined give `/apps/Netflix`
and not the request path, and the requests are answered 204, not 501. -/
theorem C2_empty_segments_accepted :
    (match apps_callback_validate limits_example (request_example "OPTIONS" "/apps/Netflix/" []
        none) "/apps/Netflix/".toList client_example with
      | .ok r => some (join_segments r.2.segments)
      | .error _ => none) = some "/apps/Netflix".toList ∧
    response_status
      (gdial_rest_http_server_apps_callback limits_example lib_example callback_plat_example
        (world_example registry_netflix [] (request_example "OPTIONS" "/apps/Netflix/" [] none) 0)
        1 9 "/apps/Netflix/".toList client_example) 9 = some 204 ∧
    (match apps_callback_validate limits_example (request_example "OPTIONS" "/apps//Netflix" []
        none) "/apps//Netflix".toList client_example with
      | .ok r => some (join_segments r.2.segments)
      | .error _ => none) = some "/apps/Netflix".toList ∧
    response_status
      (gdial_rest_http_server_apps_callback limits_example lib_example callback_plat_example
        (world_example registry_netflix [] (request_example "OPTIONS" "/apps//Netflix" [] none) 0)
        1 9 "/apps//Netflix".toList client_example) 9 = some 204 := by
  decide

/-- C2 (amended): for every path the callback does not reject during parsing and
validation, the path equals `'/'` followed by the (at most four) split tokens joined by
single `'/'`, and the captured segments are exactly the non-empty tokens, in order and
untruncated; there are between two and four of them, the first is `apps` and the
application name is not empty.  So the path equals `'/'` followed by the captured
segments joined by single `'/'` whenever no token is empty; empty tokens are skipped,
not rejected. -/
theorem C2_accepted_path_segments (lim : Limits) (m : SoupMessage) (path : CStr)
    (client : SoupClientContext) (host : CStr) (pe : PathElements)
    (h : apps_callback_validate lim m path client = .ok (host, pe)) :
    path = join_segments (g_strsplit (path.drop 1) '/' 4) ∧
    pe.segments = (g_strsplit (path.drop 1) '/' 4).filter (fun t => t ≠ []) ∧
    2 ≤ pe.element_num ∧ pe.element_num ≤ 4 ∧ pe.base = "apps".toList ∧ pe.app_name ≠ [] ∧
    ((∀ t ∈ g_strsplit (path.drop 1) '/' 4, t ≠ []) → path = join_segments pe.segments) := by
  obtain ⟨hlen, htake, -, hpe, hsome, hrange, hbase, happ⟩ := validate_ok lim m path client host pe h
  have hne : path.drop 1 ≠ [] := by
    intro h0
    have := congrArg List.length h0
    simp at this
    omega
  have hpath : path = '/' :: path.drop 1 := by
    rcases path with _ | ⟨c, rest⟩
    · simp at hlen
    · have hc : c = '/' := by
        have := congrArg List.head? htake
        simpa using this
      simp [hc]
  obtain ⟨hjoin, hle⟩ := g_strsplit_four_join (path.drop 1) hne
  rw [hpe] at hsome
  obtain ⟨hseg, hexit⟩ := copy_check_elements _ _ hle hsome
  rw [← hpe] at hseg hexit
  have hnum := hrange _ hexit
  have hfirst : path = join_segments (g_strsplit (path.drop 1) '/' 4) := by
    rw [hjoin]; exact hpath
  refine ⟨hfirst, hseg, hnum.1, hnum.2, hbase, happ, ?_⟩
  intro hall
  rw [hseg, List.filter_eq_self.mpr]
  · exact hfirst
  · intro t ht
    simpa using hall t ht

/-- C2 (witness): the amended statement at `/apps/Netflix/run/hide`, which passes
validation. -/
theorem C2_accepted_path_segments_witness :
    apps_callback_validate limits_example
        (request_example "POST" "/apps/Netflix/run/hide" [] none)
        "/apps/Netflix/run/hide".toList client_example =
      .ok ("192.168.1.10:56889".toList,
        PathElements.mk "apps".toList "Netflix".toList "run".toList "hide".toList 4) ∧
    "/apps/Netflix/run/hide".toList =
      join_segments (g_strsplit ("/apps/Netflix/run/hide".toList.drop 1) '/' 4) ∧
    (PathElements.mk "apps".toList "Netflix".toList "run".toList "hide".toList 4).segments =
      (g_strsplit ("/apps/Netflix/run/hide".toList.drop 1) '/' 4).filter (fun t => t ≠ []) :=
  ⟨rfl,
    (C2_accepted_path_segments limits_example
      (request_example "POST" "/apps/Netflix/run/hide" [] none) "/apps/Netflix/run/hide".toList
      client_example "192.168.1.10:56889".toList
      (PathElements.mk "apps".toList "Netflix".toList "run".toList "hide".toList 4) rfl).1,
    (C2_accepted_path_segments limits_example
      (request_example "POST" "/apps/Netflix/run/hide" [] none) "/apps/Netflix/run/hide".toList
      client_example "192.168.1.10:56889".toList
      (PathElements.mk "apps".toList "Netflix".toList "run".toList "hide".toList 4) rfl).2.1⟩


theorem msg_set_msg (w : World) (p : Nat) (m : SoupMessage) : (w.set_msg p m).msg p = some m := by
  simp [World.set_msg, World.msg, List.lookup]

theorem is_allowed_origin_unregistered (lib : Lib) (regs : List GDialAppRegistry)
    (header_origin : Option CStr) (app_name : CStr)
    (hreg : gdial_rest_server_find_app_registry regs app_name = none) :
    gdial_rest_server_is_allowed_origin lib regs header_origin app_name =
      !origin_is_web lib header_origin := by
  cases header_origin with
  | none => rfl
  | some o =>
    by_cases ho : o = []
    · simp [gdial_rest_server_is_allowed_origin, origin_is_web, ho, g_strcmp0, strcmp]
    · have h0 : ¬ g_strcmp0 (some o) (some []) = 0 := by
        rw [g_strcmp0_some_eq_zero_iff]; exact ho
      simp only [gdial_rest_server_is_allowed_origin, hreg, beq_iff_eq, h0, if_false,
        origin_is_web, is_web_origin, ho, ne_eq, not_false_eq_true, decide_True, Bool.true_and]
      cases hu : lib.soup_uri_new o with
      | none => simp
      | some u =>
        rcases u with ⟨sch, hst, pth, qry⟩
        cases sch with
        | none => simp
        | some sch =>
          simp only [Option.isSome_some, Bool.and_self, Bool.true_and]
          split
          · rename_i hc
            rw [hc]; rfl
          · rename_i hc
            have hc2 := Bool.eq_false_iff.mpr hc
            rw [hc2]; rfl

/-- C3 (counterexample): GET /apps/Unknown with `Origin: http://evil.example`, Unknown
not registered: the response is 403 and no signal is emitted. -/
theorem C3_unregistered_app_web_origin_forbidden :
    response_status
      (gdial_rest_http_server_apps_callback limits_example lib_example callback_plat_example
        (world_example registry_netflix []
          (request_example "GET" "/apps/Unknown" [("Origin", "http://evil.example")] none) 0)
        1 9 "/apps/Unknown".toList client_example) 9 = some 403 ∧
    emitted_signals
      (gdial_rest_http_server_apps_callback limits_example lib_example callback_plat_example
        (world_example registry_netflix []
          (request_example "GET" "/apps/Unknown" [("Origin", "http://evil.example")] none) 0)
        1 9 "/apps/Unknown".toList client_example) = some [] ∧
    gdial_rest_server_is_app_registered registry_netflix "Unknown".toList = false := by
  decide

/-- C3 (amended): for every request that passes the parsing and validation of the public
callback and whose application name matches no registration: when the Origin header is
missing, empty, or does not parse with scheme http, https or file, the response is 404
and exactly one invalid-uri signal is emitted, whatever the method and the other
headers; when the Origin header has such a scheme the response is 403 and no signal is
emitted. -/
theorem C3_unregistered_app_response (lim : Limits) (lib : Lib) (plat : CallbackPlat) (w : World)
    (server msg : Nat) (m : SoupMessage) (path : CStr) (client : SoupClientContext)
    (host : CStr) (pe : PathElements)
    (hm : w.msg msg = some m)
    (hv : apps_callback_validate lim m path client = .ok (host, pe))
    (hreg : gdial_rest_server_find_app_registry w.registered_apps pe.app_name = none) :
    response_status
        (gdial_rest_http_server_apps_callback lim lib plat w server msg path client) msg =
      some (if origin_is_web lib (soup_message_headers_get_one m.request_headers "Origin".toList)
        then 403 else 404) ∧
    emitted_signals
        (gdial_rest_http_server_apps_callback lim lib plat w server msg path client) =
      some (if origin_is_web lib (soup_message_headers_get_one m.request_headers "Origin".toList)
        then w.signals
        else w.signals ++
          [(Signal.SIGNAL_INVALID_URI, "URI containes unregistered app name".toList)]) := by
  have hnot : gdial_rest_server_is_app_registered w.registered_apps pe.app_name = false := by
    simp [gdial_rest_server_is_app_registered, hreg]
  simp only [gdial_rest_http_server_apps_callback, hm, hv,
    is_allowed_origin_unregistered lib _ _ _ hreg, hnot, Bool.not_not, Bool.not_false, if_true]
  by_cases hw : origin_is_web lib
      (soup_message_headers_get_one m.request_headers "Origin".toList) = true
  · simp only [hw, if_true, response_status, emitted_signals, msg_set_msg, Option.map_some']
    refine ⟨rfl, rfl⟩
  · have hw2 : origin_is_web lib
        (soup_message_headers_get_one m.request_headers "Origin".toList) = false := by
      simpa using hw
    simp only [hw2, Bool.false_eq_true, if_false, response_status, emitted_signals, msg_set_msg,
      Option.map_some']
    refine ⟨rfl, rfl⟩

/-- C3 (witness): GET /apps/Unknown without Origin header, Unknown not registered: the
request passes validation, the answer is 404 and one invalid-uri signal is emitted. -/
theorem C3_unregistered_app_response_witness :
    apps_callback_validate limits_example (request_example "GET" "/apps/Unknown" [] none)
        "/apps/Unknown".toList client_example =
      .ok ("192.168.1.10:56889".toList,
        PathElements.mk "apps".toList "Unknown".toList [] "Unknown".toList 2) ∧
    gdial_rest_server_find_app_registry
        (world_example registry_netflix [] (request_example "GET" "/apps/Unknown" [] none)
          0).registered_apps "Unknown".toList = none ∧
    response_status
        (gdial_rest_http_server_apps_callback limits_example lib_example callback_plat_example
          (world_example registry_netflix [] (request_example "GET" "/apps/Unknown" [] none) 0)
          1 9 "/apps/Unknown".toList client_example) 9 = some 404 ∧
    emitted_signals
        (gdial_rest_http_server_apps_callback limits_example lib_example callback_plat_example
          (world_example registry_netflix [] (request_example "GET" "/apps/Unknown" [] none) 0)
          1 9 "/apps/Unknown".toList client_example) =
      some [(Signal.SIGNAL_INVALID_URI, "URI containes unregistered app name".toList)] :=
  ⟨rfl, by decide,
    (C3_unregistered_app_response limits_example lib_example callback_plat_example
      (world_example registry_netflix [] (request_example "GET" "/apps/Unknown" [] none) 0)
      1 9 (request_example "GET" "/apps/Unknown" [] none) "/apps/Unknown".toList client_example
      "192.168.1.10:56889".toList
      (PathElements.mk "apps".toList "Unknown".toList [] "Unknown".toList 2)
      rfl rfl (by decide)).1.trans (by decide),
    (C3_unregistered_app_response limits_example lib_example callback_plat_example
      (world_example registry_netflix [] (request_example "GET" "/apps/Unknown" [] none) 0)
      1 9 (request_example "GET" "/apps/Unknown" [] none) "/apps/Unknown".toList client_example
      "192.168.1.10:56889".toList
      (PathElements.mk "apps".toList "Unknown".toList [] "Unknown".toList 2)
      rfl rfl (by decide)).2.trans (by decide)⟩


/-! ## Response headers -/

theorem find?_filter_of_imp {α : Type} (q r : α → Bool) (l : List α)
    (h : ∀ x, q x = true → r x = true) : (l.filter r).find? q = l.find? q := by
  induction l with
  | nil => rfl
  | cons a l ih =>
    by_cases hr : r a = true
    · simp only [List.filter_cons, hr, if_true, List.find?_cons, ih]
    · have hq : q a = false := by
        cases hqa : q a with
        | false => rfl
        | true => exact absurd (h a hqa) hr
      simp only [List.filter_cons, hr, if_false, List.find?_cons, hq, ih, Bool.false_eq_true]

theorem header_name_eq_trans_false (x n n2 : CStr) (hne : header_name_eq n n2 = false)
    (hx : header_name_eq x n2 = true) : (!header_name_eq x n) = true := by
  simp only [header_name_eq, beq_iff_eq, beq_eq_false_iff_ne, ne_eq, Bool.not_eq_true',
    ] at *
  intro h
  exact hne (h ▸ hx)

theorem get_one_remove_other (hdrs : SoupMessageHeaders) (n n2 : CStr)
    (hne : header_name_eq n n2 = false) :
    soup_message_headers_get_one (soup_message_headers_remove hdrs n) n2 =
      soup_message_headers_get_one hdrs n2 := by
  unfold soup_message_headers_get_one soup_message_headers_remove
  rw [← List.filter_reverse, find?_filter_of_imp]
  intro x hx
  exact header_name_eq_trans_false x.1 n n2 hne hx

theorem get_one_replace_other (hdrs : SoupMessageHeaders) (n v n2 : CStr)
    (hne : header_name_eq n n2 = false) :
    soup_message_headers_get_one (soup_message_headers_replace hdrs n v) n2 =
      soup_message_headers_get_one hdrs n2 := by
  rw [← get_one_remove_other hdrs n n2 hne]
  unfold soup_message_headers_replace soup_message_headers_get_one
  simp [List.find?_cons, hne]

theorem get_one_replace_same (hdrs : SoupMessageHeaders) (n v : CStr) :
    soup_message_headers_get_one (soup_message_headers_replace hdrs n v) n = some v := by
  unfold soup_message_headers_replace soup_message_headers_get_one
  simp [List.find?_cons, header_name_eq]

theorem set_Allow_Origin_get_one (msg : SoupMessage) (a : Bool) (n2 : CStr)
    (hne : header_name_eq "Access-Control-Allow-Origin".toList n2 = false) :
    soup_message_headers_get_one
        (gdial_soup_message_headers_set_Allow_Origin msg a).response_headers n2 =
      soup_message_headers_get_one msg.response_headers n2 := by
  unfold gdial_soup_message_headers_set_Allow_Origin
  split
  · split
    · exact get_one_replace_other _ _ _ _ hne
    · exact get_one_remove_other _ _ _ hne
  · exact get_one_remove_other _ _ _ hne

theorem set_Allow_Origin_fields (msg : SoupMessage) (a : Bool) :
    (gdial_soup_message_headers_set_Allow_Origin msg a).request_body = msg.request_body ∧
    (gdial_soup_message_headers_set_Allow_Origin msg a).status_code = msg.status_code ∧
    (gdial_soup_message_headers_set_Allow_Origin msg a).uri = msg.uri := by
  unfold gdial_soup_message_headers_set_Allow_Origin
  split
  · split <;> exact ⟨rfl, rfl, rfl⟩
  · exact ⟨rfl, rfl, rfl⟩


/-! ## LAUNCH -/

theorem find_instance_name (w : World) (n : CStr) (app : GDialApp)
    (h : gdial_app_find_instance_by_name w n = some app) : app.name = n := by
  have := List.find?_some h
  simpa using this

theorem find_put_first (l : List GDialApp) (n : CStr) (app app1 : GDialApp)
    (h : l.find? (fun a => a.name == n) = some app) (hn : app1.name = n) :
    (put_first app1 l).find? (fun a => a.name == n) = some app1 := by
  induction l with
  | nil => simp at h
  | cons a l ih =>
    by_cases ha : a.name = n
    · simp [put_first, ha, hn, List.find?_cons]
    · have ha2 : (a.name == n) = false := by simpa using ha
      have ha3 : (a.name == app1.name) = false := by rw [hn]; exact ha2
      rw [List.find?_cons, ha2] at h
      simp only [put_first, ha3, Bool.false_eq_true, if_false, List.find?_cons, ha2]
      exact ih h

theorem handle_POST_start_instances (lib : Lib) (plat : LaunchPlat) (w : World)
    (msg : SoupMessage) (reg : GDialAppRegistry) (port : Nat) (app : GDialApp) (new : Bool)
    (t : Nat) :
    (handle_POST_start lib plat w msg reg port app new t).1.application_instances =
      w.application_instances := by
  unfold handle_POST_start gdial_rest_server_wait_for_app_state World.call
  cases new <;> simp only [Bool.false_eq_true, if_false, if_true] <;>
    split_ifs <;> rfl

theorem handle_POST_start_ok (lib : Lib) (plat : LaunchPlat) (w : World)
    (msg : SoupMessage) (reg : GDialAppRegistry) (port : Nat) (app : GDialApp) (new : Bool)
    (t : Nat) (hstart : plat.app_start = GDIAL_APP_ERROR_NONE)
    (hwait : plat.state_wait = GDIAL_APP_ERROR_NONE) :
    (handle_POST_start lib plat w msg reg port app new t).2 = GDIAL_APP_ERROR_NONE := by
  unfold handle_POST_start gdial_rest_server_wait_for_app_state
  cases new <;> simp [hstart, hwait]

/-- What `handle_POST_instance` returns: the chosen instance carries the registered name,
is the instance found under that name afterwards, has no cached payload when it is new
and the request payload as cached payload when it is reused. -/
theorem handle_POST_instance_spec (plat : LaunchPlat) (w : World) (reg : GDialAppRegistry)
    (payload : Option CStr) :
    (handle_POST_instance plat w reg payload).2.1.name = reg.name ∧
    gdial_app_find_instance_by_name (handle_POST_instance plat w reg payload).1 reg.name =
      some (handle_POST_instance plat w reg payload).2.1 ∧
    ((handle_POST_instance plat w reg payload).2.2 = true →
      (handle_POST_instance plat w reg payload).2.1.payload = none) ∧
    ((handle_POST_instance plat w reg payload).2.2 = false →
      (handle_POST_instance plat w reg payload).2.1.payload = payload) := by
  have hnew : ∀ w0 : World,
      (gdial_app_new w0 reg.name).2.name = reg.name ∧
      gdial_app_find_instance_by_name (gdial_app_new w0 reg.name).1 reg.name =
        some (gdial_app_new w0 reg.name).2 ∧
      (gdial_app_new w0 reg.name).2.payload = none := by
    intro w0
    simp [gdial_app_new, gdial_app_find_instance_by_name, List.find?_cons]
  unfold handle_POST_instance
  cases hf : gdial_app_find_instance_by_name w reg.name with
  | none =>
    obtain ⟨h1, h2, h3⟩ := hnew w
    exact ⟨h1, h2, fun _ => h3, fun h => by simp at h⟩
  | some app =>
    have hname := find_instance_name w reg.name app hf
    by_cases hs : reg.is_singleton = true
    · simp only [hs, if_true]
      split_ifs with hr
      · obtain ⟨h1, h2, h3⟩ := hnew (gdial_app_unref
          ((w.call (PlatCall.app_state app.name)).put_app
            ((gdial_rest_server_should_relaunch_app plat.app_state (some app) payload).2.getD app))
          ((gdial_rest_server_should_relaunch_app plat.app_state (some app) payload).2.getD app))
        exact ⟨h1, h2, fun _ => h3, fun h => by simp at h⟩
      · have hr0 : (gdial_rest_server_should_relaunch_app plat.app_state (some app) payload).1 = 0 :=
          not_not.mp hr
        have key : ((gdial_rest_server_should_relaunch_app plat.app_state (some app)
              payload).2.getD app).name = app.name ∧
            ((gdial_rest_server_should_relaunch_app plat.app_state (some app)
              payload).2.getD app).payload = payload := by
          revert hr0
          simp only [gdial_rest_server_should_relaunch_app, gdial_app_state,
            gdial_app_get_launch_payload]
          split_ifs <;> simp_all [g_strcmp0_some_eq_zero_iff]
          rename_i hboth
          cases hp : app.payload with
          | none => exact absurd hp hboth.1
          | some c =>
            cases payload with
            | none => exact absurd rfl hboth.2
            | some q =>
              intro h0
              rw [(g_strcmp0_some_eq_zero_iff c q).mp h0]
        refine ⟨key.1.trans hname, ?_, fun h => by simp at h, fun _ => key.2⟩
        simp only [gdial_app_find_instance_by_name, World.put_app, World.call]
        exact find_put_first _ _ app _ hf (key.1.trans hname)
    · simp only [hs, if_false]
      obtain ⟨h1, h2, h3⟩ := hnew w
      exact ⟨h1, h2, fun _ => h3, fun h => by simp at h⟩


theorem c_str_of_printable (data : CStr) (h : data.all g_ascii_isprint = true) :
    c_str data = data := by
  unfold c_str
  rw [List.takeWhile_eq_self_iff]
  intro c hc
  have hp := List.all_eq_true.mp h c hc
  simp only [g_ascii_isprint, Bool.and_eq_true, decide_eq_true_eq] at hp
  simp only [ne_eq, decide_eq_true_eq]
  omega

/-- The guards of `gdial_rest_server_handle_POST` passed: the function is its three
stages. -/
theorem handle_POST_reaches_start (lim : Limits) (lib : Lib) (plat : LaunchPlat) (w : World)
    (msg : SoupMessage) (app_name : CStr) (t : Nat) (reg : GDialAppRegistry)
    (hreg : gdial_rest_server_find_app_registry w.registered_apps app_name = some reg)
    (hsize : msg.request_body.data.isSome = true → msg.request_body.length ≠ 0 →
      msg.request_body.length ≤ lim.GDIAL_REST_HTTP_MAX_PAYLOAD)
    (hprint : msg.request_body.data.isSome = true → msg.request_body.length ≠ 0 →
      gdial_util_is_ascii_printable (msg.request_body.data.getD []) msg.request_body.length = true)
    (hport : msg.address_port ≠ 0) :
    gdial_rest_server_handle_POST lim lib plat w msg app_name t =
      handle_POST_respond
        (handle_POST_start lib plat
          (handle_POST_instance plat w reg (msg.request_body.data.map c_str)).1 msg reg
          msg.address_port
          (handle_POST_instance plat w reg (msg.request_body.data.map c_str)).2.1
          (handle_POST_instance plat w reg (msg.request_body.data.map c_str)).2.2 t).1
        msg msg.address_port
        (handle_POST_instance plat w reg (msg.request_body.data.map c_str)).2.1
        (handle_POST_instance plat w reg (msg.request_body.data.map c_str)).2.2
        (handle_POST_start lib plat
          (handle_POST_instance plat w reg (msg.request_body.data.map c_str)).1 msg reg
          msg.address_port
          (handle_POST_instance plat w reg (msg.request_body.data.map c_str)).2.1
          (handle_POST_instance plat w reg (msg.request_body.data.map c_str)).2.2 t).2 := by
  have g1 : ((msg.request_body.data.isSome && msg.request_body.length != 0) &&
      !decide (msg.request_body.length ≤ lim.GDIAL_REST_HTTP_MAX_PAYLOAD)) = false := by
    by_cases h1 : msg.request_body.data.isSome = true
    · by_cases h2 : msg.request_body.length = 0
      · simp [h2]
      · simp [hsize h1 h2]
    · simp [h1]
  have g2 : ((msg.request_body.data.isSome && msg.request_body.length != 0) &&
      gdial_rest_server_is_bad_payload (msg.request_body.data.getD [])
        msg.request_body.length) = false := by
    by_cases h1 : msg.request_body.data.isSome = true
    · by_cases h2 : msg.request_body.length = 0
      · simp [h2]
      · simp [gdial_rest_server_is_bad_payload, hprint h1 h2]
    · simp [h1]
  unfold gdial_rest_server_handle_POST
  simp only [hreg, g1, g2, Bool.false_eq_true, if_false, hport]

/-- The success branch of `handle_POST_respond`. -/
theorem handle_POST_respond_ok (w : World) (msg : SoupMessage) (port : Nat) (app : GDialApp)
    (new : Bool) :
    (handle_POST_respond w msg port app new GDIAL_APP_ERROR_NONE).2.status_code = 201 ∧
    soup_message_headers_get_one
        (handle_POST_respond w msg port app new GDIAL_APP_ERROR_NONE).2.response_headers
        "Content-Type".toList = some "text/plain; charset=utf-8".toList ∧
    soup_message_headers_get_one
        (handle_POST_respond w msg port app new GDIAL_APP_ERROR_NONE).2.response_headers
        "Location".toList =
      some ("http://".toList ++ fmt_s msg.uri.host ++ ":".toList ++ fmt_d port ++
        "/apps/".toList ++ app.name ++ "/run".toList) ∧
    (handle_POST_respond w msg port app new GDIAL_APP_ERROR_NONE).1 =
      (if new = true then
        match msg.request_body.data with
        | some data => w.put_app (gdial_app_set_launch_payload app (c_str data))
        | none => w
      else w) := by
  have hct : ∀ m : SoupMessage,
      m.response_headers = soup_message_headers_replace
        (soup_message_headers_replace msg.response_headers "Content-Type".toList
          "text/plain; charset=utf-8".toList) "Location".toList
        ("http://".toList ++ fmt_s msg.uri.host ++ ":".toList ++ fmt_d port ++
          GDIAL_REST_HTTP_APPS_URI ++ "/".toList ++ app.name ++ "/run".toList) →
      soup_message_headers_get_one
        (gdial_soup_message_headers_set_Allow_Origin m true).response_headers
        "Content-Type".toList = some "text/plain; charset=utf-8".toList := by
    intro m hm
    rw [set_Allow_Origin_get_one _ _ _ (by decide), hm,
      get_one_replace_other _ _ _ _ (by decide), get_one_replace_same]
  have hloc : ∀ m : SoupMessage,
      m.response_headers = soup_message_headers_replace
        (soup_message_headers_replace msg.response_headers "Content-Type".toList
          "text/plain; charset=utf-8".toList) "Location".toList
        ("http://".toList ++ fmt_s msg.uri.host ++ ":".toList ++ fmt_d port ++
          GDIAL_REST_HTTP_APPS_URI ++ "/".toList ++ app.name ++ "/run".toList) →
      soup_message_headers_get_one
        (gdial_soup_message_headers_set_Allow_Origin m true).response_headers
        "Location".toList =
        some ("http://".toList ++ fmt_s msg.uri.host ++ ":".toList ++ fmt_d port ++
          "/apps/".toList ++ app.name ++ "/run".toList) := by
    intro m hm
    rw [set_Allow_Origin_get_one _ _ _ (by decide), hm, get_one_replace_same]
    simp [GDIAL_REST_HTTP_APPS_URI]
  unfold handle_POST_respond
  simp only [if_true, soup_message_set_status]
  cases new with
  | false =>
    simp only [Bool.false_eq_true, if_false]
    exact ⟨rfl, hct _ rfl, hloc _ rfl, trivial⟩
  | true =>
    simp only [if_true, (set_Allow_Origin_fields _ true).1]
    cases msg.request_body.data with
    | none => exact ⟨rfl, hct _ rfl, hloc _ rfl, rfl⟩
    | some data => exact ⟨rfl, hct _ rfl, hloc _ rfl, rfl⟩

/-- C9: a LAUNCH on a registered app that reaches the platform start (body within the
size limit and printable, listening port known), with start returning OK and the wait
for RUNNING succeeding, is answered 201 with Content-Type `text/plain; charset=utf-8`
and Location `http://<host>:<port>/apps/<registered name>/run`; afterwards the instance
of that name has the request body as cached payload (absent when the body is absent),
whether the instance is new or reused. -/
theorem C9_launch_success (lim : Limits) (lib : Lib) (plat : LaunchPlat) (w : World)
    (msg : SoupMessage) (app_name : CStr) (t : Nat) (reg : GDialAppRegistry)
    (hreg : gdial_rest_server_find_app_registry w.registered_apps app_name = some reg)
    (hsize : msg.request_body.data.isSome = true → msg.request_body.length ≠ 0 →
      msg.request_body.length ≤ lim.GDIAL_REST_HTTP_MAX_PAYLOAD)
    (hprint : msg.request_body.data.isSome = true → msg.request_body.length ≠ 0 →
      gdial_util_is_ascii_printable (msg.request_body.data.getD []) msg.request_body.length = true)
    (hport : msg.address_port ≠ 0)
    (hstart : plat.app_start = GDIAL_APP_ERROR_NONE)
    (hwait : plat.state_wait = GDIAL_APP_ERROR_NONE) :
    (gdial_rest_server_handle_POST lim lib plat w msg app_name t).2.status_code = 201 ∧
    soup_message_headers_get_one
        (gdial_rest_server_handle_POST lim lib plat w msg app_name t).2.response_headers
        "Content-Type".toList = some "text/plain; charset=utf-8".toList ∧
    soup_message_headers_get_one
        (gdial_rest_server_handle_POST lim lib plat w msg app_name t).2.response_headers
        "Location".toList =
      some ("http://".toList ++ fmt_s msg.uri.host ++ ":".toList ++ fmt_d msg.address_port ++
        "/apps/".toList ++ reg.name ++ "/run".toList) ∧
    ∃ app : GDialApp,
      gdial_app_find_instance_by_name
        (gdial_rest_server_handle_POST lim lib plat w msg app_name t).1 reg.name = some app ∧
      app.payload = msg.request_body.data.map c_str ∧
      (∀ data, msg.request_body.data = some data → msg.request_body.length = data.length →
        app.payload = some data) := by
  rw [handle_POST_reaches_start lim lib plat w msg app_name t reg hreg hsize hprint hport]
  obtain ⟨hname, hfind, hnewp, holdp⟩ :=
    handle_POST_instance_spec plat w reg (msg.request_body.data.map c_str)
  have hinst := handle_POST_start_instances lib plat
    (handle_POST_instance plat w reg (msg.request_body.data.map c_str)).1 msg reg
    msg.address_port (handle_POST_instance plat w reg (msg.request_body.data.map c_str)).2.1
    (handle_POST_instance plat w reg (msg.request_body.data.map c_str)).2.2 t
  have hok := handle_POST_start_ok lib plat
    (handle_POST_instance plat w reg (msg.request_body.data.map c_str)).1 msg reg
    msg.address_port (handle_POST_instance plat w reg (msg.request_body.data.map c_str)).2.1
    (handle_POST_instance plat w reg (msg.request_body.data.map c_str)).2.2 t hstart hwait
  have hraw : ∀ data, msg.request_body.data = some data →
      msg.request_body.length = data.length → c_str data = data := by
    intro data hd hl
    by_cases h0 : msg.request_body.length = 0
    · have : data = [] := List.length_eq_zero.mp (hl ▸ h0)
      rw [this]; rfl
    · have hp := hprint (by simp [hd]) h0
      simp only [gdial_util_is_ascii_printable, hd, Option.getD_some, hl, List.take_length] at hp
      exact c_str_of_printable data hp
  generalize handle_POST_start lib plat
    (handle_POST_instance plat w reg (msg.request_body.data.map c_str)).1 msg reg
    msg.address_port (handle_POST_instance plat w reg (msg.request_body.data.map c_str)).2.1
    (handle_POST_instance plat w reg (msg.request_body.data.map c_str)).2.2 t = st at hinst hok
  generalize handle_POST_instance plat w reg (msg.request_body.data.map c_str) = sel
    at hname hfind hnewp holdp hinst
  obtain ⟨w1, app, new⟩ := sel
  obtain ⟨w2, err⟩ := st
  simp only at hname hfind hnewp holdp hinst hok
  subst hok
  obtain ⟨h1, h2, h3, h4⟩ := handle_POST_respond_ok w2 msg msg.address_port app new
  refine ⟨h1, h2, by rw [h3, hname], ?_⟩
  rw [h4]
  have hfind2 : gdial_app_find_instance_by_name w2 reg.name = some app := by
    simp only [gdial_app_find_instance_by_name, hinst]
    exact hfind
  cases new with
  | false =>
    simp only [Bool.false_eq_true, if_false]
    refine ⟨app, hfind2, holdp rfl, ?_⟩
    intro data hd hl
    rw [holdp rfl, hd, Option.map_some', hraw data hd hl]
  | true =>
    simp only [if_true]
    cases hd : msg.request_body.data with
    | none =>
      refine ⟨app, hfind2, ?_, ?_⟩
      · rw [hnewp rfl]; rfl
      · intro data hd2; exact absurd hd2 (by simp)
    | some data =>
      refine ⟨gdial_app_set_launch_payload app (c_str data), ?_, rfl, ?_⟩
      · simp only [gdial_app_find_instance_by_name, World.put_app]
        exact find_put_first _ _ app _ hfind2 hname
      · intro d2 hd2 hl
        cases hd2
        simp only [gdial_app_set_launch_payload]
        rw [hraw data hd hl]


/-- C9 (witness): first launch of Netflix with body `v=abc`. -/
theorem C9_launch_success_witness :
    gdial_rest_server_find_app_registry
        (world_example registry_netflix [] launch_request 0).registered_apps "Netflix".toList =
      some (new_app_registry "Netflix".toList [] true false ["netflix.com".toList]) ∧
    (gdial_rest_server_handle_POST limits_example lib_example launch_plat_ok
        (world_example registry_netflix [] launch_request 0) launch_request "Netflix".toList
        35000).2.status_code = 201 ∧
    soup_message_headers_get_one
        (gdial_rest_server_handle_POST limits_example lib_example launch_plat_ok
          (world_example registry_netflix [] launch_request 0) launch_request "Netflix".toList
          35000).2.response_headers "Location".toList =
      some "http://192.168.1.10:56889/apps/Netflix/run".toList :=
  ⟨by decide,
    (C9_launch_success limits_example lib_example launch_plat_ok
      (world_example registry_netflix [] launch_request 0) launch_request "Netflix".toList 35000
      (new_app_registry "Netflix".toList [] true false ["netflix.com".toList]) (by decide)
      (fun _ _ => by decide) (fun _ _ => by decide) (by decide) rfl rfl).1,
    by decide⟩

theorem handle_POST_instance_reuse (plat : LaunchPlat) (w : World) (reg : GDialAppRegistry)
    (payload : Option CStr) (app : GDialApp) (st : GDialAppState)
    (hsingle : reg.is_singleton = true)
    (hfind : gdial_app_find_instance_by_name w reg.name = some app)
    (hstate : plat.app_state = (GDIAL_APP_ERROR_NONE, st))
    (hst : st ≠ GDIAL_APP_STATE_STOPPED)
    (hpay : app.payload = payload) :
    handle_POST_instance plat w reg payload =
      ((w.call (PlatCall.app_state app.name)).put_app { app with state := st },
        { app with state := st }, false) := by
  have hrel : gdial_rest_server_should_relaunch_app plat.app_state (some app) payload =
      (0, some { app with state := st }) := by
    rw [hstate]
    simp only [gdial_rest_server_should_relaunch_app, gdial_app_state, if_true, ne_eq,
      not_true_eq_false, false_or, hst, if_false, gdial_app_get_launch_payload, hpay]
    cases payload with
    | none => simp
    | some q => simp [g_strcmp0_some_eq_zero_iff]
  unfold handle_POST_instance
  simp only [hfind, hsingle, if_true, hrel, Option.getD_some, ne_eq, not_true_eq_false, if_false]


/-- C10 (counterexample): POST /apps/Netflix with body `v=abc` while Netflix is RUNNING
with cached payload `v=abc`.  The instance is reused, yet the platform start is invoked
(with NULL arguments); and when that start answers FORBIDDEN the response is 403, not
201. -/
theorem C10_reuse_invokes_platform_start :
    (gdial_rest_server_handle_POST limits_example lib_example launch_plat_ok
        (world_example registry_netflix [netflix_running] launch_request 0) launch_request
        "Netflix".toList 35000).1.plat_calls =
      [PlatCall.app_state "Netflix".toList,
       PlatCall.app_start "Netflix".toList none none none,
       PlatCall.state_wait "Netflix".toList GDIAL_APP_STATE_RUNNING 35000] ∧
    (gdial_rest_server_handle_POST limits_example lib_example launch_plat_ok
        (world_example registry_netflix [netflix_running] launch_request 0) launch_request
        "Netflix".toList 35000).1.application_instances = [netflix_running] ∧
    (gdial_rest_server_handle_POST limits_example lib_example launch_plat_forbidden
        (world_example registry_netflix [netflix_running] launch_request 0) launch_request
        "Netflix".toList 35000).2.status_code = 403 := by
  decide

/-- C10 (amended): a LAUNCH (body within the payload limit and printable, listening port
known) on a singleton app that already has an instance whose state the platform reports
as not STOPPED and whose cached payload equals the request body reuses that instance and
creates none: the platform start is invoked once, with NULL payload, query and
additionalDataUrl, followed by the wait for RUNNING when it answers OK.  When start
answers OK and the wait succeeds, the response is 201 and the instance stays, its cached
payload unchanged (only the queried state is written to it).  When start fails or the
wait times out, the response is 403 (FORBIDDEN), 401 (UNAUTH) or else 503, and the
reused instance is released; no other instance is touched. -/
theorem C10_reuse_existing_instance (lim : Limits) (lib : Lib) (plat : LaunchPlat) (w : World)
    (msg : SoupMessage) (app_name : CStr) (t : Nat) (reg : GDialAppRegistry) (app : GDialApp)
    (st : GDialAppState)
    (hreg : gdial_rest_server_find_app_registry w.registered_apps app_name = some reg)
    (hsingle : reg.is_singleton = true)
    (hfind : gdial_app_find_instance_by_name w reg.name = some app)
    (hstate : plat.app_state = (GDIAL_APP_ERROR_NONE, st))
    (hst : st ≠ GDIAL_APP_STATE_STOPPED)
    (hpay : app.payload = msg.request_body.data.map c_str)
    (hsize : msg.request_body.data.isSome = true → msg.request_body.length ≠ 0 →
      msg.request_body.length ≤ lim.GDIAL_REST_HTTP_MAX_PAYLOAD)
    (hprint : msg.request_body.data.isSome = true → msg.request_body.length ≠ 0 →
      gdial_util_is_ascii_printable (msg.request_body.data.getD []) msg.request_body.length = true)
    (hport : msg.address_port ≠ 0) :
    (gdial_rest_server_handle_POST lim lib plat w msg app_name t).1.plat_calls =
      w.plat_calls ++
        [PlatCall.app_state reg.name, PlatCall.app_start reg.name none none none] ++
        (if plat.app_start = GDIAL_APP_ERROR_NONE then
          [PlatCall.state_wait reg.name GDIAL_APP_STATE_RUNNING t] else []) ∧
    (plat.app_start = GDIAL_APP_ERROR_NONE → plat.state_wait = GDIAL_APP_ERROR_NONE →
      (gdial_rest_server_handle_POST lim lib plat w msg app_name t).2.status_code = 201 ∧
      (gdial_rest_server_handle_POST lim lib plat w msg app_name t).1.application_instances =
        put_first { app with state := st } w.application_instances ∧
      gdial_app_find_instance_by_name
        (gdial_rest_server_handle_POST lim lib plat w msg app_name t).1 reg.name =
          some { app with state := st }) ∧
    (¬ (plat.app_start = GDIAL_APP_ERROR_NONE ∧ plat.state_wait = GDIAL_APP_ERROR_NONE) →
      (gdial_rest_server_handle_POST lim lib plat w msg app_name t).2.status_code =
        (if plat.app_start = GDIAL_APP_ERROR_FORBIDDEN then 403
          else if plat.app_start = GDIAL_APP_ERROR_UNAUTH then 401 else 503) ∧
      (gdial_rest_server_handle_POST lim lib plat w msg app_name t).1.application_instances =
        (put_first { app with state := st } w.application_instances).eraseP
          (fun a => a.name == reg.name)) := by
  have hname := find_instance_name w reg.name app hfind
  rw [handle_POST_reaches_start lim lib plat w msg app_name t reg hreg hsize hprint hport,
    handle_POST_instance_reuse plat w reg _ app st hsingle hfind hstate hst hpay]
  simp only [hname]
  by_cases hs : plat.app_start = GDIAL_APP_ERROR_NONE
  · by_cases hw : plat.state_wait = GDIAL_APP_ERROR_NONE
    · refine ⟨?_, fun _ _ => ⟨?_, ?_, ?_⟩, fun h => absurd ⟨hs, hw⟩ h⟩
      · simp [handle_POST_start, handle_POST_respond, gdial_rest_server_wait_for_app_state,
          World.call, World.put_app, hs, hw, hname]
      · simp [handle_POST_start, handle_POST_respond, gdial_rest_server_wait_for_app_state,
          hs, hw, soup_message_set_status, SOUP_STATUS_CREATED]
      · simp [handle_POST_start, handle_POST_respond, gdial_rest_server_wait_for_app_state,
          World.call, World.put_app, hs, hw]
      · simp only [handle_POST_start, handle_POST_respond, gdial_rest_server_wait_for_app_state,
          World.call, World.put_app, hs, hw, gdial_app_find_instance_by_name, beq_self_eq_true,
          if_true, Bool.false_eq_true, if_false]
        exact find_put_first _ _ app _ hfind rfl
    · have hw2 : (plat.state_wait == GDIAL_APP_ERROR_NONE) = false := by simpa using hw
      refine ⟨?_, fun _ h => absurd h hw, fun _ => ⟨?_, ?_⟩⟩
      · simp [handle_POST_start, handle_POST_respond, gdial_rest_server_wait_for_app_state,
          World.call, World.put_app, gdial_app_unref, hs, hw2, hname]
      · simp [handle_POST_start, handle_POST_respond, gdial_rest_server_wait_for_app_state,
          hs, hw2, gdial_soup_message_set_http_error, soup_message_set_status,
          SOUP_STATUS_SERVICE_UNAVAILABLE]
      · simp [handle_POST_start, handle_POST_respond, gdial_rest_server_wait_for_app_state,
          World.call, World.put_app, gdial_app_unref, hs, hw2, hname]
  · refine ⟨?_, fun h => absurd h hs, fun _ => ⟨?_, ?_⟩⟩
    · simp only [handle_POST_start, handle_POST_respond, gdial_rest_server_wait_for_app_state,
        World.call, World.put_app, gdial_app_unref, hs, hname, Bool.false_eq_true, if_false]
      split_ifs <;> simp
    · simp only [handle_POST_start, handle_POST_respond, hs, Bool.false_eq_true, if_false]
      split_ifs <;> rfl
    · simp only [handle_POST_start, handle_POST_respond, gdial_rest_server_wait_for_app_state,
        World.call, World.put_app, gdial_app_unref, hs, hname, Bool.false_eq_true, if_false]
      split_ifs <;> simp [hname]

/-- C10 (witness): the amended statement for Netflix RUNNING with cached payload `v=abc`
and a request with the same body: with a platform that starts and confirms RUNNING the
calls are state query, start with NULL arguments and wait; with a platform that refuses
the start with FORBIDDEN the response is 403 and the instance is released. -/
theorem C10_reuse_existing_instance_witness :
    gdial_app_find_instance_by_name
        (world_example registry_netflix [netflix_running] launch_request 0) "Netflix".toList =
      some netflix_running ∧
    netflix_running.payload = launch_request.request_body.data.map c_str ∧
    (gdial_rest_server_handle_POST limits_example lib_example launch_plat_ok
        (world_example registry_netflix [netflix_running] launch_request 0) launch_request
        "Netflix".toList 35000).1.plat_calls =
      (world_example registry_netflix [netflix_running] launch_request 0).plat_calls ++
        [PlatCall.app_state "Netflix".toList,
         PlatCall.app_start "Netflix".toList none none none] ++
        (if launch_plat_ok.app_start = GDIAL_APP_ERROR_NONE then
          [PlatCall.state_wait "Netflix".toList GDIAL_APP_STATE_RUNNING 35000] else []) ∧
    (gdial_rest_server_handle_POST limits_example lib_example launch_plat_forbidden
        (world_example registry_netflix [netflix_running] launch_request 0) launch_request
        "Netflix".toList 35000).2.status_code = 403 ∧
    (gdial_rest_server_handle_POST limits_example lib_example launch_plat_forbidden
        (world_example registry_netflix [netflix_running] launch_request 0) launch_request
        "Netflix".toList 35000).1.application_instances = [] :=
  ⟨by decide, by decide,
    (C10_reuse_existing_instance limits_example lib_example launch_plat_ok
      (world_example registry_netflix [netflix_running] launch_request 0) launch_request
      "Netflix".toList 35000
      (new_app_registry "Netflix".toList [] true false ["netflix.com".toList]) netflix_running
      GDIAL_APP_STATE_RUNNING (by decide) rfl (by decide) rfl (by decide) (by decide)
      (fun _ _ => by decide) (fun _ _ => by decide) (by decide)).1,
    ((C10_reuse_existing_instance limits_example lib_example launch_plat_forbidden
      (world_example registry_netflix [netflix_running] launch_request 0) launch_request
      "Netflix".toList 35000
      (new_app_registry "Netflix".toList [] true false ["netflix.com".toList]) netflix_running
      GDIAL_APP_STATE_RUNNING (by decide) rfl (by decide) rfl (by decide) (by decide)
      (fun _ _ => by decide) (fun _ _ => by decide) (by decide)).2.2 (by decide)).1.trans
      (by decide),
    ((C10_reuse_existing_instance limits_example lib_example launch_plat_forbidden
      (world_example registry_netflix [netflix_running] launch_request 0) launch_request
      "Netflix".toList 35000
      (new_app_registry "Netflix".toList [] true false ["netflix.com".toList]) netflix_running
      GDIAL_APP_STATE_RUNNING (by decide) rfl (by decide) rfl (by decide) (by decide)
      (fun _ _ => by decide) (fun _ _ => by decide) (by decide)).2.2 (by decide)).2.trans
      (by decide)⟩

/-! ## LAUNCH: error paths -/

theorem handle_POST_start_error (lib : Lib) (plat : LaunchPlat) (w : World)
    (msg : SoupMessage) (reg : GDialAppRegistry) (port : Nat) (app : GDialApp) (new : Bool)
    (t : Nat) :
    (handle_POST_start lib plat w msg reg port app new t).2 =
      if plat.app_start = GDIAL_APP_ERROR_NONE then
        (if plat.state_wait = GDIAL_APP_ERROR_NONE then GDIAL_APP_ERROR_NONE
          else GDIAL_APP_ERROR_INTERNAL)
      else plat.app_start := by
  unfold handle_POST_start gdial_rest_server_wait_for_app_state
  cases new <;> by_cases hs : plat.app_start = GDIAL_APP_ERROR_NONE <;>
    by_cases hw : plat.state_wait = GDIAL_APP_ERROR_NONE <;> simp [hs, hw]

theorem handle_POST_respond_error (w : World) (msg : SoupMessage) (port : Nat) (app : GDialApp)
    (new : Bool) (err : GDialAppError) (h : err ≠ GDIAL_APP_ERROR_NONE) :
    (handle_POST_respond w msg port app new err).2.status_code =
      (if err = GDIAL_APP_ERROR_FORBIDDEN then 403
        else if err = GDIAL_APP_ERROR_UNAUTH then 401 else 503) ∧
    (handle_POST_respond w msg port app new err).1 = gdial_app_unref w app := by
  unfold handle_POST_respond
  rw [if_neg h]
  by_cases h1 : err = GDIAL_APP_ERROR_FORBIDDEN
  · rw [if_pos h1, if_pos h1]
    exact ⟨rfl, rfl⟩
  · rw [if_neg h1, if_neg h1]
    by_cases h2 : err = GDIAL_APP_ERROR_UNAUTH
    · rw [if_pos h2, if_pos h2]
      exact ⟨rfl, rfl⟩
    · rw [if_neg h2, if_neg h2]
      exact ⟨rfl, rfl⟩

theorem put_first_mem (app1 : GDialApp) (l : List GDialApp) (a : GDialApp)
    (h : a ∈ put_first app1 l) : a = app1 ∨ a ∈ l := by
  induction l with
  | nil => simp [put_first] at h
  | cons b l ih =>
    simp only [put_first] at h
    split_ifs at h
    · rcases List.mem_cons.mp h with h | h
      · exact Or.inl h
      · exact Or.inr (List.mem_cons_of_mem _ h)
    · rcases List.mem_cons.mp h with h | h
      · exact Or.inr (h ▸ List.mem_cons_self _ _)
      · rcases ih h with h | h
        · exact Or.inl h
        · exact Or.inr (List.mem_cons_of_mem _ h)

theorem should_relaunch_instance (res : GDialAppError × GDialAppState) (app : GDialApp)
    (payload : Option CStr) :
    (gdial_rest_server_should_relaunch_app res (some app) payload).2 =
      some (gdial_app_state res app).2 := by
  simp only [gdial_rest_server_should_relaunch_app]
  split_ifs <;> rfl

theorem gdial_app_state_fields (res : GDialAppError × GDialAppState) (app : GDialApp) :
    (gdial_app_state res app).2.name = app.name ∧
    (gdial_app_state res app).2.payload = app.payload ∧
    (gdial_app_state res app).2.dial_data = app.dial_data := by
  unfold gdial_app_state
  split_ifs <;> exact ⟨rfl, rfl, rfl⟩

/-- After `handle_POST_instance` and the release of the chosen instance, every instance
left was there before with the same cached payload and auxiliary data. -/
theorem handle_POST_instance_unref_frame (plat : LaunchPlat) (w : World)
    (reg : GDialAppRegistry) (payload : Option CStr) (a : GDialApp)
    (h : a ∈ (handle_POST_instance plat w reg payload).1.application_instances.eraseP
      (fun x => x.name == (handle_POST_instance plat w reg payload).2.1.name)) :
    ∃ a0 ∈ w.application_instances,
      a0.name = a.name ∧ a0.payload = a.payload ∧ a0.dial_data = a.dial_data := by
  have hnew : ∀ w0 : World, ((gdial_app_new w0 reg.name).1.application_instances.eraseP
      (fun x => x.name == (gdial_app_new w0 reg.name).2.name)) = w0.application_instances := by
    intro w0
    simp [gdial_app_new, List.eraseP_cons]
  have hput : ∀ (app : GDialApp) (b : GDialApp), app ∈ w.application_instances →
      b ∈ put_first (gdial_app_state plat.app_state app).2 w.application_instances →
      ∃ a0 ∈ w.application_instances,
        a0.name = b.name ∧ a0.payload = b.payload ∧ a0.dial_data = b.dial_data := by
    intro app b happ hb
    rcases put_first_mem _ _ _ hb with hb | hb
    · obtain ⟨h1, h2, h3⟩ := gdial_app_state_fields plat.app_state app
      exact ⟨app, happ, by rw [hb, h1], by rw [hb, h2], by rw [hb, h3]⟩
    · exact ⟨b, hb, rfl, rfl, rfl⟩
  unfold handle_POST_instance at h
  cases hf : gdial_app_find_instance_by_name w reg.name with
  | none =>
    rw [hf] at h
    simp only at h
    rw [hnew w] at h
    exact ⟨a, h, rfl, rfl, rfl⟩
  | some app =>
    have happ : app ∈ w.application_instances := List.mem_of_find?_eq_some hf
    rw [hf] at h
    simp only [should_relaunch_instance, Option.getD_some] at h
    split_ifs at h with hs hr
    · simp only at h
      rw [hnew] at h
      simp only [gdial_app_unref, World.put_app, World.call] at h
      exact hput app a happ (List.mem_of_mem_eraseP h)
    · simp only [World.put_app, World.call] at h
      exact hput app a happ (List.mem_of_mem_eraseP h)
    · simp only at h
      rw [hnew w] at h
      exact ⟨a, h, rfl, rfl, rfl⟩

/-- C11: a LAUNCH that reaches the platform start (registered app, body within the size
limit and printable, listening port known) and whose start returns an error is answered
403 for FORBIDDEN, 401 for UNAUTH and 503 for every other error, never 201; the cached
payload of no instance is updated: every instance left afterwards was there before with
the same cached payload. -/
theorem C11_launch_start_error (lim : Limits) (lib : Lib) (plat : LaunchPlat) (w : World)
    (msg : SoupMessage) (app_name : CStr) (t : Nat) (reg : GDialAppRegistry)
    (hreg : gdial_rest_server_find_app_registry w.registered_apps app_name = some reg)
    (hsize : msg.request_body.data.isSome = true → msg.request_body.length ≠ 0 →
      msg.request_body.length ≤ lim.GDIAL_REST_HTTP_MAX_PAYLOAD)
    (hprint : msg.request_body.data.isSome = true → msg.request_body.length ≠ 0 →
      gdial_util_is_ascii_printable (msg.request_body.data.getD []) msg.request_body.length = true)
    (hport : msg.address_port ≠ 0)
    (hstart : plat.app_start ≠ GDIAL_APP_ERROR_NONE) :
    (gdial_rest_server_handle_POST lim lib plat w msg app_name t).2.status_code =
      (if plat.app_start = GDIAL_APP_ERROR_FORBIDDEN then 403
        else if plat.app_start = GDIAL_APP_ERROR_UNAUTH then 401 else 503) ∧
    (gdial_rest_server_handle_POST lim lib plat w msg app_name t).2.status_code ≠ 201 ∧
    ∀ a ∈ (gdial_rest_server_handle_POST lim lib plat w msg app_name t).1.application_instances,
      ∃ a0 ∈ w.application_instances, a0.name = a.name ∧ a0.payload = a.payload := by
  rw [handle_POST_reaches_start lim lib plat w msg app_name t reg hreg hsize hprint hport]
  have herr := handle_POST_start_error lib plat
    (handle_POST_instance plat w reg (msg.request_body.data.map c_str)).1 msg reg
    msg.address_port (handle_POST_instance plat w reg (msg.request_body.data.map c_str)).2.1
    (handle_POST_instance plat w reg (msg.request_body.data.map c_str)).2.2 t
  rw [if_neg hstart] at herr
  have hinst := handle_POST_start_instances lib plat
    (handle_POST_instance plat w reg (msg.request_body.data.map c_str)).1 msg reg
    msg.address_port (handle_POST_instance plat w reg (msg.request_body.data.map c_str)).2.1
    (handle_POST_instance plat w reg (msg.request_body.data.map c_str)).2.2 t
  rw [herr]
  obtain ⟨h1, h2⟩ := handle_POST_respond_error
    (handle_POST_start lib plat
      (handle_POST_instance plat w reg (msg.request_body.data.map c_str)).1 msg reg
      msg.address_port (handle_POST_instance plat w reg (msg.request_body.data.map c_str)).2.1
      (handle_POST_instance plat w reg (msg.request_body.data.map c_str)).2.2 t).1
    msg msg.address_port (handle_POST_instance plat w reg (msg.request_body.data.map c_str)).2.1
    (handle_POST_instance plat w reg (msg.request_body.data.map c_str)).2.2 plat.app_start hstart
  refine ⟨h1, ?_, ?_⟩
  · rw [h1]
    split_ifs <;> decide
  · intro a ha
    rw [h2] at ha
    simp only [gdial_app_unref, hinst] at ha
    obtain ⟨a0, h0, hn, hp, -⟩ := handle_POST_instance_unref_frame plat w reg _ a ha
    exact ⟨a0, h0, hn, hp⟩

/-- C11 (witness): Netflix RUNNING with the same payload, the platform start answers
FORBIDDEN: the response is 403. -/
theorem C11_launch_start_error_witness :
    gdial_rest_server_find_app_registry
        (world_example registry_netflix [netflix_running] launch_request 0).registered_apps
        "Netflix".toList =
      some (new_app_registry "Netflix".toList [] true false ["netflix.com".toList]) ∧
    launch_plat_forbidden.app_start ≠ GDIAL_APP_ERROR_NONE ∧
    (gdial_rest_server_handle_POST limits_example lib_example launch_plat_forbidden
        (world_example registry_netflix [netflix_running] launch_request 0) launch_request
        "Netflix".toList 35000).2.status_code = 403 :=
  ⟨by decide, by decide,
    (C11_launch_start_error limits_example lib_example launch_plat_forbidden
      (world_example registry_netflix [netflix_running] launch_request 0) launch_request
      "Netflix".toList 35000
      (new_app_registry "Netflix".toList [] true false ["netflix.com".toList]) (by decide)
      (fun _ _ => by decide) (fun _ _ => by decide) (by decide) (by decide)).1.trans
      (by decide)⟩

theorem handle_POST_respond_status (w : World) (msg : SoupMessage) (port : Nat) (app : GDialApp)
    (new : Bool) (err : GDialAppError) :
    (handle_POST_respond w msg port app new err).2.status_code ≠ 413 := by
  by_cases h : err = GDIAL_APP_ERROR_NONE
  · rw [h, (handle_POST_respond_ok w msg port app new).1]
    decide
  · rw [(handle_POST_respond_error w msg port app new err h).1]
    split_ifs <;> decide

/-- C13: a LAUNCH on a registered app with a non-empty body is answered 413 when the
body is longer than the payload limit and otherwise 400 when a byte of it is not
ASCII-printable; in both cases nothing but the response changes (no platform call, no
instance created, replaced or modified).  A body of exactly the limit is never answered
413. -/
theorem C13_launch_body_checks (lim : Limits) (lib : Lib) (plat : LaunchPlat) (w : World)
    (msg : SoupMessage) (app_name : CStr) (t : Nat) (reg : GDialAppRegistry) (data : CStr)
    (hreg : gdial_rest_server_find_app_registry w.registered_apps app_name = some reg)
    (hdata : msg.request_body.data = some data)
    (hlen : msg.request_body.length ≠ 0) :
    (lim.GDIAL_REST_HTTP_MAX_PAYLOAD < msg.request_body.length →
      (gdial_rest_server_handle_POST lim lib plat w msg app_name t).2.status_code = 413 ∧
      (gdial_rest_server_handle_POST lim lib plat w msg app_name t).1 = w) ∧
    (msg.request_body.length ≤ lim.GDIAL_REST_HTTP_MAX_PAYLOAD →
      gdial_util_is_ascii_printable data msg.request_body.length = false →
      (gdial_rest_server_handle_POST lim lib plat w msg app_name t).2.status_code = 400 ∧
      (gdial_rest_server_handle_POST lim lib plat w msg app_name t).1 = w) ∧
    (msg.request_body.length = lim.GDIAL_REST_HTTP_MAX_PAYLOAD →
      (gdial_rest_server_handle_POST lim lib plat w msg app_name t).2.status_code ≠ 413) := by
  have hb : (msg.request_body.data.isSome && msg.request_body.length != 0) = true := by
    simp [hdata, hlen]
  refine ⟨?_, ?_, ?_⟩
  · intro hgt
    have hd : decide (msg.request_body.length ≤ lim.GDIAL_REST_HTTP_MAX_PAYLOAD) = false := by
      simp only [decide_eq_false_iff_not, not_le]; exact hgt
    have h : gdial_rest_server_handle_POST lim lib plat w msg app_name t =
        (w, gdial_soup_message_set_http_error msg SOUP_STATUS_REQUEST_ENTITY_TOO_LARGE) := by
      unfold gdial_rest_server_handle_POST
      simp only [hreg, hb, hd, Bool.not_false, Bool.and_self, if_true]
    rw [h]
    exact ⟨rfl, rfl⟩
  · intro hle hbad
    have hd : decide (msg.request_body.length ≤ lim.GDIAL_REST_HTTP_MAX_PAYLOAD) = true := by
      simp only [decide_eq_true_eq]; exact hle
    have hbad2 : gdial_rest_server_is_bad_payload (msg.request_body.data.getD [])
        msg.request_body.length = true := by
      simp [gdial_rest_server_is_bad_payload, hdata, hbad]
    have h : gdial_rest_server_handle_POST lim lib plat w msg app_name t =
        (w, gdial_soup_message_set_http_error msg SOUP_STATUS_BAD_REQUEST) := by
      unfold gdial_rest_server_handle_POST
      simp only [hreg, hb, hd, hbad2, Bool.not_true, Bool.and_false, Bool.false_eq_true,
        if_false, Bool.and_self, if_true]
    rw [h]
    exact ⟨rfl, rfl⟩
  · intro heq
    have hd : decide (msg.request_body.length ≤ lim.GDIAL_REST_HTTP_MAX_PAYLOAD) = true := by
      simp only [decide_eq_true_eq]; exact le_of_eq heq
    unfold gdial_rest_server_handle_POST
    simp only [hreg, hb, hd, Bool.not_true, Bool.and_false, Bool.false_eq_true, if_false,
      Bool.true_and]
    split_ifs
    · exact (by decide : (400 : Nat) ≠ 413)
    · exact (by decide : (500 : Nat) ≠ 413)
    · exact handle_POST_respond_status _ _ _ _ _ _

/-- C13 (witness): a five-byte body against a payload limit of four bytes. -/
theorem C13_launch_body_checks_witness :
    launch_request.request_body.data = some "v=abc".toList ∧
    launch_request.request_body.length ≠ 0 ∧
    (gdial_rest_server_handle_POST (Limits.mk 256 64 4 4096) lib_example launch_plat_ok
        (world_example registry_netflix [] launch_request 0) launch_request "Netflix".toList
        35000).2.status_code = 413 :=
  ⟨rfl, by decide,
    ((C13_launch_body_checks (Limits.mk 256 64 4 4096) lib_example launch_plat_ok
      (world_example registry_netflix [] launch_request 0) launch_request "Netflix".toList 35000
      (new_app_registry "Netflix".toList [] true false ["netflix.com".toList]) "v=abc".toList
      (by decide) rfl (by decide)).1 (by decide)).1⟩

/-! ## HIDE and STOP -/

theorem set_http_error_status (m : SoupMessage) (code : Nat) :
    (gdial_soup_message_set_http_error m code).status_code = code := rfl

/-- C14: the status of a HIDE request: 404 without platform hide call when the state
query fails or the state is neither RUNNING nor HIDE; otherwise 501 when platform hide
answers NOT_IMPLEMENTED, 500 when it answers another error, and, when it answers OK, 200
if the wait for HIDE succeeds and 500 if it times out. -/
theorem C14_hide_status (plat : ControlPlat) (w : World) (msg : SoupMessage) (app : GDialApp)
    (t : Nat) :
    (gdial_rest_server_handle_POST_hide plat w msg app t).2.status_code =
      (if plat.app_state.1 ≠ GDIAL_APP_ERROR_NONE ∨
          ¬ (plat.app_state.2 = GDIAL_APP_STATE_RUNNING ∨
            plat.app_state.2 = GDIAL_APP_STATE_HIDE) then 404
        else if plat.command = GDIAL_APP_ERROR_NOT_IMPLEMENTED then 501
        else if plat.command ≠ GDIAL_APP_ERROR_NONE then 500
        else if plat.state_wait = GDIAL_APP_ERROR_NONE then 200 else 500) ∧
    ((plat.app_state.1 ≠ GDIAL_APP_ERROR_NONE ∨
        ¬ (plat.app_state.2 = GDIAL_APP_STATE_RUNNING ∨
          plat.app_state.2 = GDIAL_APP_STATE_HIDE)) →
      (gdial_rest_server_handle_POST_hide plat w msg app t).1.plat_calls =
        w.plat_calls ++ PlatCall.app_state app.name ::
          (if plat.app_state.1 ≠ GDIAL_APP_ERROR_NONE then [PlatCall.app_state app.name]
            else [])) := by
  by_cases hq : plat.app_state.1 = GDIAL_APP_ERROR_NONE
  · by_cases hs : plat.app_state.2 = GDIAL_APP_STATE_RUNNING ∨
        plat.app_state.2 = GDIAL_APP_STATE_HIDE
    · have h1 : ¬ (plat.app_state.1 ≠ GDIAL_APP_ERROR_NONE ∨
          ¬ (plat.app_state.2 = GDIAL_APP_STATE_RUNNING ∨
            plat.app_state.2 = GDIAL_APP_STATE_HIDE)) := by
        simp [hq, hs]
      rw [if_neg h1]
      refine ⟨?_, fun h => absurd h h1⟩
      simp only [gdial_rest_server_handle_POST_hide, gdial_app_state, hq, if_true, ne_eq,
        not_true_eq_false, if_false, hs, gdial_rest_server_wait_for_app_state]
      by_cases hc : plat.command = GDIAL_APP_ERROR_NONE
      · have hni : ¬ plat.command = GDIAL_APP_ERROR_NOT_IMPLEMENTED := by rw [hc]; decide
        simp only [hc, if_true, hni, if_false, not_true_eq_false]
        by_cases hw : plat.state_wait = GDIAL_APP_ERROR_NONE
        · simp only [hw, beq_self_eq_true, if_true]
          rw [(set_Allow_Origin_fields _ true).2.1]
          rfl
        · have hw2 : (plat.state_wait == GDIAL_APP_ERROR_NONE) = false := by simpa using hw
          simp only [hw2, Bool.false_eq_true, if_false, hw]
          rfl
      · simp only [hc, if_false, not_false_eq_true, if_true]
        by_cases hni : plat.command = GDIAL_APP_ERROR_NOT_IMPLEMENTED
        · simp only [hni, if_true]; rfl
        · simp only [hni, if_false]; rfl
    · have h1 : plat.app_state.1 ≠ GDIAL_APP_ERROR_NONE ∨
          ¬ (plat.app_state.2 = GDIAL_APP_STATE_RUNNING ∨
            plat.app_state.2 = GDIAL_APP_STATE_HIDE) := Or.inr hs
      rw [if_pos h1]
      simp only [gdial_rest_server_handle_POST_hide, gdial_app_state, hq, if_true, ne_eq,
        not_true_eq_false, if_false, hs, not_false_eq_true]
      exact ⟨rfl, fun _ => rfl⟩
  · have h1 : plat.app_state.1 ≠ GDIAL_APP_ERROR_NONE ∨
        ¬ (plat.app_state.2 = GDIAL_APP_STATE_RUNNING ∨
          plat.app_state.2 = GDIAL_APP_STATE_HIDE) := Or.inl hq
    rw [if_pos h1]
    simp only [gdial_rest_server_handle_POST_hide, gdial_app_state, hq, if_false, ne_eq,
      not_false_eq_true, if_true]
    refine ⟨rfl, fun _ => ?_⟩
    simp [World.call, World.put_app]

/-- C15: a STOP request on the application `system` is answered 403 without any platform
operation; otherwise, when the state query fails or the state is neither RUNNING nor
HIDE, it is answered 404 and stop is not invoked; otherwise platform stop is invoked
once, forceShutdown is invoked iff stop answered an error, the wait for STOPPED follows,
and the response is 200 if that wait succeeds and 500 if it times out. -/
theorem C15_stop_status (plat : ControlPlat) (w : World) (msg : SoupMessage) (app : GDialApp)
    (t : Nat) :
    (app.name = "system".toList →
      (gdial_rest_server_handle_DELETE plat w msg app t).2.status_code = 403 ∧
      (gdial_rest_server_handle_DELETE plat w msg app t).1.plat_calls = w.plat_calls) ∧
    (app.name ≠ "system".toList →
      (plat.app_state.1 ≠ GDIAL_APP_ERROR_NONE ∨
        ¬ (plat.app_state.2 = GDIAL_APP_STATE_RUNNING ∨
          plat.app_state.2 = GDIAL_APP_STATE_HIDE)) →
      (gdial_rest_server_handle_DELETE plat w msg app t).2.status_code = 404 ∧
      (gdial_rest_server_handle_DELETE plat w msg app t).1.plat_calls =
        w.plat_calls ++ PlatCall.app_state app.name ::
          (if plat.app_state.1 ≠ GDIAL_APP_ERROR_NONE then [PlatCall.app_state app.name]
            else [])) ∧
    (app.name ≠ "system".toList →
      plat.app_state.1 = GDIAL_APP_ERROR_NONE →
      (plat.app_state.2 = GDIAL_APP_STATE_RUNNING ∨ plat.app_state.2 = GDIAL_APP_STATE_HIDE) →
      (gdial_rest_server_handle_DELETE plat w msg app t).1.plat_calls =
        w.plat_calls ++ [PlatCall.app_state app.name, PlatCall.app_stop app.name] ++
          (if plat.command = GDIAL_APP_ERROR_NONE then [PlatCall.app_state app.name]
            else [PlatCall.app_force_shutdown app.name]) ++
          [PlatCall.state_wait app.name GDIAL_APP_STATE_STOPPED t] ∧
      (gdial_rest_server_handle_DELETE plat w msg app t).2.status_code =
        (if plat.state_wait = GDIAL_APP_ERROR_NONE then 200 else 500)) := by
  refine ⟨?_, ?_, ?_⟩
  · intro hsys
    have h0 : g_strcmp0 (some app.name) (some "system".toList) = 0 :=
      (g_strcmp0_some_eq_zero_iff _ _).mpr hsys
    simp only [gdial_rest_server_handle_DELETE, h0, ne_eq, not_true_eq_false, not_false_eq_true,
      if_true]
    exact ⟨rfl, trivial⟩
  · intro hsys hbad
    have h0 : ¬ g_strcmp0 (some app.name) (some "system".toList) = 0 := fun h =>
      hsys ((g_strcmp0_some_eq_zero_iff _ _).mp h)
    by_cases hq : plat.app_state.1 = GDIAL_APP_ERROR_NONE
    · have hs : ¬ (plat.app_state.2 = GDIAL_APP_STATE_RUNNING ∨
          plat.app_state.2 = GDIAL_APP_STATE_HIDE) := by
        rcases hbad with h | h
        · exact absurd hq h
        · exact h
      simp only [gdial_rest_server_handle_DELETE, h0, ne_eq, not_false_eq_true,
        not_true_eq_false, if_false, gdial_app_state, hq, if_true, hs]
      exact ⟨rfl, rfl⟩
    · simp only [gdial_rest_server_handle_DELETE, h0, ne_eq, not_false_eq_true,
        not_true_eq_false, if_false, gdial_app_state, hq, if_true]
      refine ⟨rfl, ?_⟩
      simp [World.call, World.put_app]
  · intro hsys hq hs
    have h0 : ¬ g_strcmp0 (some app.name) (some "system".toList) = 0 := fun h =>
      hsys ((g_strcmp0_some_eq_zero_iff _ _).mp h)
    simp only [gdial_rest_server_handle_DELETE, h0, ne_eq, not_false_eq_true,
      not_true_eq_false, if_false, gdial_app_state, hq, if_true, hs,
      gdial_rest_server_wait_for_app_state]
    by_cases hw : plat.state_wait = GDIAL_APP_ERROR_NONE
    · simp only [hw, beq_self_eq_true, if_true]
      refine ⟨?_, rfl⟩
      by_cases hc : plat.command = GDIAL_APP_ERROR_NONE
      · simp [hc, gdial_app_unref, World.call, World.put_app]
      · simp [hc, gdial_app_unref, World.call, World.put_app]
    · have hw2 : (plat.state_wait == GDIAL_APP_ERROR_NONE) = false := by simpa using hw
      simp only [hw2, Bool.false_eq_true, if_false, hw]
      refine ⟨?_, rfl⟩
      by_cases hc : plat.command = GDIAL_APP_ERROR_NONE
      · simp [hc, World.call, World.put_app]
      · simp [hc, World.call, World.put_app]

/-- C12 (counterexample): first launch of Netflix, the platform start answers OK and the
wait for RUNNING times out: the response is 503, not 500. -/
theorem C12_launch_timeout_is_503 :
    (gdial_rest_server_handle_POST limits_example lib_example launch_plat_timeout
        (world_example registry_netflix [] launch_request 0) launch_request "Netflix".toList
        35000).2.status_code = 503 ∧
    (gdial_rest_server_handle_POST limits_example lib_example launch_plat_timeout
        (world_example registry_netflix [] launch_request 0) launch_request "Netflix".toList
        35000).1.plat_calls =
      [PlatCall.app_start "Netflix".toList (some "v=abc".toList) none none,
       PlatCall.state_wait "Netflix".toList GDIAL_APP_STATE_RUNNING 35000] := by
  decide

/-- C12 (amended): when the platform command answers OK and the wait for the target state
times out, HIDE (target HIDE) and STOP (target STOPPED) are answered 500; a LAUNCH
(target RUNNING) turns the timeout into an INTERNAL start error and is answered 503. -/
theorem C12_wait_timeout_status (lim : Limits) (lib : Lib) (w : World) (msg : SoupMessage)
    (t : Nat) (lp : LaunchPlat) (app_name : CStr) (reg : GDialAppRegistry)
    (hp sp : ControlPlat) (happ sapp : GDialApp)
    (hreg : gdial_rest_server_find_app_registry w.registered_apps app_name = some reg)
    (hsize : msg.request_body.data.isSome = true → msg.request_body.length ≠ 0 →
      msg.request_body.length ≤ lim.GDIAL_REST_HTTP_MAX_PAYLOAD)
    (hprint : msg.request_body.data.isSome = true → msg.request_body.length ≠ 0 →
      gdial_util_is_ascii_printable (msg.request_body.data.getD []) msg.request_body.length = true)
    (hport : msg.address_port ≠ 0)
    (hstart : lp.app_start = GDIAL_APP_ERROR_NONE)
    (hwait : lp.state_wait ≠ GDIAL_APP_ERROR_NONE)
    (hhq : hp.app_state.1 = GDIAL_APP_ERROR_NONE)
    (hhs : hp.app_state.2 = GDIAL_APP_STATE_RUNNING ∨ hp.app_state.2 = GDIAL_APP_STATE_HIDE)
    (hhc : hp.command = GDIAL_APP_ERROR_NONE)
    (hhw : hp.state_wait ≠ GDIAL_APP_ERROR_NONE)
    (hsn : sapp.name ≠ "system".toList)
    (hsq : sp.app_state.1 = GDIAL_APP_ERROR_NONE)
    (hss : sp.app_state.2 = GDIAL_APP_STATE_RUNNING ∨ sp.app_state.2 = GDIAL_APP_STATE_HIDE)
    (hsc : sp.command = GDIAL_APP_ERROR_NONE)
    (hsw : sp.state_wait ≠ GDIAL_APP_ERROR_NONE) :
    (gdial_rest_server_handle_POST lim lib lp w msg app_name t).2.status_code = 503 ∧
    (gdial_rest_server_handle_POST_hide hp w msg happ t).2.status_code = 500 ∧
    (gdial_rest_server_handle_DELETE sp w msg sapp t).2.status_code = 500 := by
  refine ⟨?_, ?_, ?_⟩
  · rw [handle_POST_reaches_start lim lib lp w msg app_name t reg hreg hsize hprint hport,
      handle_POST_start_error, if_pos hstart, if_neg hwait,
      (handle_POST_respond_error _ _ _ _ _ GDIAL_APP_ERROR_INTERNAL (by decide)).1]
    decide
  · have hw2 : (hp.state_wait == GDIAL_APP_ERROR_NONE) = false := by simpa using hhw
    simp only [gdial_rest_server_handle_POST_hide, gdial_app_state, hhq, if_true, ne_eq,
      not_true_eq_false, if_false, hhs, hhc, gdial_rest_server_wait_for_app_state, hw2,
      Bool.false_eq_true]
    rfl
  · have h0 : ¬ g_strcmp0 (some sapp.name) (some "system".toList) = 0 := fun h =>
      hsn ((g_strcmp0_some_eq_zero_iff _ _).mp h)
    have hw2 : (sp.state_wait == GDIAL_APP_ERROR_NONE) = false := by simpa using hsw
    simp only [gdial_rest_server_handle_DELETE, h0, ne_eq, not_false_eq_true,
      not_true_eq_false, if_false, gdial_app_state, hsq, if_true, hss, hsc,
      gdial_rest_server_wait_for_app_state, hw2, Bool.false_eq_true]
    rfl

/-- C12 (witness): LAUNCH, HIDE and STOP of Netflix with a wait that times out. -/
theorem C12_wait_timeout_status_witness :
    (gdial_rest_server_handle_POST limits_example lib_example launch_plat_timeout
        (world_example registry_netflix [netflix_running] launch_request 0) launch_request
        "Netflix".toList 35000).2.status_code = 503 ∧
    (gdial_rest_server_handle_POST_hide control_plat_timeout
        (world_example registry_netflix [netflix_running] launch_request 0) launch_request
        netflix_running 35000).2.status_code = 500 ∧
    (gdial_rest_server_handle_DELETE control_plat_timeout
        (world_example registry_netflix [netflix_running] launch_request 0) launch_request
        netflix_running 35000).2.status_code = 500 :=
  C12_wait_timeout_status limits_example lib_example
    (world_example registry_netflix [netflix_running] launch_request 0) launch_request 35000
    launch_plat_timeout "Netflix".toList
    (new_app_registry "Netflix".toList [] true false ["netflix.com".toList])
    control_plat_timeout control_plat_timeout netflix_running netflix_running
    (by decide) (fun _ _ => by decide) (fun _ _ => by decide) (by decide) rfl (by decide)
    rfl (by decide) rfl (by decide) (by decide) rfl (by decide) rfl (by decide)

/-! ## Public callback: what it leaves alone -/

/-- C17 (counterexample): POST /apps/YouTube/dial_data with body `k=v` on the public
callback, YouTube registered: from 192.168.1.20 the response is 500; from the loopback
address no status is set at all (it stays 0).  Neither is 501. -/
theorem C17_public_dial_data_post_not_501 :
    response_status
      (gdial_rest_http_server_apps_callback limits_example lib_example callback_plat_example
        (world_example registry_netflix_youtube [youtube_running] dial_data_request 0)
        1 9 "/apps/YouTube/dial_data".toList client_example) 9 = some 500 ∧
    response_status
      (gdial_rest_http_server_apps_callback limits_example lib_example callback_plat_example
        (world_example registry_netflix_youtube [youtube_running] dial_data_request 0)
        1 9 "/apps/YouTube/dial_data".toList client_loopback) 9 = some 0 ∧
    gdial_rest_server_is_app_registered registry_netflix_youtube "YouTube".toList = true := by
  decide

/-- C17 (amended): a POST (indeed a request of any method) to /apps/<name>/dial_data with
<name> registered and the origin admitted that the public callback receives from a
remote address other than the IPv4 loopback address (or whose native address cannot be
obtained) is answered 500, and nothing but the response changes. -/
theorem C17_public_dial_data_post_remote (lim : Limits) (lib : Lib) (plat : CallbackPlat)
    (w : World) (server msg : Nat) (m : SoupMessage) (path : CStr)
    (client : SoupClientContext) (host : CStr) (pe : PathElements)
    (hm : w.msg msg = some m)
    (hv : apps_callback_validate lim m path client = .ok (host, pe))
    (hreg : gdial_rest_server_is_app_registered w.registered_apps pe.app_name = true)
    (hallowed : gdial_rest_server_is_allowed_origin lib w.registered_apps
      (soup_message_headers_get_one m.request_headers "Origin".toList) pe.app_name = true)
    (hnum : pe.element_num = 3)
    (hlast : pe.last_elem = "dial_data".toList)
    (hclient : client.to_native_ok = false ∨ client.s_addr ≠ INADDR_LOOPBACK) :
    gdial_rest_http_server_apps_callback lim lib plat w server msg path client =
      .ok (w.set_msg msg (gdial_soup_message_set_http_error m 500)) ∧
    response_status
      (gdial_rest_http_server_apps_callback lim lib plat w server msg path client) msg =
      some 500 := by
  have hcb : gdial_rest_http_server_apps_callback lim lib plat w server msg path client =
      .ok (w.set_msg msg (gdial_soup_message_set_http_error m 500)) := by
    have hdd : g_strcmp0 (some pe.last_elem) (some (GDIAL_REST_HTTP_DIAL_DATA_URI.drop 1)) = 0 := by
      rw [g_strcmp0_some_eq_zero_iff, hlast]; rfl
    have h32 : ¬ (3 : Nat) = 2 := by decide
    simp only [gdial_rest_http_server_apps_callback, hm, hv, hallowed, hreg, Bool.not_true,
      Bool.false_eq_true, if_false, apps_callback_dispatch, hnum, hdd, beq_self_eq_true,
      if_true, h32]
    rcases hclient with hc | hc
    · simp only [hc, Bool.not_false, if_true]
      rfl
    · by_cases hn : client.to_native_ok = true
      · simp only [hn, Bool.not_true, Bool.false_eq_true, if_false, hc, ne_eq,
          not_false_eq_true, if_true]
        rfl
      · have hn2 : client.to_native_ok = false := by simpa using hn
        simp only [hn2, Bool.not_false, if_true]
        rfl
  refine ⟨hcb, ?_⟩
  rw [hcb]
  simp only [response_status, msg_set_msg, Option.map_some']
  rfl

/-- C17 (witness): the amended statement for POST /apps/YouTube/dial_data from
192.168.1.20. -/
theorem C17_public_dial_data_post_remote_witness :
    apps_callback_validate limits_example dial_data_request "/apps/YouTube/dial_data".toList
        client_example =
      .ok ("192.168.1.10:56889".toList,
        PathElements.mk "apps".toList "YouTube".toList "dial_data".toList "dial_data".toList 3) ∧
    response_status
      (gdial_rest_http_server_apps_callback limits_example lib_example callback_plat_example
        (world_example registry_netflix_youtube [youtube_running] dial_data_request 0)
        1 9 "/apps/YouTube/dial_data".toList client_example) 9 = some 500 :=
  ⟨rfl,
    (C17_public_dial_data_post_remote limits_example lib_example callback_plat_example
      (world_example registry_netflix_youtube [youtube_running] dial_data_request 0)
      1 9 dial_data_request "/apps/YouTube/dial_data".toList client_example
      "192.168.1.10:56889".toList
      (PathElements.mk "apps".toList "YouTube".toList "dial_data".toList "dial_data".toList 3)
      rfl rfl (by decide) (by decide) rfl rfl (Or.inr (by decide))).2⟩

/-! ## OPTIONS -/

theorem get_one_remove_same (hdrs : SoupMessageHeaders) (n : CStr) :
    soup_message_headers_get_one (soup_message_headers_remove hdrs n) n = none := by
  unfold soup_message_headers_get_one soup_message_headers_remove
  rw [Option.map_eq_none', List.find?_eq_none]
  intro x hx
  rw [List.mem_reverse] at hx
  have := (List.mem_filter.mp hx).2
  simpa using this

/-- What `gdial_rest_server_handle_OPTIONS` writes. -/
theorem handle_OPTIONS_spec (m : SoupMessage) (methods : CStr) :
    (gdial_rest_server_handle_OPTIONS m methods).status_code = 204 ∧
    soup_message_headers_get_one (gdial_rest_server_handle_OPTIONS m methods).response_headers
      "Access-Control-Max-Age".toList = some "86400".toList ∧
    soup_message_headers_get_one (gdial_rest_server_handle_OPTIONS m methods).response_headers
      "Access-Control-Allow-Methods".toList = some methods ∧
    soup_message_headers_get_one (gdial_rest_server_handle_OPTIONS m methods).response_headers
      "Access-Control-Allow-Origin".toList =
      (match soup_message_headers_get_one m.request_headers "Origin".toList with
        | some o => if o ≠ [] then some o else none
        | none => none) := by
  unfold gdial_rest_server_handle_OPTIONS
  simp only [soup_message_set_status]
  refine ⟨rfl, ?_, ?_, ?_⟩
  · rw [set_Allow_Origin_get_one _ _ _ (by decide), get_one_replace_same]
  · rw [set_Allow_Origin_get_one _ _ _ (by decide), get_one_replace_other _ _ _ _ (by decide),
      get_one_replace_same]
  · unfold gdial_soup_message_headers_set_Allow_Origin
    simp only
    cases ho : soup_message_headers_get_one m.request_headers "Origin".toList with
    | none =>
      simp only
      exact get_one_remove_same _ _
    | some o =>
      by_cases hne : o = []
      · simp only [hne, List.length_nil, ne_eq, not_true_eq_false, decide_False, Bool.and_false,
          Bool.false_eq_true, if_false]
        exact get_one_remove_same _ _
      · have hl : o.length ≠ 0 := fun h => hne (List.length_eq_zero.mp h)
        simp only [hl, ne_eq, not_false_eq_true, decide_True, Bool.and_self, if_true, hne]
        exact get_one_replace_same _ _ _

/-- C20: an OPTIONS request that passes validation, names a registered app and has an
admitted origin is answered by the public callback with 204, `Access-Control-Max-Age:
86400`, and `Access-Control-Allow-Methods` `GET, POST, OPTIONS` for two path elements,
`DELETE, OPTIONS` for three (the last not `dial_data`) and `POST, OPTIONS` for four
ending in `hide`; `Access-Control-Allow-Origin` is present iff the Origin header is
present and not empty, and then equals it.  Nothing but the message changes: no platform
call, no instance, queue or signal is touched. -/
theorem C20_options_response (lim : Limits) (lib : Lib) (plat : CallbackPlat) (w : World)
    (server msg : Nat) (m : SoupMessage) (path : CStr) (client : SoupClientContext)
    (host : CStr) (pe : PathElements)
    (hm : w.msg msg = some m)
    (hv : apps_callback_validate lim m path client = .ok (host, pe))
    (hreg : gdial_rest_server_is_app_registered w.registered_apps pe.app_name = true)
    (hallowed : gdial_rest_server_is_allowed_origin lib w.registered_apps
      (soup_message_headers_get_one m.request_headers "Origin".toList) pe.app_name = true)
    (hmethod : m.method = "OPTIONS".toList)
    (hshape : pe.element_num = 2 ∨
      (pe.element_num = 3 ∧ pe.last_elem ≠ "dial_data".toList) ∨
      (pe.element_num = 4 ∧ pe.last_elem = "hide".toList)) :
    ∃ m2 : SoupMessage,
      gdial_rest_http_server_apps_callback lim lib plat w server msg path client =
        .ok (w.set_msg msg m2) ∧
      m2.status_code = 204 ∧
      soup_message_headers_get_one m2.response_headers "Access-Control-Max-Age".toList =
        some "86400".toList ∧
      soup_message_headers_get_one m2.response_headers "Access-Control-Allow-Methods".toList =
        some (if pe.element_num = 2 then "GET, POST, OPTIONS".toList
          else if pe.element_num = 3 then "DELETE, OPTIONS".toList
          else "POST, OPTIONS".toList) ∧
      soup_message_headers_get_one m2.response_headers "Access-Control-Allow-Origin".toList =
        (match soup_message_headers_get_one m.request_headers "Origin".toList with
          | some o => if o ≠ [] then some o else none
          | none => none) := by
  have h32 : ¬ (3 : Nat) = 2 := by decide
  have h42 : ¬ (4 : Nat) = 2 := by decide
  have h43 : ¬ (4 : Nat) = 3 := by decide
  rcases hshape with h2 | ⟨h3, hl⟩ | ⟨h4, hl⟩
  · refine ⟨gdial_rest_server_handle_OPTIONS m "GET, POST, OPTIONS".toList, ?_,
      (handle_OPTIONS_spec m _).1, (handle_OPTIONS_spec m _).2.1, ?_,
      (handle_OPTIONS_spec m _).2.2.2⟩
    · simp only [gdial_rest_http_server_apps_callback, hm, hv, hallowed, hreg, Bool.not_true,
        Bool.false_eq_true, if_false, apps_callback_dispatch, h2, if_true, hmethod]
    · rw [if_pos h2]
      exact (handle_OPTIONS_spec m _).2.2.1
  · refine ⟨gdial_rest_server_handle_OPTIONS m "DELETE, OPTIONS".toList, ?_,
      (handle_OPTIONS_spec m _).1, (handle_OPTIONS_spec m _).2.1, ?_,
      (handle_OPTIONS_spec m _).2.2.2⟩
    · have hdd : ¬ g_strcmp0 (some pe.last_elem)
          (some (GDIAL_REST_HTTP_DIAL_DATA_URI.drop 1)) = 0 := by
        rw [g_strcmp0_some_eq_zero_iff]; exact hl
      simp only [gdial_rest_http_server_apps_callback, hm, hv, hallowed, hreg, Bool.not_true,
        Bool.false_eq_true, if_false, apps_callback_dispatch, h3, h32, if_true, hmethod,
        beq_iff_eq, hdd]
    · rw [h3, if_neg h32, if_pos rfl]
      exact (handle_OPTIONS_spec m _).2.2.1
  · refine ⟨gdial_rest_server_handle_OPTIONS m "POST, OPTIONS".toList, ?_,
      (handle_OPTIONS_spec m _).1, (handle_OPTIONS_spec m _).2.1, ?_,
      (handle_OPTIONS_spec m _).2.2.2⟩
    · have hh : g_strcmp0 (some pe.last_elem) (some (GDIAL_REST_HTTP_HIDE_URI.drop 1)) = 0 := by
        rw [g_strcmp0_some_eq_zero_iff, hl]; rfl
      simp only [gdial_rest_http_server_apps_callback, hm, hv, hallowed, hreg, Bool.not_true,
        Bool.false_eq_true, if_false, apps_callback_dispatch, h4, h42, h43, if_true, hmethod,
        beq_iff_eq, hh]
    · rw [h4, if_neg h42, if_neg h43]
      exact (handle_OPTIONS_spec m _).2.2.1

/-- C20 (witness): OPTIONS /apps/Netflix with `Origin: https://www.netflix.com`. -/
theorem C20_options_response_witness :
    apps_callback_validate limits_example options_request "/apps/Netflix".toList
        client_example =
      .ok ("192.168.1.10:56889".toList,
        PathElements.mk "apps".toList "Netflix".toList [] "Netflix".toList 2) ∧
    gdial_rest_server_is_allowed_origin lib_example registry_netflix
      (soup_message_headers_get_one options_request.request_headers "Origin".toList)
      "Netflix".toList = true ∧
    ∃ m2 : SoupMessage,
      gdial_rest_http_server_apps_callback limits_example lib_example callback_plat_example
          (world_example registry_netflix [] options_request 0) 1 9 "/apps/Netflix".toList
          client_example =
        .ok ((world_example registry_netflix [] options_request 0).set_msg 9 m2) ∧
      m2.status_code = 204 ∧
      soup_message_headers_get_one m2.response_headers "Access-Control-Max-Age".toList =
        some "86400".toList ∧
      soup_message_headers_get_one m2.response_headers "Access-Control-Allow-Methods".toList =
        some (if (PathElements.mk "apps".toList "Netflix".toList [] "Netflix".toList
              2).element_num = 2 then "GET, POST, OPTIONS".toList
          else if (PathElements.mk "apps".toList "Netflix".toList [] "Netflix".toList
              2).element_num = 3 then "DELETE, OPTIONS".toList
          else "POST, OPTIONS".toList) ∧
      soup_message_headers_get_one m2.response_headers "Access-Control-Allow-Origin".toList =
        (match soup_message_headers_get_one options_request.request_headers
            "Origin".toList with
          | some o => if o ≠ [] then some o else none
          | none => none) :=
  ⟨rfl, by decide,
    C20_options_response limits_example lib_example callback_plat_example
      (world_example registry_netflix [] options_request 0) 1 9 options_request
      "/apps/Netflix".toList client_example "192.168.1.10:56889".toList
      (PathElements.mk "apps".toList "Netflix".toList [] "Netflix".toList 2)
      rfl rfl (by decide) (by decide) rfl (Or.inl rfl)⟩

/-! ## Local callback -/

theorem copy_elements_num (size : Nat) (els : List CStr) (acc : PathElements) :
    (copy_elements size els acc).element_num =
      acc.element_num + (els.filter (fun t => t ≠ [])).length := by
  induction els generalizing acc with
  | nil => simp [copy_elements]
  | cons e rest ih =>
    by_cases he : e = []
    · simp [copy_elements, he, ih]
    · have hl : ¬ e.length = 0 := fun h => he (List.length_eq_zero.mp h)
      simp only [copy_elements, hl, if_false, ih, ne_eq, he, not_false_eq_true, decide_True,
        List.filter_cons_of_pos, List.length_cons]
      omega

/-- C18 (counterexample): POST `/apps//YouTube/dial_data` (an empty second segment) with
body `k=v` on the local callback, YouTube registered and running: the request is served
like /apps/YouTube/dial_data, the response is 200 and the auxiliary data becomes
`k=v`. -/
theorem C18_local_empty_segment_served :
    (gdial_local_rest_http_server_callback limits_example lib_example
        (world_example registry_netflix_youtube [youtube_running] dial_data_request 0)
        dial_data_request "/apps//YouTube/dial_data".toList).2.status_code = 200 ∧
    (gdial_local_rest_http_server_callback limits_example lib_example
        (world_example registry_netflix_youtube [youtube_running] dial_data_request 0)
        dial_data_request "/apps//YouTube/dial_data".toList).1.application_instances.map
        (fun a => a.dial_data) = [[("k".toList, "v".toList)]] := by
  decide

/-- C18 (amended): a request on the local callback whose path does not consist of exactly
three non-empty segments (empty ones being skipped, among the at most four split
tokens) with the third, as copied, equal to `dial_data` is answered 501 and nothing but
the response changes.  The first segment is not compared with `apps`. -/
theorem C18_local_other_paths (lim : Limits) (lib : Lib) (w : World) (msg : SoupMessage)
    (path : CStr)
    (h : ¬ (((g_strsplit (path.drop 1) '/' 4).filter (fun t => t ≠ [])).length = 3 ∧
      (copy_elements lim.GDIAL_REST_HTTP_PATH_COMPONENT_MAX_LEN (g_strsplit (path.drop 1) '/' 4)
        ⟨[], [], [], [], 0⟩).instance_ = "dial_data".toList)) :
    gdial_local_rest_http_server_callback lim lib w msg path =
      (w, gdial_soup_message_set_http_error msg 501) ∧
    (gdial_local_rest_http_server_callback lim lib w msg path).2.status_code = 501 := by
  have hcond : ¬ ((copy_elements lim.GDIAL_REST_HTTP_PATH_COMPONENT_MAX_LEN
        (g_strsplit (path.drop 1) '/' 4) ⟨[], [], [], [], 0⟩).element_num = 3 ∧
      g_strcmp0 (some (copy_elements lim.GDIAL_REST_HTTP_PATH_COMPONENT_MAX_LEN
        (g_strsplit (path.drop 1) '/' 4) ⟨[], [], [], [], 0⟩).instance_)
        (some "dial_data".toList) = 0) := by
    rw [copy_elements_num, g_strcmp0_some_eq_zero_iff]
    simpa using h
  have hcb : gdial_local_rest_http_server_callback lim lib w msg path =
      (w, gdial_soup_message_set_http_error msg 501) := by
    unfold gdial_local_rest_http_server_callback
    simp only [hcond, if_false]
    rfl
  exact ⟨hcb, by rw [hcb]; rfl⟩

/-- C18 (witness): GET /apps/YouTube on the local callback. -/
theorem C18_local_other_paths_witness :
    ¬ (((g_strsplit ("/apps/YouTube".toList.drop 1) '/' 4).filter (fun t => t ≠ [])).length = 3 ∧
      (copy_elements limits_example.GDIAL_REST_HTTP_PATH_COMPONENT_MAX_LEN
        (g_strsplit ("/apps/YouTube".toList.drop 1) '/' 4)
        ⟨[], [], [], [], 0⟩).instance_ = "dial_data".toList) ∧
    (gdial_local_rest_http_server_callback limits_example lib_example
        (world_example registry_netflix_youtube [youtube_running] dial_data_request 0)
        dial_data_request "/apps/YouTube".toList).2.status_code = 501 :=
  ⟨by decide,
    (C18_local_other_paths limits_example lib_example
      (world_example registry_netflix_youtube [youtube_running] dial_data_request 0)
      dial_data_request "/apps/YouTube".toList (by decide)).2⟩

theorem c_str_eq_take (data : CStr) (n : Nat)
    (hp : gdial_util_is_ascii_printable data n = true)
    (hz : body_byte data n = Char.ofNat 0) : c_str data = data.take n := by
  induction data generalizing n with
  | nil => simp [c_str]
  | cons c rest ih =>
    cases n with
    | zero =>
      have hc : c = Char.ofNat 0 := by simpa [body_byte] using hz
      simp [c_str, hc]
    | succ k =>
      simp only [gdial_util_is_ascii_printable, List.take_succ_cons, List.all_cons,
        Bool.and_eq_true] at hp
      have hc : c.toNat ≠ 0 := by
        have := hp.1
        simp only [g_ascii_isprint, Bool.and_eq_true, decide_eq_true_eq] at this
        omega
      have hrest := ih k hp.2 (by simpa [body_byte] using hz)
      simp only [c_str] at hrest ⊢
      simp only [List.takeWhile_cons, ne_eq, hc, not_false_eq_true, decide_True, if_true,
        List.take_succ_cons, List.cons.injEq, true_and]
      exact hrest

/-- C19 (counterexample): POST /apps/YouTube/dial_data with body `k=v` on the local
callback, YouTube registered but without an instance: the response is 404. -/
theorem C19_local_set_data_without_instance :
    gdial_rest_server_is_app_registered registry_netflix_youtube "YouTube".toList = true ∧
    (gdial_local_rest_http_server_callback limits_example lib_example
        (world_example registry_netflix_youtube [] dial_data_request 0)
        dial_data_request "/apps/YouTube/dial_data".toList).2.status_code = 404 ∧
    (gdial_local_rest_http_server_callback limits_example lib_example
        (world_example registry_netflix_youtube [] dial_data_request 0)
        (request_example "POST" "/apps/YouTube/dial_data" [] none)
        "/apps/YouTube/dial_data".toList).2.status_code = 404 := by
  decide

/-- SET_DATA on the local callback when an instance of the name is present. -/
theorem local_set_data_with_instance (lim : Limits) (lib : Lib) (w : World) (msg : SoupMessage)
    (path : CStr) (pe : PathElements) (reg : GDialAppRegistry) (app : GDialApp)
    (hpe : copy_elements lim.GDIAL_REST_HTTP_PATH_COMPONENT_MAX_LEN
      (g_strsplit (path.drop 1) '/' 4) ⟨[], [], [], [], 0⟩ = pe)
    (hnum : pe.element_num = 3)
    (hinst : pe.instance_ = "dial_data".toList)
    (hreg : gdial_rest_server_find_app_registry w.registered_apps pe.app_name = some reg)
    (hmethod : msg.method = "POST".toList)
    (hfind : gdial_app_find_instance_by_name w pe.app_name = some app) :
    (∀ data, msg.request_body.data = some data → msg.request_body.length ≠ 0 →
      msg.request_body.length < lim.GDIAL_APP_DIAL_DATA_MAX_LEN →
      gdial_util_is_ascii_printable data msg.request_body.length = true →
      body_byte data msg.request_body.length = Char.ofNat 0 →
      (gdial_local_rest_http_server_callback lim lib w msg path).2.status_code = 200 ∧
      ∀ table, lib.soup_form_decode (data.take msg.request_body.length) = some table →
        gdial_app_find_instance_by_name
          (gdial_local_rest_http_server_callback lim lib w msg path).1 pe.app_name =
            some { app with dial_data := table }) ∧
    ((msg.request_body.data = none ∨ msg.request_body.length = 0) →
      (gdial_local_rest_http_server_callback lim lib w msg path).2.status_code = 200 ∧
      gdial_app_find_instance_by_name
        (gdial_local_rest_http_server_callback lim lib w msg path).1 pe.app_name =
          some { app with dial_data := [] }) := by
  have hname := find_instance_name w pe.app_name app hfind
  have hcond : pe.element_num = 3 ∧
      g_strcmp0 (some pe.instance_) (some "dial_data".toList) = 0 :=
    ⟨hnum, (g_strcmp0_some_eq_zero_iff _ _).mpr hinst⟩
  have hcb : gdial_local_rest_http_server_callback lim lib w msg path =
      gdial_rest_server_handle_POST_dial_data lim lib w msg pe.app_name := by
    unfold gdial_local_rest_http_server_callback
    simp only [hpe, hcond, and_self, if_true, hreg, hmethod]
  have hset : ∀ table, gdial_app_find_instance_by_name
      (gdial_app_set_additional_dial_data w app table) pe.app_name =
        some { app with dial_data := table } := by
    intro table
    simp only [gdial_app_set_additional_dial_data, gdial_app_find_instance_by_name,
      World.put_app, World.call]
    exact find_put_first _ _ app _ hfind hname
  rw [hcb]
  refine ⟨?_, ?_⟩
  · intro data hd hl hlt hp hz
    have hb : (msg.request_body.data.isSome && msg.request_body.length != 0) = true := by
      simp [hd, hl]
    have hdec : decide (msg.request_body.length < lim.GDIAL_APP_DIAL_DATA_MAX_LEN) = true := by
      simpa using hlt
    have hbad : gdial_rest_server_is_bad_payload (msg.request_body.data.getD [])
        msg.request_body.length = false := by
      simp [gdial_rest_server_is_bad_payload, hd, hp]
    have hz2 : ¬ body_byte (msg.request_body.data.getD []) msg.request_body.length ≠
        Char.ofNat 0 := by
      simp [hd, hz]
    have hc : c_str (msg.request_body.data.getD []) = data.take msg.request_body.length := by
      simp only [hd, Option.getD_some]
      exact c_str_eq_take data _ hp hz
    simp only [gdial_rest_server_handle_POST_dial_data, hb, hdec, hbad, Bool.not_true,
      Bool.and_false, Bool.false_eq_true, if_false, hfind, if_true, hz2, hc]
    cases hdecode : lib.soup_form_decode (data.take msg.request_body.length) with
    | none =>
      refine ⟨?_, fun table ht => absurd ht (by simp)⟩
      simp only [soup_message_set_status]
      rfl
    | some tbl =>
      refine ⟨?_, ?_⟩
      · simp only [soup_message_set_status]
        rfl
      · intro table ht
        cases ht
        exact hset tbl
  · intro hempty
    have hb : (msg.request_body.data.isSome && msg.request_body.length != 0) = false := by
      rcases hempty with h | h
      · simp [h]
      · simp [h]
    simp only [gdial_rest_server_handle_POST_dial_data, hb, Bool.false_and, Bool.false_eq_true,
      if_false, hfind]
    exact ⟨rfl, hset []⟩

/-- C19 (amended): a POST to /apps/<name>/dial_data on the local callback with <name>
registered.  A non-empty body is checked first, whether or not an instance exists: a
body of `maxDialData` bytes or more is answered 413, and otherwise a body with a
non-printable byte 400, the state unchanged.  With an instance of that name present:
when the body is non-empty, shorter than the limit, ASCII-printable and NUL-terminated,
the response is 200 and the auxiliary data of the instance becomes the form decoding of
the body; when the body is empty the response is 200 and the auxiliary data becomes
empty.  With no instance of that name, a request whose body is empty or passes the two
checks is answered 404, the state unchanged. -/
theorem C19_local_set_data (lim : Limits) (lib : Lib) (w : World) (msg : SoupMessage)
    (path : CStr) (pe : PathElements) (reg : GDialAppRegistry)
    (hpe : copy_elements lim.GDIAL_REST_HTTP_PATH_COMPONENT_MAX_LEN
      (g_strsplit (path.drop 1) '/' 4) ⟨[], [], [], [], 0⟩ = pe)
    (hnum : pe.element_num = 3)
    (hinst : pe.instance_ = "dial_data".toList)
    (hreg : gdial_rest_server_find_app_registry w.registered_apps pe.app_name = some reg)
    (hmethod : msg.method = "POST".toList) :
    (∀ app, gdial_app_find_instance_by_name w pe.app_name = some app →
      (∀ data, msg.request_body.data = some data → msg.request_body.length ≠ 0 →
        msg.request_body.length < lim.GDIAL_APP_DIAL_DATA_MAX_LEN →
        gdial_util_is_ascii_printable data msg.request_body.length = true →
        body_byte data msg.request_body.length = Char.ofNat 0 →
        (gdial_local_rest_http_server_callback lim lib w msg path).2.status_code = 200 ∧
        ∀ table, lib.soup_form_decode (data.take msg.request_body.length) = some table →
          gdial_app_find_instance_by_name
            (gdial_local_rest_http_server_callback lim lib w msg path).1 pe.app_name =
              some { app with dial_data := table }) ∧
      ((msg.request_body.data = none ∨ msg.request_body.length = 0) →
        (gdial_local_rest_http_server_callback lim lib w msg path).2.status_code = 200 ∧
        gdial_app_find_instance_by_name
          (gdial_local_rest_http_server_callback lim lib w msg path).1 pe.app_name =
            some { app with dial_data := [] })) ∧
    (gdial_app_find_instance_by_name w pe.app_name = none →
      (∀ data, msg.request_body.data = some data → msg.request_body.length ≠ 0 →
        msg.request_body.length < lim.GDIAL_APP_DIAL_DATA_MAX_LEN ∧
        gdial_util_is_ascii_printable data msg.request_body.length = true) →
      (gdial_local_rest_http_server_callback lim lib w msg path).2.status_code = 404 ∧
      (gdial_local_rest_http_server_callback lim lib w msg path).1 = w) ∧
    (∀ data, msg.request_body.data = some data → msg.request_body.length ≠ 0 →
      (lim.GDIAL_APP_DIAL_DATA_MAX_LEN ≤ msg.request_body.length →
        (gdial_local_rest_http_server_callback lim lib w msg path).2.status_code = 413 ∧
        (gdial_local_rest_http_server_callback lim lib w msg path).1 = w) ∧
      (msg.request_body.length < lim.GDIAL_APP_DIAL_DATA_MAX_LEN →
        gdial_util_is_ascii_printable data msg.request_body.length = false →
        (gdial_local_rest_http_server_callback lim lib w msg path).2.status_code = 400 ∧
        (gdial_local_rest_http_server_callback lim lib w msg path).1 = w)) := by
  have hcond : pe.element_num = 3 ∧
      g_strcmp0 (some pe.instance_) (some "dial_data".toList) = 0 :=
    ⟨hnum, (g_strcmp0_some_eq_zero_iff _ _).mpr hinst⟩
  have hcb : gdial_local_rest_http_server_callback lim lib w msg path =
      gdial_rest_server_handle_POST_dial_data lim lib w msg pe.app_name := by
    unfold gdial_local_rest_http_server_callback
    simp only [hpe, hcond, and_self, if_true, hreg, hmethod]
  refine ⟨fun app hfind =>
    local_set_data_with_instance lim lib w msg path pe reg app hpe hnum hinst hreg hmethod hfind,
    ?_, ?_⟩
  · intro hnone hchecks
    rw [hcb]
    cases hd : msg.request_body.data with
    | none =>
      simp only [gdial_rest_server_handle_POST_dial_data, hd, Option.isSome_none,
        Bool.false_and, Bool.false_eq_true, if_false, hnone]
      exact ⟨rfl, trivial⟩
    | some data =>
      by_cases hl : msg.request_body.length = 0
      · simp only [gdial_rest_server_handle_POST_dial_data, hd, hl, Option.isSome_some,
          bne_self_eq_false, Bool.and_false, Bool.false_and, Bool.false_eq_true, if_false, hnone]
        exact ⟨rfl, trivial⟩
      · obtain ⟨hlt, hp⟩ := hchecks data hd hl
        have hb : (msg.request_body.data.isSome && msg.request_body.length != 0) = true := by
          simp [hd, hl]
        have hdec : decide (msg.request_body.length < lim.GDIAL_APP_DIAL_DATA_MAX_LEN) = true := by
          simpa using hlt
        have hbad : gdial_rest_server_is_bad_payload (msg.request_body.data.getD [])
            msg.request_body.length = false := by
          simp [gdial_rest_server_is_bad_payload, hd, hp]
        simp only [gdial_rest_server_handle_POST_dial_data, hb, hdec, hbad, Bool.not_true,
          Bool.and_false, Bool.false_eq_true, if_false, hnone]
        exact ⟨rfl, trivial⟩
  · intro data hd hl
    have hb : (msg.request_body.data.isSome && msg.request_body.length != 0) = true := by
      simp [hd, hl]
    rw [hcb]
    refine ⟨?_, ?_⟩
    · intro hge
      have hdec : decide (msg.request_body.length < lim.GDIAL_APP_DIAL_DATA_MAX_LEN) = false := by
        simpa using hge
      simp only [gdial_rest_server_handle_POST_dial_data, hb, hdec, Bool.not_false, Bool.and_self,
        if_true]
      exact ⟨rfl, trivial⟩
    · intro hlt hp
      have hdec : decide (msg.request_body.length < lim.GDIAL_APP_DIAL_DATA_MAX_LEN) = true := by
        simpa using hlt
      have hbad : gdial_rest_server_is_bad_payload (msg.request_body.data.getD [])
          msg.request_body.length = true := by
        simp [gdial_rest_server_is_bad_payload, hd, hp]
      simp only [gdial_rest_server_handle_POST_dial_data, hb, hdec, hbad, Bool.not_true,
        Bool.and_false, Bool.false_eq_true, if_false, Bool.and_self, if_true]
      exact ⟨rfl, trivial⟩

/-- C19 (witness): POST /apps/YouTube/dial_data with body `k=v`: with YouTube running
with auxiliary data `a=b` the response is 200 and the auxiliary data becomes `k=v`;
without an instance the response is 404. -/
theorem C19_local_set_data_witness :
    gdial_app_find_instance_by_name
        (world_example registry_netflix_youtube [youtube_running] dial_data_request 0)
        "YouTube".toList = some youtube_running ∧
    lib_example.soup_form_decode ("k=v".toList.take 3) =
      some [("k".toList, "v".toList)] ∧
    (gdial_local_rest_http_server_callback limits_example lib_example
        (world_example registry_netflix_youtube [youtube_running] dial_data_request 0)
        dial_data_request "/apps/YouTube/dial_data".toList).2.status_code = 200 ∧
    gdial_app_find_instance_by_name
        (gdial_local_rest_http_server_callback limits_example lib_example
          (world_example registry_netflix_youtube [youtube_running] dial_data_request 0)
          dial_data_request "/apps/YouTube/dial_data".toList).1 "YouTube".toList =
      some { youtube_running with dial_data := [("k".toList, "v".toList)] } ∧
    (gdial_local_rest_http_server_callback limits_example lib_example
        (world_example registry_netflix_youtube [] dial_data_request 0)
        dial_data_request "/apps/YouTube/dial_data".toList).2.status_code = 404 :=
  ⟨by decide, by decide,
    (((C19_local_set_data limits_example lib_example
      (world_example registry_netflix_youtube [youtube_running] dial_data_request 0)
      dial_data_request "/apps/YouTube/dial_data".toList
      (PathElements.mk "apps".toList "YouTube".toList "dial_data".toList "dial_data".toList 3)
      (new_app_registry "YouTube".toList [some "Net".toList] true false [])
      (by decide) rfl rfl (by decide) rfl).1 youtube_running (by decide)).1 "k=v".toList rfl
      (by decide) (by decide) (by decide) (by decide)).1,
    (((C19_local_set_data limits_example lib_example
      (world_example registry_netflix_youtube [youtube_running] dial_data_request 0)
      dial_data_request "/apps/YouTube/dial_data".toList
      (PathElements.mk "apps".toList "YouTube".toList "dial_data".toList "dial_data".toList 3)
      (new_app_registry "YouTube".toList [some "Net".toList] true false [])
      (by decide) rfl rfl (by decide) rfl).1 youtube_running (by decide)).1 "k=v".toList rfl
      (by decide) (by decide) (by decide) (by decide)).2 [("k".toList, "v".toList)] (by decide),
    ((C19_local_set_data limits_example lib_example
      (world_example registry_netflix_youtube [] dial_data_request 0)
      dial_data_request "/apps/YouTube/dial_data".toList
      (PathElements.mk "apps".toList "YouTube".toList "dial_data".toList "dial_data".toList 3)
      (new_app_registry "YouTube".toList [some "Net".toList] true false [])
      (by decide) rfl rfl (by decide) rfl).2.1 (by decide)
      (fun data hd _ => by
        cases hd
        exact ⟨by decide, by decide⟩)).1⟩

/-! ## Method matrix -/

theorem callback_accepted (lim : Limits) (lib : Lib) (plat : CallbackPlat) (w : World)
    (server msg : Nat) (m : SoupMessage) (path : CStr) (client : SoupClientContext)
    (host : CStr) (pe : PathElements)
    (hm : w.msg msg = some m)
    (hv : apps_callback_validate lim m path client = .ok (host, pe))
    (horigin : gdial_rest_server_is_allowed_origin lib w.registered_apps
      (soup_message_headers_get_one m.request_headers "Origin".toList) pe.app_name = true)
    (hreg : gdial_rest_server_is_app_registered w.registered_apps pe.app_name = true) :
    gdial_rest_http_server_apps_callback lim lib plat w server msg path client =
      apps_callback_dispatch lib plat w server msg m client
        (soup_message_headers_get_one m.request_headers "Origin".toList) pe := by
  simp only [gdial_rest_http_server_apps_callback, hm, hv, horigin, hreg, Bool.not_true,
    Bool.false_eq_true, if_false]

/-- C21: for every request the public callback accepts (path passes the parser, origin
admitted, application registered) on the shapes `/apps/<name>`, `/apps/<name>/<inst>`
(third segment other than `dial_data`) and `/apps/<name>/<inst>/hide`, and every method
whose cell of the matrix names no handler: the answer is the status of the cell: 404
for POST on `/apps/<name>/<inst>` and for DELETE on `/apps/<name>/<inst>/hide`, 501 for
every other such combination; and the state changes in the message only, so no
platform operation is invoked and nothing is enqueued. -/
theorem C21_matrix_cells_without_handler (lim : Limits) (lib : Lib) (plat : CallbackPlat)
    (w : World) (server msg : Nat) (m : SoupMessage) (path : CStr) (client : SoupClientContext)
    (host : CStr) (pe : PathElements) (code : Nat)
    (hm : w.msg msg = some m)
    (hv : apps_callback_validate lim m path client = .ok (host, pe))
    (horigin : gdial_rest_server_is_allowed_origin lib w.registered_apps
      (soup_message_headers_get_one m.request_headers "Origin".toList) pe.app_name = true)
    (hreg : gdial_rest_server_is_app_registered w.registered_apps pe.app_name = true)
    (hshape : pe.element_num = 2 ∨
      (pe.element_num = 3 ∧ pe.last_elem ≠ "dial_data".toList) ∨
      (pe.element_num = 4 ∧ pe.last_elem = "hide".toList))
    (hcell : matrix_error_cell pe.element_num m.method = some code) :
    gdial_rest_http_server_apps_callback lim lib plat w server msg path client =
      .ok (w.set_msg msg (gdial_soup_message_set_http_error m code)) ∧
    response_status
      (gdial_rest_http_server_apps_callback lim lib plat w server msg path client) msg =
      some code ∧
    (code = 404 ↔
      (pe.element_num = 3 ∧ m.method = "POST".toList) ∨
      (pe.element_num = 4 ∧ m.method = "DELETE".toList)) ∧
    (code = 404 ∨ code = 501) ∧
    (w.set_msg msg (gdial_soup_message_set_http_error m code)).plat_calls = w.plat_calls ∧
    (w.set_msg msg (gdial_soup_message_set_http_error m code)).poolInstance = w.poolInstance ∧
    (w.set_msg msg (gdial_soup_message_set_http_error m code)).paused = w.paused := by
  have hcb := callback_accepted lim lib plat w server msg m path client host pe hm hv horigin hreg
  have hmain : apps_callback_dispatch lib plat w server msg m client
        (soup_message_headers_get_one m.request_headers "Origin".toList) pe =
      .ok (w.set_msg msg (gdial_soup_message_set_http_error m code)) ∧
      (code = 404 ↔
        (pe.element_num = 3 ∧ m.method = "POST".toList) ∨
        (pe.element_num = 4 ∧ m.method = "DELETE".toList)) ∧
      (code = 404 ∨ code = 501) := by
    have h32 : ¬ (3 : Nat) = 2 := by decide
    have h42 : ¬ (4 : Nat) = 2 := by decide
    have h43 : ¬ (4 : Nat) = 3 := by decide
    simp only [matrix_error_cell] at hcell
    rcases hshape with h2 | ⟨h3, hl⟩ | ⟨h4, hl⟩
    · simp only [h2, if_true] at hcell
      split_ifs at hcell with ho hg
      cases hcell
      have hp : ¬ m.method = "POST".toList := fun h => hg (Or.inr h)
      have hgg : ¬ m.method = "GET".toList := fun h => hg (Or.inl h)
      refine ⟨?_, ?_, Or.inr rfl⟩
      · simp only [apps_callback_dispatch, h2, if_true, horigin, Bool.not_true,
          Bool.false_eq_true, if_false, ho, hp, hgg, SOUP_STATUS_NOT_IMPLEMENTED]
      · simp [h2]
    · have hd : (g_strcmp0 (some pe.last_elem) (some (GDIAL_REST_HTTP_DIAL_DATA_URI.drop 1)) == 0)
          = false := by
        rw [beq_eq_false_iff_ne, ne_eq, g_strcmp0_some_eq_zero_iff]
        exact hl
      simp only [h3, h32, if_false, if_true] at hcell
      split_ifs at hcell with ho hdel hpost
      · cases hcell
        have ho2 := ho
        have hdel2 := hdel
        rw [hpost] at ho2 hdel2
        refine ⟨?_, ?_, Or.inl rfl⟩
        · simp only [apps_callback_dispatch, h3, ho2, hdel2, h32, if_false, if_true, hd, horigin,
            Bool.not_true, Bool.false_eq_true, ho, hdel, hpost, SOUP_STATUS_NOT_FOUND]
        · simp [h3, hpost]
      · cases hcell
        refine ⟨?_, ?_, Or.inr rfl⟩
        · simp only [apps_callback_dispatch, h3, h32, if_false, if_true, hd, horigin,
            Bool.not_true, Bool.false_eq_true, ho, hdel, hpost, SOUP_STATUS_NOT_IMPLEMENTED]
        · rw [h3]
          refine ⟨fun h => absurd h (by decide), ?_⟩
          rintro (⟨-, h⟩ | ⟨h, -⟩)
          · exact absurd h hpost
          · exact absurd h (by decide)
    · have hd : (g_strcmp0 (some pe.last_elem) (some (GDIAL_REST_HTTP_HIDE_URI.drop 1)) == 0)
          = true := by
        rw [beq_iff_eq, g_strcmp0_some_eq_zero_iff]
        exact hl
      simp only [h4, h42, h43, if_false] at hcell
      split_ifs at hcell with ho hpost hdel
      · cases hcell
        have ho2 := ho
        have hpost2 := hpost
        rw [hdel] at ho2 hpost2
        refine ⟨?_, ?_, Or.inl rfl⟩
        · simp only [apps_callback_dispatch, h4, ho2, hpost2, h42, h43, if_false, if_true, hd, ho, hdel,
            hpost, SOUP_STATUS_NOT_FOUND]
        · simp [h4, hdel]
      · cases hcell
        refine ⟨?_, ?_, Or.inr rfl⟩
        · simp only [apps_callback_dispatch, h4, h42, h43, if_false, if_true, hd, ho, hdel,
            hpost, SOUP_STATUS_NOT_IMPLEMENTED]
        · rw [h4]
          refine ⟨fun h => absurd h (by decide), ?_⟩
          rintro (⟨h, -⟩ | ⟨-, h⟩)
          · exact absurd h (by decide)
          · exact absurd h hdel
  rw [hcb]
  refine ⟨hmain.1, ?_, hmain.2.1, hmain.2.2, rfl, rfl, rfl⟩
  rw [hmain.1]
  simp only [response_status, msg_set_msg, Option.map_some']
  rfl

/-- C21 (witness): POST /apps/Netflix/run, Netflix registered, no Origin header: the
cell answers 404. -/
theorem C21_matrix_cells_without_handler_witness :
    apps_callback_validate limits_example (request_example "POST" "/apps/Netflix/run" [] none)
        "/apps/Netflix/run".toList client_example =
      .ok ("192.168.1.10:56889".toList,
        PathElements.mk "apps".toList "Netflix".toList "run".toList "run".toList 3) ∧
    matrix_error_cell 3 "POST".toList = some 404 ∧
    response_status
      (gdial_rest_http_server_apps_callback limits_example lib_example callback_plat_example
        (world_example registry_netflix [] (request_example "POST" "/apps/Netflix/run" [] none) 0)
        1 9 "/apps/Netflix/run".toList client_example) 9 = some 404 :=
  ⟨rfl, by decide,
    (C21_matrix_cells_without_handler limits_example lib_example callback_plat_example
      (world_example registry_netflix [] (request_example "POST" "/apps/Netflix/run" [] none) 0)
      1 9 (request_example "POST" "/apps/Netflix/run" [] none) "/apps/Netflix/run".toList
      client_example "192.168.1.10:56889".toList
      (PathElements.mk "apps".toList "Netflix".toList "run".toList "run".toList 3) 404
      rfl rfl (by decide) (by decide) (Or.inr (Or.inl ⟨rfl, by decide⟩)) (by decide)).2.1⟩

/-! ## Application state cache -/

theorem wait_loop_events_in_bounds (app_name desired_state : CStr) (timeout_ms : Nat)
    (wait_for_stopped : Bool) (ht : timeout_ms < 2 ^ 32) (wakeups : List WakeUp) :
    ∀ (c : rtAppStatusCache) (time_left time_elapsed : Nat) (events : List WaitEvent),
      (time_elapsed < timeout_ms → 0 < time_left ∧ time_left ≤ timeout_ms) →
      (∀ e ∈ events, wait_event_in_bounds timeout_ms e) →
      ∀ e ∈ (WaitForAppState_loop app_name desired_state timeout_ms wait_for_stopped wakeups c
        time_left time_elapsed events).events, wait_event_in_bounds timeout_ms e := by
  induction wakeups with
  | nil =>
    intro c tl te ev htl hev
    unfold WaitForAppState_loop
    by_cases hte : te < timeout_ms
    · have hnew : ∀ e ∈ ev ++ [WaitEvent.state_check te (SearchAppStatusInCacheLocked c app_name)],
          wait_event_in_bounds timeout_ms e := by
        intro e he
        rcases List.mem_append.mp he with h | h
        · exact hev e h
        · rw [List.mem_singleton] at h
          rw [h]; exact hte
      have hnew2 : ∀ e ∈ ev ++ [WaitEvent.state_check te (SearchAppStatusInCacheLocked c app_name)]
          ++ [WaitEvent.wait_for tl], wait_event_in_bounds timeout_ms e := by
        intro e he
        rcases List.mem_append.mp he with h | h
        · exact hnew e h
        · rw [List.mem_singleton] at h
          rw [h]; exact htl hte
      simp only [hte, if_true]
      split_ifs
      · exact hnew
      · exact hnew
      · exact hnew2
    · simp only [hte, if_false]
      exact hev
  | cons wk rest ih =>
    intro c tl te ev htl hev
    unfold WaitForAppState_loop
    by_cases hte : te < timeout_ms
    · have hnew : ∀ e ∈ ev ++ [WaitEvent.state_check te (SearchAppStatusInCacheLocked c app_name)],
          wait_event_in_bounds timeout_ms e := by
        intro e he
        rcases List.mem_append.mp he with h | h
        · exact hev e h
        · rw [List.mem_singleton] at h
          rw [h]; exact hte
      have hnew2 : ∀ e ∈ ev ++ [WaitEvent.state_check te (SearchAppStatusInCacheLocked c app_name)]
          ++ [WaitEvent.wait_for tl], wait_event_in_bounds timeout_ms e := by
        intro e he
        rcases List.mem_append.mp he with h | h
        · exact hnew e h
        · rw [List.mem_singleton] at h
          rw [h]; exact htl hte
      simp only [hte, if_true]
      split_ifs with h1 h2 h3
      · exact hnew
      · exact hnew
      · refine ih _ _ _ _ ?_ hnew2
        intro _
        have h64 : (timeout_ms + 2 ^ 64 - wk.elapsed_ms % 2 ^ 64) % 2 ^ 64 =
            timeout_ms - wk.elapsed_ms % 2 ^ 64 := by
          have : timeout_ms + 2 ^ 64 - wk.elapsed_ms % 2 ^ 64 =
              (timeout_ms - wk.elapsed_ms % 2 ^ 64) + 2 ^ 64 := by omega
          rw [this, Nat.add_mod_right]
          apply Nat.mod_eq_of_lt
          omega
        rw [h64, Nat.mod_eq_of_lt (by omega)]
        omega
      · refine ih _ _ _ _ ?_ hnew2
        intro h
        exact absurd h h3
    · simp only [hte, if_false]
      exact hev

theorem wait_loop_deadline (app_name desired_state : CStr) (timeout_ms : Nat)
    (wait_for_stopped : Bool) (wk : WakeUp) (post : List WakeUp)
    (hwk : timeout_ms ≤ wk.elapsed_ms % 2 ^ 64) (pre : List WakeUp) :
    ∀ (c : rtAppStatusCache) (time_left time_elapsed : Nat) (events : List WaitEvent),
      (WaitForAppState_loop app_name desired_state timeout_ms wait_for_stopped pre c
        time_left time_elapsed events).result = none →
      (WaitForAppState_loop app_name desired_state timeout_ms wait_for_stopped
        (pre ++ wk :: post) c time_left time_elapsed events).result = some false ∧
      (WaitForAppState_loop app_name desired_state timeout_ms wait_for_stopped
        (pre ++ wk :: post) c time_left time_elapsed events).events =
      (WaitForAppState_loop app_name desired_state timeout_ms wait_for_stopped pre c
        time_left time_elapsed events).events := by
  have hnot : ¬ wk.elapsed_ms % 2 ^ 64 < timeout_ms := by omega
  induction pre with
  | nil =>
    intro c tl te ev hres
    unfold WaitForAppState_loop at hres ⊢
    by_cases hte : te < timeout_ms
    · simp only [hte, if_true] at hres ⊢
      split_ifs at hres ⊢ with h1 h2
      simp only [List.nil_append]
      unfold WaitForAppState_loop
      simp only [hnot, if_false, and_self]
    · simp only [hte, if_false] at hres
      exact absurd hres (by simp)
  | cons a rest ih =>
    intro c tl te ev hres
    unfold WaitForAppState_loop at hres ⊢
    by_cases hte : te < timeout_ms
    · simp only [hte, if_true, List.cons_append] at hres ⊢
      split_ifs at hres ⊢ with h1 h2 h3
      · exact ih _ _ _ _ hres
      · exact ih _ _ _ _ hres
    · simp only [hte, if_false] at hres
      exact absurd hres (by simp)

/-- C30: in `WaitForAppState`, for every `timeout_ms` (an `unsigned int`) and every
sequence of wake-ups, whatever their elapsed times: every duration `time_left` passed to
a wait on the condition variable satisfies `0 < time_left ≤ timeout_ms` (after a wake-up
at `time_elapsed < timeout_ms` it is `timeout_ms - time_elapsed`, which does not wrap);
every state check is made while `time_elapsed < timeout_ms`; and when the thread wakes
up with an elapsed time that has reached `timeout_ms`, the call returns false without
another state check or wait. -/
theorem C30_wait_durations (c : rtAppStatusCache) (app_name desired_state : CStr)
    (timeout_ms : Nat) (wakeups : List WakeUp) (ht : timeout_ms < 2 ^ 32) :
    (∀ time_left,
      WaitEvent.wait_for time_left ∈
        (WaitForAppState c app_name desired_state timeout_ms wakeups).events →
      0 < time_left ∧ time_left ≤ timeout_ms) ∧
    (∀ time_elapsed state,
      WaitEvent.state_check time_elapsed state ∈
        (WaitForAppState c app_name desired_state timeout_ms wakeups).events →
      time_elapsed < timeout_ms) ∧
    (∀ pre wk post, wakeups = pre ++ wk :: post →
      (WaitForAppState c app_name desired_state timeout_ms pre).result = none →
      timeout_ms ≤ wk.elapsed_ms % 2 ^ 64 →
      (WaitForAppState c app_name desired_state timeout_ms wakeups).result = some false ∧
      (WaitForAppState c app_name desired_state timeout_ms wakeups).events =
        (WaitForAppState c app_name desired_state timeout_ms pre).events) := by
  have hall : ∀ e ∈ (WaitForAppState c app_name desired_state timeout_ms wakeups).events,
      wait_event_in_bounds timeout_ms e := by
    unfold WaitForAppState
    apply wait_loop_events_in_bounds _ _ _ _ ht
    · intro h
      exact ⟨h, le_refl _⟩
    · intro e he
      simp at he
  refine ⟨fun tl h => hall _ h, fun te st h => hall _ h, ?_⟩
  intro pre wk post hw hres hwk
  rw [hw]
  unfold WaitForAppState at hres ⊢
  exact wait_loop_deadline _ _ _ _ wk post hwk pre _ _ _ _ hres

/-- C30 (witness): a wait of 100 ms for `stopped` while `Netflix` is cached as `running`,
with wake-ups after 40 ms (state `suspended`) and after 100 ms: the waits get 100 ms and
60 ms, and the call returns false at the second wake-up. -/
theorem C30_wait_durations_witness :
    (100 : Nat) < 2 ^ 32 ∧
    (WaitForAppState cache_netflix_running "Netflix".toList "stopped".toList 100
      [wakeup_example, { wakeup_example with elapsed_ms := 100 }]).events =
      [WaitEvent.state_check 0 "running".toList, WaitEvent.wait_for 100,
       WaitEvent.state_check 40 "suspended".toList, WaitEvent.wait_for 60] ∧
    (WaitForAppState cache_netflix_running "Netflix".toList "stopped".toList 100
      [wakeup_example, { wakeup_example with elapsed_ms := 100 }]).result = some false ∧
    (0 < 60 ∧ 60 ≤ 100) :=
  ⟨by decide, by decide, by decide,
    (C30_wait_durations cache_netflix_running "Netflix".toList "stopped".toList 100
      [wakeup_example, { wakeup_example with elapsed_ms := 100 }] (by decide)).1 60
      (by decide)⟩

/-! ## The `/apps/system` callback -/

/-- C23: for every request handled by the `/apps/system` callback (built without
`GDIAL_BUILD_TEST`): a POST invokes the platform system hook once, with the decoded
query, and is answered 200 when the hook returns `GDIAL_APP_ERROR_NONE` and 500
otherwise; a DELETE is answered 403 and leaves the state, in particular the list of
platform calls, as it was. -/
theorem C23_system_callback (system_res : GDialAppError) (w : World) (msg : SoupMessage)
    (query : Option (List (CStr × CStr))) :
    (msg.method = "POST".toList →
      (gdial_rest_http_server_system_callback system_res w msg query).2.status_code =
        (if system_res = GDIAL_APP_ERROR_NONE then 200 else 500) ∧
      (gdial_rest_http_server_system_callback system_res w msg query).1.plat_calls =
        w.plat_calls ++ [PlatCall.system_app query]) ∧
    (msg.method = "DELETE".toList →
      (gdial_rest_http_server_system_callback system_res w msg query).2.status_code = 403 ∧
      (gdial_rest_http_server_system_callback system_res w msg query).1 = w) := by
  constructor
  · intro hp
    simp only [gdial_rest_http_server_system_callback, hp, if_true]
    split_ifs <;> exact ⟨rfl, rfl⟩
  · intro hd
    have hp : ¬ msg.method = "POST".toList := by
      rw [hd]; decide
    simp only [gdial_rest_http_server_system_callback, hp, hd, if_true, if_false]
    exact ⟨rfl, rfl⟩

/-- C23 (witness): DELETE /apps/system/run is answered 403 without a platform call, and
POST /apps/system is answered 200 when the hook succeeds. -/
theorem C23_system_callback_witness :
    (gdial_rest_http_server_system_callback GDIAL_APP_ERROR_NONE
      (world_example registry_netflix [] (request_example "DELETE" "/apps/system/run" [] none) 0)
      (request_example "DELETE" "/apps/system/run" [] none) none).2.status_code = 403 ∧
    (gdial_rest_http_server_system_callback GDIAL_APP_ERROR_NONE
      (world_example registry_netflix [] (request_example "POST" "/apps/system" [] none) 0)
      (request_example "POST" "/apps/system" [] none)
      (some [("rest_enable".toList, "true".toList)])).2.status_code = 200 :=
  ⟨((C23_system_callback GDIAL_APP_ERROR_NONE
      (world_example registry_netflix [] (request_example "DELETE" "/apps/system/run" [] none) 0)
      (request_example "DELETE" "/apps/system/run" [] none) none).2 rfl).1,
    ((C23_system_callback GDIAL_APP_ERROR_NONE
      (world_example registry_netflix [] (request_example "POST" "/apps/system" [] none) 0)
      (request_example "POST" "/apps/system" [] none)
      (some [("rest_enable".toList, "true".toList)])).1 rfl).1⟩

/-! ## `Connection: close` on error responses -/

theorem closes_set_http_error (m : SoupMessage) (code : Nat) :
    closes_on_error (gdial_soup_message_set_http_error m code) := by
  intro _
  exact get_one_replace_same _ _ _

theorem closes_of_status_lt (m : SoupMessage) (h : m.status_code < 400) : closes_on_error m := by
  intro h4
  omega

theorem closes_handle_POST_respond (w : World) (msg : SoupMessage) (port : Nat) (app : GDialApp)
    (new : Bool) (err : GDialAppError) :
    closes_on_error (handle_POST_respond w msg port app new err).2 := by
  by_cases h : err = GDIAL_APP_ERROR_NONE
  · apply closes_of_status_lt
    rw [h, (handle_POST_respond_ok w msg port app new).1]
    decide
  · unfold handle_POST_respond
    rw [if_neg h]
    split_ifs <;> exact closes_set_http_error _ _

theorem closes_handle_POST (lim : Limits) (lib : Lib) (plat : LaunchPlat) (w : World)
    (msg : SoupMessage) (app_name : CStr) (t : Nat) :
    closes_on_error (gdial_rest_server_handle_POST lim lib plat w msg app_name t).2 := by
  unfold gdial_rest_server_handle_POST
  split
  · exact closes_set_http_error _ _
  · simp only []
    split_ifs
    · exact closes_set_http_error _ _
    · exact closes_set_http_error _ _
    · exact closes_set_http_error _ _
    · exact closes_handle_POST_respond _ _ _ _ _ _

theorem closes_handle_POST_hide (plat : ControlPlat) (w : World) (msg : SoupMessage)
    (app : GDialApp) (t : Nat) :
    closes_on_error (gdial_rest_server_handle_POST_hide plat w msg app t).2 := by
  unfold gdial_rest_server_handle_POST_hide
  simp only []
  split_ifs
  all_goals first
    | exact closes_set_http_error _ _
    | (apply closes_of_status_lt
       rw [(set_Allow_Origin_fields _ _).2.1]
       show (200 : Nat) < 400
       decide)

theorem closes_handle_DELETE (plat : ControlPlat) (w : World) (msg : SoupMessage)
    (app : GDialApp) (t : Nat) :
    closes_on_error (gdial_rest_server_handle_DELETE plat w msg app t).2 := by
  unfold gdial_rest_server_handle_DELETE
  simp only []
  split_ifs
  all_goals first
    | exact closes_set_http_error _ _
    | (apply closes_of_status_lt
       show (200 : Nat) < 400
       decide)

theorem closes_handle_POST_dial_data (lim : Limits) (lib : Lib) (w : World) (msg : SoupMessage)
    (app_name : CStr) :
    closes_on_error (gdial_rest_server_handle_POST_dial_data lim lib w msg app_name).2 := by
  unfold gdial_rest_server_handle_POST_dial_data
  simp only []
  repeat' split
  all_goals first
    | exact closes_set_http_error _ _
    | (apply closes_of_status_lt
       show (200 : Nat) < 400
       decide)

theorem closes_local_callback (lim : Limits) (lib : Lib) (w : World) (msg : SoupMessage)
    (path : CStr) :
    closes_on_error (gdial_local_rest_http_server_callback lim lib w msg path).2 := by
  unfold gdial_local_rest_http_server_callback
  simp only []
  repeat' split
  all_goals first
    | exact closes_set_http_error _ _
    | exact closes_handle_POST_dial_data _ _ _ _ _

theorem closes_handle_GET_app (lib : Lib) (res : GDialAppError × GDialAppState) (w : World)
    (msg : SoupMessage) (app_name : CStr) :
    closes_on_error (gdial_rest_server_handle_GET_app lib res w msg app_name).2 := by
  unfold gdial_rest_server_handle_GET_app
  split
  · exact closes_set_http_error _ _
  · simp only []
    split_ifs <;>
      (apply closes_of_status_lt
       show (200 : Nat) < 400
       decide)

theorem closes_send (method : MethodType) (server message : Nat) (pool : GThreadPool)
    (data : AppsHandlerThreadPoolData) (push_ok : Bool) (w : World) (m : SoupMessage)
    (hdata : data.message = none) (hm : w.msg message = some m) (hc : closes_on_error m) :
    error_response_closes
      ((gdial_rest_server_send method server message pool data push_ok w).map (fun r => r.2))
      message := by
  intro w2 h
  simp only [gdial_rest_server_send, hdata] at h
  by_cases h1 : g_thread_pool_unprocessed pool < REST_API_THREAD_POOL_NOT_PROCESSED_LIMIT
  · rw [if_pos h1] at h
    have hp : (soup_server_pause_message w message).msg message = some m := hm
    cases push_ok with
    | true =>
      simp only [if_true, Except.map, Except.ok.injEq] at h
      subst h
      exact ⟨m, hm, hc⟩
    | false =>
      simp only [Bool.false_eq_true, if_false, hp, Except.map, Except.ok.injEq] at h
      subst h
      refine ⟨_, ?_, closes_set_http_error m SOUP_STATUS_INTERNAL_SERVER_ERROR⟩
      exact msg_set_msg _ _ _
  · rw [if_neg h1] at h
    exact absurd h (by simp [Except.map])

theorem closes_POST_and_wait (server msg : Nat) (app_name : CStr) (push_ok : Bool) (w : World)
    (m : SoupMessage) (hm : w.msg msg = some m) (hc : closes_on_error m) :
    error_response_closes
      (gdial_rest_server_handle_POST_and_wait server msg app_name push_ok w) msg := by
  unfold gdial_rest_server_handle_POST_and_wait
  split
  · intro w2 h
    cases h
    exact ⟨m, hm, hc⟩
  · exact closes_send _ _ _ _ _ _ _ m rfl hm hc

theorem closes_POST_hide_and_wait (server msg : Nat) (app : GDialApp) (push_ok : Bool)
    (w : World) (m : SoupMessage) (hm : w.msg msg = some m) (hc : closes_on_error m) :
    error_response_closes
      (gdial_rest_server_handle_POST_hide_and_wait server msg app push_ok w) msg := by
  unfold gdial_rest_server_handle_POST_hide_and_wait
  split
  · intro w2 h
    cases h
    exact ⟨m, hm, hc⟩
  · exact closes_send _ _ _ _ _ _ _ m rfl hm hc

theorem closes_DELETE_and_wait (server msg : Nat) (app : GDialApp) (push_ok : Bool)
    (w : World) (m : SoupMessage) (hm : w.msg msg = some m) (hc : closes_on_error m) :
    error_response_closes
      (gdial_rest_server_handle_DELETE_and_wait server msg app push_ok w) msg := by
  unfold gdial_rest_server_handle_DELETE_and_wait
  split
  · intro w2 h
    cases h
    exact ⟨m, hm, hc⟩
  · exact closes_send _ _ _ _ _ _ _ m rfl hm hc

theorem closes_ok_set_msg (w : World) (msg : Nat) (m2 : SoupMessage) (h : closes_on_error m2) :
    error_response_closes (.ok (w.set_msg msg m2)) msg := by
  intro w2 h2
  cases h2
  exact ⟨m2, msg_set_msg _ _ _, h⟩

theorem closes_handle_OPTIONS (m : SoupMessage) (methods : CStr) :
    closes_on_error (gdial_rest_server_handle_OPTIONS m methods) := by
  apply closes_of_status_lt
  rw [(handle_OPTIONS_spec m methods).1]
  decide

theorem closes_dispatch (lib : Lib) (plat : CallbackPlat) (w : World) (server msg : Nat)
    (m : SoupMessage) (client : SoupClientContext) (header_origin : Option CStr)
    (pe : PathElements) (hm : w.msg msg = some m) (hc : closes_on_error m) :
    error_response_closes
      (apps_callback_dispatch lib plat w server msg m client header_origin pe) msg := by
  have hsame : error_response_closes (.ok w) msg := by
    intro w2 h
    cases h
    exact ⟨m, hm, hc⟩
  unfold apps_callback_dispatch
  simp only []
  repeat' split
  all_goals first
    | exact closes_ok_set_msg _ _ _ (closes_set_http_error _ _)
    | exact closes_ok_set_msg _ _ _ (closes_handle_OPTIONS _ _)
    | exact closes_ok_set_msg _ _ _ (closes_handle_GET_app _ _ _ _ _)
    | exact closes_POST_and_wait _ _ _ _ _ m hm hc
    | exact closes_POST_hide_and_wait _ _ _ _ _ m hm hc
    | exact closes_DELETE_and_wait _ _ _ _ _ m hm hc
    | exact hsame

theorem closes_apps_callback (lim : Limits) (lib : Lib) (plat : CallbackPlat) (w : World)
    (server msg : Nat) (path : CStr) (client : SoupClientContext) (m : SoupMessage)
    (hm : w.msg msg = some m) (hc : closes_on_error m) :
    error_response_closes
      (gdial_rest_http_server_apps_callback lim lib plat w server msg path client) msg := by
  unfold gdial_rest_http_server_apps_callback
  rw [hm]
  simp only []
  repeat' split
  all_goals first
    | exact closes_ok_set_msg _ _ _ (closes_set_http_error _ _)
    | exact closes_dispatch _ _ _ _ _ _ _ _ _ hm hc

/-- C24 (counterexample): the `/apps/system` callback answers DELETE /apps/system/run
with 403, a POST whose platform hook fails with 500 and a GET with 405, each time
without a `Connection` header in the response. -/
theorem C24_system_errors_without_connection_close :
    (gdial_rest_http_server_system_callback GDIAL_APP_ERROR_NONE
      (world_example registry_netflix [] (request_example "DELETE" "/apps/system/run" [] none) 0)
      (request_example "DELETE" "/apps/system/run" [] none) none).2.status_code = 403 ∧
    soup_message_headers_get_one
      (gdial_rest_http_server_system_callback GDIAL_APP_ERROR_NONE
        (world_example registry_netflix [] (request_example "DELETE" "/apps/system/run" [] none) 0)
        (request_example "DELETE" "/apps/system/run" [] none) none).2.response_headers
      "Connection".toList = none ∧
    (gdial_rest_http_server_system_callback GDIAL_APP_ERROR_INTERNAL
      (world_example registry_netflix [] (request_example "POST" "/apps/system" [] none) 0)
      (request_example "POST" "/apps/system" [] none) none).2.status_code = 500 ∧
    soup_message_headers_get_one
      (gdial_rest_http_server_system_callback GDIAL_APP_ERROR_INTERNAL
        (world_example registry_netflix [] (request_example "POST" "/apps/system" [] none) 0)
        (request_example "POST" "/apps/system" [] none) none).2.response_headers
      "Connection".toList = none ∧
    (gdial_rest_http_server_system_callback GDIAL_APP_ERROR_NONE
      (world_example registry_netflix [] (request_example "GET" "/apps/system" [] none) 0)
      (request_example "GET" "/apps/system" [] none) none).2.status_code = 405 ∧
    soup_message_headers_get_one
      (gdial_rest_http_server_system_callback GDIAL_APP_ERROR_NONE
        (world_example registry_netflix [] (request_example "GET" "/apps/system" [] none) 0)
        (request_example "GET" "/apps/system" [] none) none).2.response_headers
      "Connection".toList = none := by
  decide

/-- C24 (amended): every response with an error status (400 or above) produced by the
public apps callback, the local callback and the handlers LAUNCH, HIDE, STOP, SET_DATA
and GET_app carries the header `Connection: close`.  The request message `m` arrives
without an error status of its own (or with the header already set); for the public
callback the statement is about every run that returns. -/
theorem C24_error_responses_close (lim : Limits) (lib : Lib) (cplat : CallbackPlat)
    (lplat : LaunchPlat) (kplat : ControlPlat) (res : GDialAppError × GDialAppState) (w : World)
    (server msg : Nat) (path : CStr) (client : SoupClientContext) (m : SoupMessage)
    (app : GDialApp) (app_name : CStr) (t : Nat)
    (hm : w.msg msg = some m) (hc : closes_on_error m) :
    error_response_closes
      (gdial_rest_http_server_apps_callback lim lib cplat w server msg path client) msg ∧
    closes_on_error (gdial_local_rest_http_server_callback lim lib w m path).2 ∧
    closes_on_error (gdial_rest_server_handle_POST lim lib lplat w m app_name t).2 ∧
    closes_on_error (gdial_rest_server_handle_POST_hide kplat w m app t).2 ∧
    closes_on_error (gdial_rest_server_handle_DELETE kplat w m app t).2 ∧
    closes_on_error (gdial_rest_server_handle_POST_dial_data lim lib w m app_name).2 ∧
    closes_on_error (gdial_rest_server_handle_GET_app lib res w m app_name).2 :=
  ⟨closes_apps_callback lim lib cplat w server msg path client m hm hc,
    closes_local_callback lim lib w m path,
    closes_handle_POST lim lib lplat w m app_name t,
    closes_handle_POST_hide kplat w m app t,
    closes_handle_DELETE kplat w m app t,
    closes_handle_POST_dial_data lim lib w m app_name,
    closes_handle_GET_app lib res w m app_name⟩

/-- C24 (witness): GET /apps/Unknown on the local callback is answered 501 with
`Connection: close`, and a STOP whose wait times out is answered 500 with
`Connection: close`. -/
theorem C24_error_responses_close_witness :
    (gdial_local_rest_http_server_callback limits_example lib_example
      (world_example registry_netflix [netflix_running]
        (request_example "GET" "/apps/Unknown" [] none) 0)
      (request_example "GET" "/apps/Unknown" [] none) "/apps/Unknown".toList).2.status_code
      = 501 ∧
    soup_message_headers_get_one
      (gdial_local_rest_http_server_callback limits_example lib_example
        (world_example registry_netflix [netflix_running]
          (request_example "GET" "/apps/Unknown" [] none) 0)
        (request_example "GET" "/apps/Unknown" [] none) "/apps/Unknown".toList).2.response_headers
      "Connection".toList = some "close".toList ∧
    soup_message_headers_get_one
      (gdial_rest_server_handle_DELETE control_plat_timeout
        (world_example registry_netflix [netflix_running]
          (request_example "GET" "/apps/Unknown" [] none) 0)
        (request_example "GET" "/apps/Unknown" [] none) netflix_running 35000).2.response_headers
      "Connection".toList = some "close".toList :=
  ⟨by decide,
    (C24_error_responses_close limits_example lib_example callback_plat_example launch_plat_ok
      control_plat_timeout (GDIAL_APP_ERROR_NONE, GDIAL_APP_STATE_RUNNING)
      (world_example registry_netflix [netflix_running]
        (request_example "GET" "/apps/Unknown" [] none) 0)
      1 9 "/apps/Unknown".toList client_example (request_example "GET" "/apps/Unknown" [] none)
      netflix_running "Netflix".toList 35000 rfl
      (fun h => absurd h (by decide))).2.1 (by decide),
    (C24_error_responses_close limits_example lib_example callback_plat_example launch_plat_ok
      control_plat_timeout (GDIAL_APP_ERROR_NONE, GDIAL_APP_STATE_RUNNING)
      (world_example registry_netflix [netflix_running]
        (request_example "GET" "/apps/Unknown" [] none) 0)
      1 9 "/apps/Unknown".toList client_example (request_example "GET" "/apps/Unknown" [] none)
      netflix_running "Netflix".toList 35000 rfl
      (fun h => absurd h (by decide))).2.2.2.2.1 (by decide)⟩

/-! ## Unregistering -/

theorem find?_eraseP_split {α : Type} (p : α → Bool) (l : List α) (a : α)
    (h : l.find? p = some a) :
    ∃ l₁ l₂, l = l₁ ++ a :: l₂ ∧ l₁.find? p = none ∧ l.eraseP p = l₁ ++ l₂ := by
  induction l with
  | nil => simp at h
  | cons x rest ih =>
    by_cases hx : p x = true
    · rw [List.find?_cons_of_pos _ hx] at h
      cases h
      exact ⟨[], rest, rfl, rfl, by simp [List.eraseP_cons, hx]⟩
    · rw [List.find?_cons_of_neg _ hx] at h
      obtain ⟨l₁, l₂, h1, h2, h3⟩ := ih h
      refine ⟨x :: l₁, l₂, by rw [h1]; rfl, ?_, ?_⟩
      · rw [List.find?_cons_of_neg _ hx]; exact h2
      · simp [List.eraseP_cons, hx, h3]

/-- C26: `gdial_rest_server_unregister_app(name)` returns FALSE with the registry
unchanged exactly when the lookup for `name` finds no registration; when the lookup
returns a registration, the call returns TRUE and the registry loses exactly that entry,
at the place where the lookup found it (no entry before it matches), every other entry
staying in place and in order. -/
theorem C26_unregister_app (regs : List GDialAppRegistry) (app_name : CStr) :
    (((gdial_rest_server_unregister_app regs (some app_name)).1 = false ∧
        (gdial_rest_server_unregister_app regs (some app_name)).2 = regs) ↔
      gdial_rest_server_find_app_registry regs app_name = none) ∧
    (match gdial_rest_server_find_app_registry regs app_name with
      | none => gdial_rest_server_unregister_app regs (some app_name) = (false, regs)
      | some reg =>
        ∃ l₁ l₂, regs = l₁ ++ reg :: l₂ ∧
          gdial_rest_server_find_app_registry l₁ app_name = none ∧
          gdial_rest_server_unregister_app regs (some app_name) = (true, l₁ ++ l₂)) := by
  simp only [gdial_rest_server_unregister_app, gdial_rest_server_find_app_registry]
  cases hf : g_list_find_custom regs app_name GCompareFunc_match_registry_app_name with
  | none => simp
  | some reg =>
    obtain ⟨l₁, l₂, h1, h2, h3⟩ := find?_eraseP_split _ regs reg hf
    refine ⟨by simp, l₁, l₂, h1, h2, ?_⟩
    simp only [g_list_remove_found, h3]

/-! ## Bounded copies of the path elements -/

theorem g_strlcpy_length (e : CStr) (size : Nat) : (g_strlcpy e size).length ≤ size - 1 := by
  unfold g_strlcpy
  rw [List.length_take]
  exact Nat.min_le_left _ _

theorem g_strlcpy_of_lt (e : CStr) (size : Nat) (h : e.length < size) : g_strlcpy e size = e := by
  unfold g_strlcpy
  apply List.take_of_length_le
  omega

theorem copy_elements_bound (size : Nat) (els : List CStr) :
    ∀ acc : PathElements,
      (acc.base.length ≤ size - 1 ∧ acc.app_name.length ≤ size - 1 ∧
        acc.instance_.length ≤ size - 1 ∧ acc.last_elem.length ≤ size - 1) →
      (copy_elements size els acc).base.length ≤ size - 1 ∧
      (copy_elements size els acc).app_name.length ≤ size - 1 ∧
      (copy_elements size els acc).instance_.length ≤ size - 1 ∧
      (copy_elements size els acc).last_elem.length ≤ size - 1 := by
  induction els with
  | nil => intro acc h; exact h
  | cons e rest ih =>
    intro acc h
    unfold copy_elements
    obtain ⟨h1, h2, h3, h4⟩ := h
    have hc := g_strlcpy_length e size
    by_cases he : e.length = 0
    · rw [if_pos he]
      exact ih acc ⟨h1, h2, h3, h4⟩
    · rw [if_neg he]
      apply ih
      refine ⟨?_, ?_, ?_, ?_⟩ <;> (try split_ifs) <;>
        first | exact hc | exact h1 | exact h2 | exact h3

theorem check_elements_none_of_long (size : Nat) (els : List CStr) (hlen : els.length ≤ 4)
    (t : CStr) (ht : t ∈ els) (hne : t ≠ []) (hlong : size ≤ t.length) :
    check_elements
      [(copy_elements size els ⟨[], [], [], [], 0⟩).base,
       (copy_elements size els ⟨[], [], [], [], 0⟩).app_name,
       (copy_elements size els ⟨[], [], [], [], 0⟩).instance_,
       (copy_elements size els ⟨[], [], [], [], 0⟩).last_elem]
      (copy_elements size els ⟨[], [], [], [], 0⟩).element_num els 0 = none := by
  cases hc : check_elements
      [(copy_elements size els ⟨[], [], [], [], 0⟩).base,
       (copy_elements size els ⟨[], [], [], [], 0⟩).app_name,
       (copy_elements size els ⟨[], [], [], [], 0⟩).instance_,
       (copy_elements size els ⟨[], [], [], [], 0⟩).last_elem]
      (copy_elements size els ⟨[], [], [], [], 0⟩).element_num els 0 with
  | none => rfl
  | some i =>
    exfalso
    have hsome := congrArg Option.isSome hc
    obtain ⟨hseg, -⟩ := copy_check_elements size els hlen hsome
    have hmem : t ∈ (copy_elements size els ⟨[], [], [], [], 0⟩).segments := by
      rw [hseg, List.mem_filter]
      exact ⟨ht, by simpa using hne⟩
    obtain ⟨b1, b2, b3, b4⟩ := copy_elements_bound size els ⟨[], [], [], [], 0⟩
      ⟨Nat.zero_le _, Nat.zero_le _, Nat.zero_le _, Nat.zero_le _⟩
    have hmem2 := List.mem_of_mem_take hmem
    have hpos : 0 < t.length := List.length_pos.mpr hne
    simp only [List.mem_cons, List.mem_singleton, List.not_mem_nil, or_false] at hmem2
    rcases hmem2 with h | h | h | h <;> (rw [h] at hlong hpos; omega)

theorem check_elements_some_of_short (size : Nat) (els : List CStr) (hlen : els.length ≤ 4)
    (hshort : ∀ t ∈ els, t.length < size) :
    check_elements
      [(copy_elements size els ⟨[], [], [], [], 0⟩).base,
       (copy_elements size els ⟨[], [], [], [], 0⟩).app_name,
       (copy_elements size els ⟨[], [], [], [], 0⟩).instance_,
       (copy_elements size els ⟨[], [], [], [], 0⟩).last_elem]
      (copy_elements size els ⟨[], [], [], [], 0⟩).element_num els 0 =
      some (copy_elements size els ⟨[], [], [], [], 0⟩).element_num := by
  rcases els with _ | ⟨a, _ | ⟨b, _ | ⟨c, _ | ⟨d, _ | ⟨e, l⟩⟩⟩⟩⟩
  · simp [copy_elements, check_elements]
  · have ha := g_strlcpy_of_lt a size (hshort a (by simp))
    by_cases ha0 : a = [] <;>
      simp_all [copy_elements, check_elements, g_strcmp0_some_eq_zero_iff]
  · have ha := g_strlcpy_of_lt a size (hshort a (by simp))
    have hb := g_strlcpy_of_lt b size (hshort b (by simp))
    by_cases ha0 : a = [] <;> by_cases hb0 : b = [] <;>
      simp_all [copy_elements, check_elements, g_strcmp0_some_eq_zero_iff]
  · have ha := g_strlcpy_of_lt a size (hshort a (by simp))
    have hb := g_strlcpy_of_lt b size (hshort b (by simp))
    have hc := g_strlcpy_of_lt c size (hshort c (by simp))
    by_cases ha0 : a = [] <;> by_cases hb0 : b = [] <;> by_cases hc0 : c = [] <;>
      simp_all [copy_elements, check_elements, g_strcmp0_some_eq_zero_iff]
  · have ha := g_strlcpy_of_lt a size (hshort a (by simp))
    have hb := g_strlcpy_of_lt b size (hshort b (by simp))
    have hc := g_strlcpy_of_lt c size (hshort c (by simp))
    have hd := g_strlcpy_of_lt d size (hshort d (by simp))
    by_cases ha0 : a = [] <;> by_cases hb0 : b = [] <;> by_cases hc0 : c = [] <;>
      by_cases hd0 : d = [] <;>
      simp_all [copy_elements, check_elements, g_strcmp0_some_eq_zero_iff]
  · simp at hlen

/-- The result of `apps_callback_validate` once the family, security, length, prefix and
Host checks have passed. -/
theorem validate_after_checks (lim : Limits) (m : SoupMessage) (path : CStr)
    (client : SoupClientContext) (host : CStr)
    (hfam : client.family = GSocketFamily.G_SOCKET_FAMILY_IPV4)
    (hsec : gdial_soup_message_security_check m = true)
    (hlen : path.length < lim.GDIAL_REST_HTTP_MAX_URI_LEN)
    (hmin : 6 < path.length)
    (htake : path.take 5 = "/apps".toList)
    (hhost : soup_message_headers_get_one m.request_headers "Host".toList = some host) :
    apps_callback_validate lim m path client =
      (match check_elements
          [(copy_elements lim.GDIAL_REST_HTTP_PATH_COMPONENT_MAX_LEN
              (g_strsplit (path.drop 1) '/' 4) ⟨[], [], [], [], 0⟩).base,
           (copy_elements lim.GDIAL_REST_HTTP_PATH_COMPONENT_MAX_LEN
              (g_strsplit (path.drop 1) '/' 4) ⟨[], [], [], [], 0⟩).app_name,
           (copy_elements lim.GDIAL_REST_HTTP_PATH_COMPONENT_MAX_LEN
              (g_strsplit (path.drop 1) '/' 4) ⟨[], [], [], [], 0⟩).instance_,
           (copy_elements lim.GDIAL_REST_HTTP_PATH_COMPONENT_MAX_LEN
              (g_strsplit (path.drop 1) '/' 4) ⟨[], [], [], [], 0⟩).last_elem]
          (copy_elements lim.GDIAL_REST_HTTP_PATH_COMPONENT_MAX_LEN
              (g_strsplit (path.drop 1) '/' 4) ⟨[], [], [], [], 0⟩).element_num
          (g_strsplit (path.drop 1) '/' 4) 0 with
        | none => .error SOUP_STATUS_NOT_IMPLEMENTED
        | some i =>
          if (decide (i > 4 ∨ i < 2) ||
              (g_strcmp0
                (some (copy_elements lim.GDIAL_REST_HTTP_PATH_COMPONENT_MAX_LEN
                  (g_strsplit (path.drop 1) '/' 4) ⟨[], [], [], [], 0⟩).base)
                (some (GDIAL_REST_HTTP_APPS_URI.drop 1)) != 0) ||
              ((copy_elements lim.GDIAL_REST_HTTP_PATH_COMPONENT_MAX_LEN
                  (g_strsplit (path.drop 1) '/' 4) ⟨[], [], [], [], 0⟩).app_name.length == 0)) = true
          then .error SOUP_STATUS_NOT_IMPLEMENTED
          else .ok (host, copy_elements lim.GDIAL_REST_HTTP_PATH_COMPONENT_MAX_LEN
              (g_strsplit (path.drop 1) '/' 4) ⟨[], [], [], [], 0⟩)) := by
  have hmin2 : path.length > GDIAL_REST_HTTP_APPS_URI.length + "/".length := hmin
  have htake2 : ¬ path.take GDIAL_REST_HTTP_APPS_URI.length ≠ GDIAL_REST_HTTP_APPS_URI := by
    rw [ne_eq, not_not]; exact htake
  simp only [apps_callback_validate, hfam, ne_eq, not_true_eq_false, if_false, hsec,
    Bool.not_true, Bool.false_eq_true, hlen, hmin2, htake2, hhost]

/-- C29: for every request whose path passes the length, prefix and Host checks of the
public callback (IPv4 client, URI valid for HTTP): when one of the at most four tokens
of the split path is not empty and at least `GDIAL_REST_HTTP_PATH_COMPONENT_MAX_LEN`
characters long, the request is answered 501 and only the message changes (no handler,
no platform operation, nothing enqueued); and when every token is shorter than that
bound, the comparison of the copies with the tokens does not reject the path. -/
theorem C29_long_token_rejected (lim : Limits) (lib : Lib) (plat : CallbackPlat) (w : World)
    (server msg : Nat) (m : SoupMessage) (path : CStr) (client : SoupClientContext)
    (host : CStr)
    (hm : w.msg msg = some m)
    (hfam : client.family = GSocketFamily.G_SOCKET_FAMILY_IPV4)
    (hsec : gdial_soup_message_security_check m = true)
    (hlen : path.length < lim.GDIAL_REST_HTTP_MAX_URI_LEN)
    (hmin : 6 < path.length)
    (htake : path.take 5 = "/apps".toList)
    (hhost : soup_message_headers_get_one m.request_headers "Host".toList = some host) :
    ((∃ t ∈ g_strsplit (path.drop 1) '/' 4,
        t ≠ [] ∧ lim.GDIAL_REST_HTTP_PATH_COMPONENT_MAX_LEN ≤ t.length) →
      gdial_rest_http_server_apps_callback lim lib plat w server msg path client =
        .ok (w.set_msg msg (gdial_soup_message_set_http_error m 501)) ∧
      response_status
        (gdial_rest_http_server_apps_callback lim lib plat w server msg path client) msg =
        some 501) ∧
    ((∀ t ∈ g_strsplit (path.drop 1) '/' 4,
        t.length < lim.GDIAL_REST_HTTP_PATH_COMPONENT_MAX_LEN) →
      check_elements
        [(copy_elements lim.GDIAL_REST_HTTP_PATH_COMPONENT_MAX_LEN
            (g_strsplit (path.drop 1) '/' 4) ⟨[], [], [], [], 0⟩).base,
         (copy_elements lim.GDIAL_REST_HTTP_PATH_COMPONENT_MAX_LEN
            (g_strsplit (path.drop 1) '/' 4) ⟨[], [], [], [], 0⟩).app_name,
         (copy_elements lim.GDIAL_REST_HTTP_PATH_COMPONENT_MAX_LEN
            (g_strsplit (path.drop 1) '/' 4) ⟨[], [], [], [], 0⟩).instance_,
         (copy_elements lim.GDIAL_REST_HTTP_PATH_COMPONENT_MAX_LEN
            (g_strsplit (path.drop 1) '/' 4) ⟨[], [], [], [], 0⟩).last_elem]
        (copy_elements lim.GDIAL_REST_HTTP_PATH_COMPONENT_MAX_LEN
            (g_strsplit (path.drop 1) '/' 4) ⟨[], [], [], [], 0⟩).element_num
        (g_strsplit (path.drop 1) '/' 4) 0 =
      some (copy_elements lim.GDIAL_REST_HTTP_PATH_COMPONENT_MAX_LEN
            (g_strsplit (path.drop 1) '/' 4) ⟨[], [], [], [], 0⟩).element_num) := by
  have hne : path.drop 1 ≠ [] := by
    intro h0
    have := congrArg List.length h0
    simp at this
    omega
  have hle := (g_strsplit_four_join (path.drop 1) hne).2
  refine ⟨?_, ?_⟩
  · rintro ⟨t, ht, htne, hlong⟩
    have hnone := check_elements_none_of_long lim.GDIAL_REST_HTTP_PATH_COMPONENT_MAX_LEN
      (g_strsplit (path.drop 1) '/' 4) hle t ht htne hlong
    have hv := validate_after_checks lim m path client host hfam hsec hlen hmin htake hhost
    rw [hnone] at hv
    have hcb : gdial_rest_http_server_apps_callback lim lib plat w server msg path client =
        .ok (w.set_msg msg (gdial_soup_message_set_http_error m 501)) := by
      simp only [gdial_rest_http_server_apps_callback, hm, hv]
      rfl
    refine ⟨hcb, ?_⟩
    rw [hcb]
    simp only [response_status, msg_set_msg, Option.map_some']
    rfl
  · intro hshort
    exact check_elements_some_of_short _ _ hle hshort

/-- C29 (witness): GET on a path whose second token has 64 characters, the bound being
64: the request is answered 501. -/
theorem C29_long_token_rejected_witness :
    (6 : Nat) < long_name_path.toList.length ∧
    response_status
      (gdial_rest_http_server_apps_callback limits_example lib_example callback_plat_example
        (world_example registry_netflix [] (request_example "GET" long_name_path [] none) 0)
        1 9 long_name_path.toList client_example) 9 = some 501 :=
  ⟨by decide,
    ((C29_long_token_rejected limits_example lib_example callback_plat_example
      (world_example registry_netflix [] (request_example "GET" long_name_path [] none) 0)
      1 9 (request_example "GET" long_name_path [] none) long_name_path.toList client_example
      "192.168.1.10:56889".toList rfl rfl (by decide) (by decide) (by decide) (by decide)
      (by decide)).1
      ⟨"aaaaaaaaaaaaaaaaaaaaaaaaaaaaaaaaaaaaaaaaaaaaaaaaaaaaaaaaaaaaaaaa".toList, by decide, by decide, by decide⟩).2⟩

/-! ## Paths outside the grammar -/

theorem validate_error_code (lim : Limits) (m : SoupMessage) (path : CStr)
    (client : SoupClientContext) (host : CStr) (code : Nat)
    (hfam : client.family = GSocketFamily.G_SOCKET_FAMILY_IPV4)
    (hsec : gdial_soup_message_security_check m = true)
    (hlen : path.length < lim.GDIAL_REST_HTTP_MAX_URI_LEN)
    (hhost : soup_message_headers_get_one m.request_headers "Host".toList = some host)
    (h : apps_callback_validate lim m path client = .error code) : code = 501 := by
  simp only [apps_callback_validate, hfam, ne_eq, not_true_eq_false, if_false, hsec,
    Bool.not_true, Bool.false_eq_true, hlen, hhost] at h
  by_cases h1 : path.length > GDIAL_REST_HTTP_APPS_URI.length + "/".length
  · by_cases h2 : path.take GDIAL_REST_HTTP_APPS_URI.length = GDIAL_REST_HTTP_APPS_URI
    · simp only [h1, h2, not_true_eq_false, if_false] at h
      split at h
      · cases h; rfl
      · split_ifs at h
        cases h; rfl
    · simp only [h1, h2, not_true_eq_false, not_false_eq_true, if_false, if_true] at h
      cases h; rfl
  · simp only [h1, not_false_eq_true, if_true] at h
    cases h; rfl

theorem callback_of_validate_error (lim : Limits) (lib : Lib) (plat : CallbackPlat) (w : World)
    (server msg : Nat) (m : SoupMessage) (path : CStr) (client : SoupClientContext) (code : Nat)
    (hm : w.msg msg = some m)
    (h : apps_callback_validate lim m path client = .error code) :
    gdial_rest_http_server_apps_callback lim lib plat w server msg path client =
      .ok (w.set_msg msg (gdial_soup_message_set_http_error m code)) := by
  simp only [gdial_rest_http_server_apps_callback, hm, h]

theorem validate_ok_segments (lim : Limits) (m : SoupMessage) (path : CStr)
    (client : SoupClientContext) (host : CStr) (pe : PathElements)
    (h : apps_callback_validate lim m path client = .ok (host, pe)) :
    pe.segments = (g_strsplit (path.drop 1) '/' 4).filter (fun t => t ≠ []) ∧
    2 ≤ pe.element_num ∧ pe.element_num ≤ 4 ∧ pe.base = "apps".toList := by
  obtain ⟨hlen, -, -, hpe, hsome, hrange, hbase, -⟩ := validate_ok lim m path client host pe h
  have hne : path.drop 1 ≠ [] := by
    intro h0
    have := congrArg List.length h0
    simp at this
    omega
  have hle := (g_strsplit_four_join (path.drop 1) hne).2
  rw [hpe] at hsome
  obtain ⟨hseg, hexit⟩ := copy_check_elements _ _ hle hsome
  rw [← hpe] at hseg hexit
  have hnum := hrange _ hexit
  exact ⟨hseg, hnum.1, hnum.2, hbase⟩

/-- C25 (counterexample): three requests with an IPv4 remote address and a Host header
whose path has more than four, or fewer than two, non-empty segments and which are not
answered 501: GET /apps/Unknown/a/b/c (five segments, name not registered) is answered
404; OPTIONS /apps/Netflix//a/b/c (five segments) is answered 204 by the OPTIONS handler;
GET /apps//// (one segment) is answered 404. -/
theorem C25_segment_count_not_rejected :
    (path_segments "/apps/Unknown/a/b/c".toList).length = 5 ∧
    response_status
      (gdial_rest_http_server_apps_callback limits_example lib_example callback_plat_example
        (world_example registry_netflix [] (request_example "GET" "/apps/Unknown/a/b/c" [] none) 0)
        1 9 "/apps/Unknown/a/b/c".toList client_example) 9 = some 404 ∧
    (path_segments "/apps/Netflix//a/b/c".toList).length = 5 ∧
    response_status
      (gdial_rest_http_server_apps_callback limits_example lib_example callback_plat_example
        (world_example registry_netflix []
          (request_example "OPTIONS" "/apps/Netflix//a/b/c" [] none) 0)
        1 9 "/apps/Netflix//a/b/c".toList client_example) 9 = some 204 ∧
    (path_segments "/apps////".toList).length = 1 ∧
    response_status
      (gdial_rest_http_server_apps_callback limits_example lib_example callback_plat_example
        (world_example registry_netflix [] (request_example "GET" "/apps////" [] none) 0)
        1 9 "/apps////".toList client_example) 9 = some 404 := by
  decide

/-- C25 (amended): for every request reaching the public callback with an IPv4 remote
address, a URI valid for HTTP, a path shorter than `GDIAL_REST_HTTP_MAX_URI_LEN` and a
Host header.  When the path, split on `'/'` into at most four tokens (the fourth holds
the unsplit rest), has fewer than two non-empty tokens, or its first non-empty token is
not `apps`, the request is answered 501 and only the message changes.  A deeper path is
not rejected for its depth: when the four tokens are non-empty and the fourth contains a
`'/'`, the answer is 501 if the parser rejects the request; otherwise 403 if the origin
is not admitted for the second token, else 404 if that name is not registered, else 501;
no platform operation is invoked, nothing is enqueued or paused and no instance is
touched. -/
theorem C25_paths_outside_grammar (lim : Limits) (lib : Lib) (plat : CallbackPlat) (w : World)
    (server msg : Nat) (m : SoupMessage) (path : CStr) (client : SoupClientContext)
    (host : CStr)
    (hm : w.msg msg = some m)
    (hfam : client.family = GSocketFamily.G_SOCKET_FAMILY_IPV4)
    (hsec : gdial_soup_message_security_check m = true)
    (hlen : path.length < lim.GDIAL_REST_HTTP_MAX_URI_LEN)
    (hhost : soup_message_headers_get_one m.request_headers "Host".toList = some host) :
    ((((g_strsplit (path.drop 1) '/' 4).filter (fun t => t ≠ [])).length < 2 ∨
        ((g_strsplit (path.drop 1) '/' 4).filter (fun t => t ≠ [])).head? ≠
          some "apps".toList) →
      gdial_rest_http_server_apps_callback lim lib plat w server msg path client =
        .ok (w.set_msg msg (gdial_soup_message_set_http_error m 501)) ∧
      response_status
        (gdial_rest_http_server_apps_callback lim lib plat w server msg path client) msg =
        some 501) ∧
    (∀ a b c d, (g_strsplit (path.drop 1) '/' 4).filter (fun t => t ≠ []) = [a, b, c, d] →
      '/' ∈ d →
      response_status
        (gdial_rest_http_server_apps_callback lim lib plat w server msg path client) msg =
        some
          (match apps_callback_validate lim m path client with
            | .error _ => 501
            | .ok _ =>
              if gdial_rest_server_is_allowed_origin lib w.registered_apps
                  (soup_message_headers_get_one m.request_headers "Origin".toList) b = false
              then 403
              else if gdial_rest_server_is_app_registered w.registered_apps b = false then 404
              else 501) ∧
      ∃ w2, gdial_rest_http_server_apps_callback lim lib plat w server msg path client = .ok w2 ∧
        w2.plat_calls = w.plat_calls ∧ w2.poolInstance = w.poolInstance ∧
        w2.paused = w.paused ∧ w2.application_instances = w.application_instances) := by
  have hstatus : ∀ (w0 : World) (code : Nat),
      response_status (.ok (w0.set_msg msg (gdial_soup_message_set_http_error m code))) msg =
        some code := by
    intro w0 code
    simp only [response_status, msg_set_msg, Option.map_some']
    rfl
  refine ⟨?_, ?_⟩
  · intro hbad
    cases hv : apps_callback_validate lim m path client with
    | error code =>
      have hcode := validate_error_code lim m path client host code hfam hsec hlen hhost hv
      subst hcode
      have hcb := callback_of_validate_error lim lib plat w server msg m path client 501 hm hv
      exact ⟨hcb, by rw [hcb]; exact hstatus w 501⟩
    | ok r =>
      exfalso
      obtain ⟨host2, pe⟩ := r
      obtain ⟨hseg, h2, -, hbase⟩ := validate_ok_segments lim m path client host2 pe hv
      obtain ⟨n, hn⟩ : ∃ n, pe.element_num = n + 2 := ⟨pe.element_num - 2, by omega⟩
      rw [← hseg] at hbad
      rcases hbad with h | h
      · simp [PathElements.segments, hn] at h
        omega
      · apply h
        simp [PathElements.segments, hn, hbase]
  · intro a b c d hseg4 hslash
    cases hv : apps_callback_validate lim m path client with
    | error code =>
      have hcode := validate_error_code lim m path client host code hfam hsec hlen hhost hv
      subst hcode
      have hcb := callback_of_validate_error lim lib plat w server msg m path client 501 hm hv
      rw [hcb]
      exact ⟨hstatus w 501, _, rfl, rfl, rfl, rfl, rfl⟩
    | ok r =>
      obtain ⟨host2, pe⟩ := r
      obtain ⟨hseg, h2, h4, hbase⟩ := validate_ok_segments lim m path client host2 pe hv
      rw [hseg4] at hseg
      have hnum : pe.element_num = 4 := by
        have := congrArg List.length hseg
        simp [PathElements.segments] at this
        omega
      simp only [PathElements.segments, hnum, List.take, List.cons.injEq, and_true] at hseg
      obtain ⟨-, hb, -, hd⟩ := hseg
      have hhide : (g_strcmp0 (some pe.last_elem) (some (GDIAL_REST_HTTP_HIDE_URI.drop 1)) == 0)
          = false := by
        rw [beq_eq_false_iff_ne, ne_eq, g_strcmp0_some_eq_zero_iff, hd]
        intro h
        rw [h] at hslash
        exact absurd hslash (by decide)
      have h42 : ¬ (4 : Nat) = 2 := by decide
      have h43 : ¬ (4 : Nat) = 3 := by decide
      simp only [gdial_rest_http_server_apps_callback, hm, hv, hb]
      cases hallow : gdial_rest_server_is_allowed_origin lib w.registered_apps
          (soup_message_headers_get_one m.request_headers "Origin".toList) b with
      | false =>
        simp only [Bool.not_false, if_true]
        exact ⟨hstatus w 403, _, rfl, rfl, rfl, rfl, rfl⟩
      | true =>
        cases hreg : gdial_rest_server_is_app_registered w.registered_apps b with
        | false =>
          simp only [Bool.not_true, Bool.false_eq_true, if_false, Bool.not_false, if_true]
          exact ⟨hstatus _ 404, _, rfl, rfl, rfl, rfl, rfl⟩
        | true =>
          simp only [Bool.not_true, Bool.false_eq_true, if_false, apps_callback_dispatch, hnum,
            h42, h43, hhide]
          exact ⟨hstatus w 501, _, rfl, rfl, rfl, rfl, rfl⟩

/-- C25 (witness): GET /appsX/Netflix (first token not `apps`) is answered 501, and GET
/apps/Netflix/run/hide/extra (five segments, Netflix registered, no Origin header) is
answered 501. -/
theorem C25_paths_outside_grammar_witness :
    response_status
      (gdial_rest_http_server_apps_callback limits_example lib_example callback_plat_example
        (world_example registry_netflix [] (request_example "GET" "/appsX/Netflix" [] none) 0)
        1 9 "/appsX/Netflix".toList client_example) 9 = some 501 ∧
    response_status
      (gdial_rest_http_server_apps_callback limits_example lib_example callback_plat_example
        (world_example registry_netflix []
          (request_example "GET" "/apps/Netflix/run/hide/extra" [] none) 0)
        1 9 "/apps/Netflix/run/hide/extra".toList client_example) 9 = some 501 :=
  ⟨((C25_paths_outside_grammar limits_example lib_example callback_plat_example
      (world_example registry_netflix [] (request_example "GET" "/appsX/Netflix" [] none) 0)
      1 9 (request_example "GET" "/appsX/Netflix" [] none) "/appsX/Netflix".toList
      client_example "192.168.1.10:56889".toList rfl rfl (by decide) (by decide)
      (by decide)).1 (Or.inr (by decide))).2,
    ((C25_paths_outside_grammar limits_example lib_example callback_plat_example
      (world_example registry_netflix []
        (request_example "GET" "/apps/Netflix/run/hide/extra" [] none) 0)
      1 9 (request_example "GET" "/apps/Netflix/run/hide/extra" [] none)
      "/apps/Netflix/run/hide/extra".toList client_example "192.168.1.10:56889".toList
      rfl rfl (by decide) (by decide) (by decide)).2
      "apps".toList "Netflix".toList "run".toList "hide/extra".toList
      (by decide) (by decide)).1.trans (by decide)⟩

/-! ## Instance check -/

theorem check_instance_eq (w : World) (a : GDialApp) (inst : CStr) :
    gdial_rest_server_check_instance w (some a) inst =
      if inst = "run".toList ∨ (g_ascii_strtoll inst).2 = [] then some a else none := by
  have hrun : GDIAL_REST_HTTP_RUN_URI.drop 1 = "run".toList := by decide
  simp only [gdial_rest_server_check_instance, hrun, ne_eq, g_strcmp0_some_eq_zero_iff,
    List.length_eq_zero]
  by_cases h1 : inst = "run".toList
  · simp only [h1, not_true_eq_false, if_false, true_or, if_true]
  · simp only [h1, not_false_eq_true, if_true, false_or]
    by_cases h2 : (g_ascii_strtoll inst).2 = []
    · simp only [h2, if_true]
      split_ifs with h3
      · exact h3
      · rfl
    · simp only [h2, if_false]

theorem strtoll_rest_nil_iff (s : CStr) :
    (g_ascii_strtoll s).2 = [] ↔ s = [] ∨ is_decimal_integer s = true := by
  simp only [g_ascii_strtoll, is_decimal_integer]
  generalize hu : (if ((s.dropWhile g_ascii_isspace).head? == some '-' ||
      (s.dropWhile g_ascii_isspace).head? == some '+') = true
    then (s.dropWhile g_ascii_isspace).drop 1 else s.dropWhile g_ascii_isspace) = u
  have hs : s = [] → u = [] := by
    intro h
    rw [← hu, h]
    simp
  by_cases hd : u.takeWhile Char.isDigit = []
  · simp only [hd, if_true]
    constructor
    · intro h; exact Or.inl h
    · rintro (h | h)
      · exact h
      · exfalso
        simp only [ne_eq, Bool.and_eq_true, decide_eq_true_eq, List.all_eq_true] at h
        obtain ⟨hne, hall⟩ := h
        rcases u with _ | ⟨c, rest⟩
        · exact hne rfl
        · simp [List.takeWhile_cons, hall c (by simp)] at hd
  · simp only [hd, if_false]
    have hune : u ≠ [] := by
      intro h
      rw [h] at hd
      exact hd rfl
    have hsne : ¬ s = [] := fun h => hune (hs h)
    simp only [hsne, false_or, ne_eq, hune, not_false_eq_true, decide_True, Bool.true_and,
      List.all_eq_true, List.dropWhile_eq_nil_iff]

theorem validate_ok_instance_ne (lim : Limits) (m : SoupMessage) (path : CStr)
    (client : SoupClientContext) (host : CStr) (pe : PathElements)
    (h : apps_callback_validate lim m path client = .ok (host, pe))
    (h3 : 3 ≤ pe.element_num) : pe.instance_ ≠ [] := by
  obtain ⟨hseg, -, -, -⟩ := validate_ok_segments lim m path client host pe h
  have hmem : pe.instance_ ∈ pe.segments := by
    obtain ⟨n, hn⟩ : ∃ n, pe.element_num = n + 3 := ⟨pe.element_num - 3, by omega⟩
    simp [PathElements.segments, hn]
  rw [hseg, List.mem_filter] at hmem
  simpa using hmem.2

/-- C28: for every instance of an application and every instance string,
`gdial_rest_server_check_instance` returns that instance when the string is `run` and
whenever `g_ascii_strtoll` consumes the whole string, whether or not the parsed id
belongs to the instance, and returns NULL otherwise; the whole of a non-empty string is
consumed exactly when it is a decimal integer (optional white space and sign, then
digits only).  Hence, for an accepted request whose application has an instance: DELETE
/apps/<name>/<inst> and POST /apps/<name>/<inst>/hide are answered 404 with nothing
else changed when `<inst>` is neither `run` nor a decimal integer, and otherwise the
message is paused and the STOP or HIDE task is appended to the queue (the pool holding
fewer than 5 unprocessed tasks and the push succeeding). -/
theorem C28_check_instance (lim : Limits) (lib : Lib) (plat : CallbackPlat) (w : World)
    (server msg : Nat) (m : SoupMessage) (path : CStr) (client : SoupClientContext)
    (host : CStr) (pe : PathElements) (app : GDialApp)
    (hm : w.msg msg = some m)
    (hv : apps_callback_validate lim m path client = .ok (host, pe))
    (horigin : gdial_rest_server_is_allowed_origin lib w.registered_apps
      (soup_message_headers_get_one m.request_headers "Origin".toList) pe.app_name = true)
    (hreg : gdial_rest_server_is_app_registered w.registered_apps pe.app_name = true)
    (happ : gdial_app_find_instance_by_name w pe.app_name = some app)
    (hshape :
      (pe.element_num = 3 ∧ pe.last_elem ≠ "dial_data".toList ∧ m.method = "DELETE".toList) ∨
      (pe.element_num = 4 ∧ pe.last_elem = "hide".toList ∧ m.method = "POST".toList)) :
    (∀ (w0 : World) (a : GDialApp) (inst : CStr),
      gdial_rest_server_check_instance w0 (some a) inst =
        if inst = "run".toList ∨ (g_ascii_strtoll inst).2 = [] then some a else none) ∧
    (∀ inst : CStr, inst ≠ [] →
      ((g_ascii_strtoll inst).2 = [] ↔ is_decimal_integer inst = true)) ∧
    (if pe.instance_ = "run".toList ∨ is_decimal_integer pe.instance_ = true then
      ∀ pool, w.poolInstance = some pool →
        g_thread_pool_unprocessed pool < REST_API_THREAD_POOL_NOT_PROCESSED_LIMIT →
        plat.push_ok = true →
        gdial_rest_http_server_apps_callback lim lib plat w server msg path client =
          .ok { soup_server_pause_message w msg with
                poolInstance := some
                  { unprocessed := pool.unprocessed ++
                      [{ method := if pe.element_num = 3 then MethodType.DELETE
                                   else MethodType.POST_HIDE
                         server := some server
                         message := some msg
                         wait_timeout := 35000
                         g_server := false
                         app_name := none
                         app := some app.name }] } }
    else
      gdial_rest_http_server_apps_callback lim lib plat w server msg path client =
        .ok (w.set_msg msg (gdial_soup_message_set_http_error m 404)) ∧
      response_status
        (gdial_rest_http_server_apps_callback lim lib plat w server msg path client) msg =
        some 404) := by
  have hiff : ∀ inst : CStr, inst ≠ [] →
      ((g_ascii_strtoll inst).2 = [] ↔ is_decimal_integer inst = true) := by
    intro inst hne
    rw [strtoll_rest_nil_iff]
    simp [hne]
  refine ⟨check_instance_eq, hiff, ?_⟩
  have hcb := callback_accepted lim lib plat w server msg m path client host pe hm hv horigin hreg
  have h3 : 3 ≤ pe.element_num := by
    rcases hshape with ⟨h, -, -⟩ | ⟨h, -, -⟩ <;> omega
  have hne := validate_ok_instance_ne lim m path client host pe hv h3
  have hchk := check_instance_eq w app pe.instance_
  simp only [hiff _ hne] at hchk
  have h32 : ¬ (3 : Nat) = 2 := by decide
  have h42 : ¬ (4 : Nat) = 2 := by decide
  have h43 : ¬ (4 : Nat) = 3 := by decide
  have hdo : ¬ "DELETE".toList = "OPTIONS".toList := by decide
  have hpo : ¬ "POST".toList = "OPTIONS".toList := by decide
  rw [hcb]
  by_cases hnum : pe.instance_ = "run".toList ∨ is_decimal_integer pe.instance_ = true
  · rw [if_pos hnum] at hchk ⊢
    intro pool hpool hroom hpush
    rcases hshape with ⟨hn, hl, hmeth⟩ | ⟨hn, hl, hmeth⟩
    · have hd : (g_strcmp0 (some pe.last_elem) (some (GDIAL_REST_HTTP_DIAL_DATA_URI.drop 1))
          == 0) = false := by
        rw [beq_eq_false_iff_ne, ne_eq, g_strcmp0_some_eq_zero_iff]
        exact hl
      simp only [apps_callback_dispatch, hn, h32, if_false, if_true, hd, horigin, Bool.not_true,
        Bool.false_eq_true, hmeth, hdo, happ, hchk, gdial_rest_server_handle_DELETE_and_wait,
        hpool, gdial_rest_server_send, hroom, hpush, Except.map]
      rfl
    · have hd : (g_strcmp0 (some pe.last_elem) (some (GDIAL_REST_HTTP_HIDE_URI.drop 1))
          == 0) = true := by
        rw [beq_iff_eq, g_strcmp0_some_eq_zero_iff]
        exact hl
      simp only [apps_callback_dispatch, hn, h42, h43, if_false, if_true, hd, hmeth, hpo, happ,
        hchk, gdial_rest_server_handle_POST_hide_and_wait, hpool, gdial_rest_server_send, hroom,
        hpush, Except.map]
      rfl
  · rw [if_neg hnum] at hchk ⊢
    have hres : apps_callback_dispatch lib plat w server msg m client
        (soup_message_headers_get_one m.request_headers "Origin".toList) pe =
        .ok (w.set_msg msg (gdial_soup_message_set_http_error m 404)) := by
      rcases hshape with ⟨hn, hl, hmeth⟩ | ⟨hn, hl, hmeth⟩
      · have hd : (g_strcmp0 (some pe.last_elem) (some (GDIAL_REST_HTTP_DIAL_DATA_URI.drop 1))
            == 0) = false := by
          rw [beq_eq_false_iff_ne, ne_eq, g_strcmp0_some_eq_zero_iff]
          exact hl
        simp only [apps_callback_dispatch, hn, h32, if_false, if_true, hd, horigin,
          Bool.not_true, Bool.false_eq_true, hmeth, hdo, happ, hchk, SOUP_STATUS_NOT_FOUND]
      · have hd : (g_strcmp0 (some pe.last_elem) (some (GDIAL_REST_HTTP_HIDE_URI.drop 1))
            == 0) = true := by
          rw [beq_iff_eq, g_strcmp0_some_eq_zero_iff]
          exact hl
        simp only [apps_callback_dispatch, hn, h42, h43, if_false, if_true, hd, hmeth, hpo,
          happ, hchk, SOUP_STATUS_NOT_FOUND]
    rw [hres]
    refine ⟨rfl, ?_⟩
    simp only [response_status, msg_set_msg, Option.map_some']
    rfl

/-- C28 (witness): DELETE /apps/Netflix/9999 while a Netflix instance with id 0 exists:
no instance has the id 9999, yet the STOP task for Netflix is queued. -/
theorem C28_check_instance_witness :
    is_decimal_integer "9999".toList = true ∧
    gdial_app_find_instance_by_instance_id
      (world_example registry_netflix [netflix_running]
        (request_example "DELETE" "/apps/Netflix/9999" [] none) 0) 9999 = none ∧
    gdial_rest_http_server_apps_callback limits_example lib_example callback_plat_example
      (world_example registry_netflix [netflix_running]
        (request_example "DELETE" "/apps/Netflix/9999" [] none) 0)
      1 9 "/apps/Netflix/9999".toList client_example =
      .ok { soup_server_pause_message
              (world_example registry_netflix [netflix_running]
                (request_example "DELETE" "/apps/Netflix/9999" [] none) 0) 9 with
            poolInstance := some
              { unprocessed := [] ++
                  [{ method := if (3 : Nat) = 3 then MethodType.DELETE else MethodType.POST_HIDE
                     server := some 1
                     message := some 9
                     wait_timeout := 35000
                     g_server := false
                     app_name := none
                     app := some "Netflix".toList }] } } :=
  ⟨by decide, by decide,
    (if_pos (Or.inr (by decide))).mp
      (C28_check_instance limits_example lib_example callback_plat_example
        (world_example registry_netflix [netflix_running]
          (request_example "DELETE" "/apps/Netflix/9999" [] none) 0)
        1 9 (request_example "DELETE" "/apps/Netflix/9999" [] none) "/apps/Netflix/9999".toList
        client_example "192.168.1.10:56889".toList
        (PathElements.mk "apps".toList "Netflix".toList "9999".toList "9999".toList 3)
        netflix_running rfl rfl (by decide) (by decide) (by decide)
        (Or.inl ⟨rfl, by decide, rfl⟩)).2.2
      { unprocessed := [] } rfl (by decide) rfl⟩

/-! ## The GET response document -/

/-- C27: for every builder state the document built by `GET_APP_response_builder_build`
is, in this order: the XML declaration, the opening `<service>` with the schema and
`dialVer`, `<name>`, an `<options>` element exactly when the option helper gives a text,
`<state>`, a `<link rel="run" href=...>` element exactly when the state is not STOPPED,
an `<additionalData>` element (always empty) exactly when additional data is set, and
the closing `</service>`; and the length stored in `*length` is the length of the
returned string. -/
theorem C27_builder_document (env : BuilderEnv) (b : GDialServerResponseBuilderGetApp) :
    (GET_APP_response_builder_build env b).1 = (service_elements env b).flatten ∧
    (GET_APP_response_builder_build env b).2 = (GET_APP_response_builder_build env b).1.length := by
  have e1 : format_expand "<?xml version=\"1.0\" encoding=\"UTF-8\"?>\r\n".toList [] =
      "<?xml version=\"1.0\" encoding=\"UTF-8\"?>\r\n".toList := by decide
  have e2 : ∀ x y : Option CStr,
      format_expand "<service xmlns=\"%s\" dialVer=\"%s\">\r\n".toList [x, y] =
      "<service xmlns=\"".toList ++ (fmt_s x ++ ("\" dialVer=\"".toList ++ (fmt_s y ++
        "\">\r\n".toList))) := by
    intro x y; rfl
  have e3 : ∀ x : Option CStr, format_expand "  <name>%s</name>\r\n".toList [x] =
      "  <name>".toList ++ (fmt_s x ++ "</name>\r\n".toList) := by
    intro x; rfl
  have e4 : ∀ x : Option CStr, format_expand "  <options %s/>\r\n".toList [x] =
      "  <options ".toList ++ (fmt_s x ++ "/>\r\n".toList) := by
    intro x; rfl
  have e5 : ∀ x : Option CStr, format_expand "  <state>%s</state>\r\n".toList [x] =
      "  <state>".toList ++ (fmt_s x ++ "</state>\r\n".toList) := by
    intro x; rfl
  have e6 : ∀ x : Option CStr,
      format_expand "  <link rel=\"run\" href=\"%s\"/>\r\n".toList [x] =
      "  <link rel=\"run\" href=\"".toList ++ (fmt_s x ++ "\"/>\r\n".toList) := by
    intro x; rfl
  have e7 : format_expand "  <additionalData>%s</additionalData>\r\n".toList [some []] =
      "  <additionalData></additionalData>\r\n".toList := by decide
  have e8 : format_expand "</service>\r\n".toList [] = "</service>\r\n".toList := by decide
  have inv : ∀ (s : GString) (f : CStr) (a : List (Option CStr)),
      s.len = s.str.length →
      (g_string_append_printf s f a).len = (g_string_append_printf s f a).str.length := by
    intro s f a h
    simp only [g_string_append_printf, List.length_append, h]
  have hsome : fmt_s (some env.GDIAL_PROTOCOL_XMLNS_SCHEMA) = env.GDIAL_PROTOCOL_XMLNS_SCHEMA :=
    rfl
  refine ⟨?_, ?_⟩
  · unfold GET_APP_response_builder_build service_elements
    cases ho : env.gdial_util_str_str_hashtable_to_xml_string b.options <;>
      cases ha : b.additionalData <;>
      by_cases hs : b.state = GDIAL_APP_STATE_STOPPED <;>
      simp only [g_string_append_printf, g_string_new_len_null, e1, e2, e3, e4, e5, e6, e7, e8,
        hs, ne_eq, not_true_eq_false, not_false_eq_true, if_true, if_false, hsome,
        Option.isSome_none, Option.isSome_some, Bool.false_eq_true, List.flatten,
        List.append_assoc, List.nil_append, List.cons_append, List.append_nil, fmt_s]
  · unfold GET_APP_response_builder_build
    cases ho : env.gdial_util_str_str_hashtable_to_xml_string b.options <;>
      cases ha : b.additionalData <;>
      by_cases hs : b.state = GDIAL_APP_STATE_STOPPED <;>
      simp only [hs, ne_eq, not_true_eq_false, not_false_eq_true, if_true, if_false] <;>
      repeat (first | apply inv | exact rfl)

/-- The document for a running `Netflix`, built the way lines 753-758 of gdial-rest.c use
the builder (option `allowStop`, additional data `" "`), with the example helpers. -/
theorem builder_document_example :
    GET_APP_response_builder_build builder_env_example
      (GET_APP_response_builder_set_additionalData
        (GET_APP_response_builder_set_state
          (GET_APP_response_builder_set_option
            (GET_APP_response_builder_new builder_env_example (some "Netflix".toList))
            (some "allowStop".toList) (some "true".toList))
          GDIAL_APP_STATE_RUNNING)
        (some " ".toList)) =
      (("<?xml version=\"1.0\" encoding=\"UTF-8\"?>\r\n" ++
        "<service xmlns=\"urn:dial-multiscreen-org:schemas:dial\" dialVer=\"2.1\">\r\n" ++
        "  <name>Netflix</name>\r\n" ++
        "  <options allowStop=\"true\"/>\r\n" ++
        "  <state>running</state>\r\n" ++
        "  <link rel=\"run\" href=\"run\"/>\r\n" ++
        "  <additionalData></additionalData>\r\n" ++
        "</service>\r\n").toList, 273) := by
  rfl

end GDial
